import Mathlib

/-! # Order pipeline and review engine of the zamaci storefront backend

A shallow embedding of `src/controllers/orderController.js` (`createOrder`,
`calculateShippingCost`) together with the parts of `src/models/Product.js`,
`src/models/Coupon.js` and `src/models/Order.js` that the controller reads and
writes, and of `src/controllers/reviewController.js` (`createReview`,
`updateReview`, `deleteReview`, `updateReviewStatus`, `markHelpful`, `markLike`,
`reportReview`, `updateProductRating`, `getProductReviews`) with
`src/models/Review.js`; of `updateProduct` in
`src/controllers/productController.js`, `updateOrderStatus` and the order-number
hook of `src/models/Order.js`, and `calculateRatingStats` of
`src/utils/helpers.js`.

Modelling conventions:

* The numbers of the order pipeline (prices, subtotal, discount, shipping, tax,
  total) are IEEE 754 binary64 values, kept as the rationals they denote; every
  arithmetic operation rounds its exact result to the nearest such value (see
  the section on numbers).  Stock, quantities and usage counters are integers
  (`ℤ`), which binary64 holds exactly below `2 ^ 53`.  Ratings and their mean
  are rationals.
* `Math.round x` is `⌊x + 1/2⌋` (ties go towards `+∞`).
* A MongoDB collection is a list of documents; `findById` returns the first
  document carrying the identifier and `save` / `findByIdAndUpdate` rewrite that
  same document.  Object identifiers are natural numbers.
* `document.save()` validates the document, then runs the schema's
  `pre('save')` hook, then stores the document; when validation throws, nothing
  is stored and the handler answers from its `catch` block.  Documents read
  from the store are taken to satisfy their schema, with one exception: a
  product may carry the status `out_of_stock`, which the hook writes after
  validation.  The validators modelled are those of `Product` on the embedded
  fields, the required `orderNumber`, `shippingMethod` and line quantities of
  a new `Order`, and the `enum` of an order status; a shipping cost which is
  not a number cannot be stored either.  The validators of `Coupon` and of
  `Review` are not modelled.
* `new Date()` is the parameter `now`; the date parts and the random draw read
  by the order-number hook are the parameter `clock`.
* Concurrent calls are interleavings of the steps between two `await`s.
* Every `return res.status(..)` inside the handler ends the call; the store
  keeps whatever was saved before that point.
-/

namespace Zamaci

/-! ## Data model -/

/-- Values a stored `Product.status` can carry.  The schema literal declares the
key `status` twice: the later declaration (`active`, `draft`, `archived`) is the
`enum` in force (see `statusAllowed`), `inactive` and `out_of_stock` are the
values of the replaced one; `out_of_stock` is still written by the pre-save hook
and by the first loop of `createOrder`. -/
inductive ProductStatus where
  | active
  | inactive
  | out_of_stock
  | draft
  | archived
  deriving DecidableEq, Repr

/-- The fields of a `Product` document used by the order pipeline and by the
review controller.  `rating` and `reviewCount` default to 0 as in the schema. -/
structure Product where
  id : Nat
  price : ℚ
  stock : ℤ
  trackQuantity : Bool
  status : ProductStatus
  rating : ℚ := 0
  reviewCount : ℤ := 0
  deriving DecidableEq

/-- Values of `Coupon.type`. -/
inductive CouponType where
  | percentage
  | fixed
  deriving DecidableEq, Repr

/-- A `Coupon` document.  `maximumDiscount` has no default in the schema, so it
may be absent. -/
structure Coupon where
  id : Nat
  code : String
  type : CouponType
  value : ℚ
  minimumAmount : ℚ
  maximumDiscount : Option ℚ
  usageLimit : ℤ
  usedCount : ℤ
  validFrom : ℤ
  validUntil : ℤ
  isActive : Bool
  deriving DecidableEq

/-- One entry of `req.body.items`.  `variantPrice` is `item.variant?.price`:
`none` when the item has no variant or the variant has no price. -/
structure Item where
  product : Nat
  variantPrice : Option ℚ
  quantity : ℤ
  deriving DecidableEq

/-- One entry of `order.items` (the `itemSchema` of `Order.js`). -/
structure OrderLine where
  product : Nat
  variantPrice : Option ℚ
  quantity : ℤ
  price : ℚ
  deriving DecidableEq

/-- Values of `Order.status`. -/
inductive OrderStatus where
  | en_attente
  | confirme
  | en_preparation
  | expedie
  | livre
  | retourne
  | annule
  deriving DecidableEq, Repr

/-- Values of `Order.paymentStatus`. -/
inductive PaymentStatus where
  | en_attente
  | paye
  | echec
  | annule
  deriving DecidableEq, Repr

/-- The `Order` document built by `createOrder`.  The fields after
`shippingMethod` carry the schema defaults (`status` and `paymentStatus`
`en_attente`, no tracking number, no carrier); `createOrder` passes no
`orderNumber`, which is kept as the empty string until the pre-save hook sets
it (see `orderPreSave`). -/
structure Order where
  items : List OrderLine
  subtotal : ℚ
  shipping : ℚ
  tax : ℚ
  total : ℚ
  discount : ℚ
  coupon : Option Nat
  shippingMethod : String
  id : Nat := 0
  orderNumber : String := ""
  status : OrderStatus := OrderStatus.en_attente
  paymentStatus : PaymentStatus := PaymentStatus.en_attente
  trackingNumber : Option String := none
  carrier : Option String := none
  deriving DecidableEq

/-- The three collections the handler touches. -/
structure Store where
  products : List Product
  coupons : List Coupon
  orders : List Order
  deriving DecidableEq

/-- The part of `req.body` read by `createOrder`. -/
structure Request where
  items : List Item
  shippingMethod : String
  couponCode : Option String

/-- The error responses of `createOrder`. -/
inductive OrderError where
  /-- Status 404 `Produit … non trouvé`. -/
  | productNotFound (id : Nat)
  /-- Status 400 `Stock insuffisant pour …. Disponible: …`. -/
  | insufficientStock (id : Nat) (available : ℤ)
  /-- Status 400 `Limite d'utilisation du coupon dépassée`. -/
  | couponExhausted
  /-- Status 400 `Le montant minimum de la commande pour ce coupon est de …`. -/
  | couponMinimumNotMet (minimum : ℚ)
  /-- Status 400 `Code de coupon invalide ou expiré`. -/
  | invalidCoupon
  /-- Status 400 from the `catch` block: `order.save()` threw. -/
  | saveFailed
  /-- Status 400 from the `catch` block: `product.save()` threw in the first loop. -/
  | productSaveFailed
  deriving DecidableEq

/-- What the handler sends back: 201 with the created order, or an error. -/
inductive Response where
  | created (order : Order)
  | error (e : OrderError)
  deriving DecidableEq

/-! ## Collections -/

/-- The query `Model.findById`: the first document whose key is `id`. -/
def findById {α : Type} (key : α → Nat) : List α → Nat → Option α
  | [], _ => none
  | x :: xs, id => if key x = id then some x else findById key xs id

/-- Rewrite the first document whose key is `id` with `f`. -/
def updateById {α : Type} (key : α → Nat) (f : α → α) (id : Nat) : List α → List α
  | [] => []
  | x :: xs => if key x = id then f x :: xs else x :: updateById key f id xs

/-! ## Numbers

A JavaScript number is an IEEE 754 binary64 value.  A finite one is kept as the
rational it denotes, and `a + b`, `a - b`, `a * b`, `a / b` give the exact
result rounded to the nearest binary64 value, a tie going to the value with the
even significand (`toDouble`).  Results of magnitude `2 ^ 1024` and more
(`Infinity`) and `NaN` are outside the embedding. -/

/-- The power of two with an integer exponent. -/
def pow2 (k : ℤ) : ℚ :=
  if 0 ≤ k then ((2 ^ k.toNat : ℕ) : ℚ) else 1 / ((2 ^ (-k).toNat : ℕ) : ℚ)

/-- The number of binary digits of `n`, counted with at most `fuel` halvings. -/
def bitLength : Nat → Nat → Nat
  | 0, _ => 0
  | fuel + 1, n => if n = 0 then 0 else bitLength fuel (n / 2) + 1

/-- The exponent `e` with `2 ^ e ≤ a < 2 ^ (e + 1)`, for a positive `a`. -/
def binaryExponent (a : ℚ) : ℤ :=
  let k : ℤ := (bitLength a.num.natAbs a.num.natAbs : ℤ) - (bitLength a.den a.den : ℤ)
  if pow2 k ≤ a then k else k - 1

/-- Round to the nearest integer, a tie to the even one. -/
def roundHalfEven (x : ℚ) : ℤ :=
  let f : ℤ := ⌊x⌋
  let r : ℚ := x - f
  if r < 1 / 2 then f
  else if 1 / 2 < r then f + 1
  else if f % 2 = 0 then f
  else f + 1

/-- The binary64 value nearest to `x`: 53 significant binary digits, and below
`2 ^ (-1022)` the fixed spacing `2 ^ (-1074)` of the subnormal values. -/
def toDouble (x : ℚ) : ℚ :=
  if x = 0 then 0
  else
    let quantum := pow2 (max (binaryExponent |x|) (-1022) - 52)
    (roundHalfEven (x / quantum) : ℚ) * quantum

/-- The sum `a + b` of two numbers. -/
def jsAdd (a b : ℚ) : ℚ := toDouble (a + b)

/-- The difference `a - b` of two numbers. -/
def jsSub (a b : ℚ) : ℚ := toDouble (a - b)

/-- The product `a * b` of two numbers. -/
def jsMul (a b : ℚ) : ℚ := toDouble (a * b)

/-- The quotient `a / b` of two numbers, `b` not 0. -/
def jsDiv (a b : ℚ) : ℚ := toDouble (a / b)

/-- The function `Math.round`. -/
def mathRound (x : ℚ) : ℤ := ⌊x + 1 / 2⌋

/-- The expression `Math.round(x * 100) / 100`. -/
def round2 (x : ℚ) : ℚ := jsDiv (mathRound (jsMul x 100)) 100

/-! ## `Product.js` -/

/-- The hook `productSchema.pre('save')`. -/
def productPreSave (p : Product) : Product :=
  if p.trackQuantity = true ∧ p.stock ≤ 0 then
    { p with status := ProductStatus.out_of_stock }
  else if p.status = ProductStatus.out_of_stock ∧ p.stock > 0 then
    { p with status := ProductStatus.active }
  else p

/-- The `enum` of `Product.status` in force: the schema literal of `Product.js`
declares the key `status` on lines 123 and 165, and the later declaration, with
the values `active`, `draft` and `archived`, replaces the earlier one. -/
def statusAllowed : ProductStatus → Bool
  | ProductStatus.active => true
  | ProductStatus.draft => true
  | ProductStatus.archived => true
  | _ => false

/-- The validation that `product.save()` runs before the hook, on the embedded
fields: `status` in its `enum`, `price` at least 0, `rating` between 0 and 5,
`reviewCount` at least 0 (`stock` has no validator). -/
def productValid (p : Product) : Bool :=
  statusAllowed p.status && decide (0 ≤ p.price) && decide (0 ≤ p.rating)
    && decide (p.rating ≤ 5) && decide (0 ≤ p.reviewCount)

/-- The call `product.save()`: validate, run the hook, store the document under
its identifier.  The result is `none` when validation throws; nothing is stored
then. -/
def saveProduct (ps : List Product) (p : Product) : Option (List Product) :=
  if productValid p = true then
    some (updateById Product.id (fun _ => productPreSave p) p.id ps)
  else none

/-! ## `Order.js`: the order number and `save` -/

/-- What the pre-save hook of `Order.js` reads from its environment: the parts
of `new Date()` and the string `Math.random().toString(36)`, which is `0.`
followed by as many base-36 digits as the draw needs (`0.i` for the draw 0.5,
`0` for the draw 0). -/
structure SaveClock where
  fullYear : Nat
  month : Nat
  date : Nat
  randomString : String

/-- The call `s.padStart(2, '0')`. -/
def padStart2 (s : String) : String :=
  String.mk (List.replicate (2 - s.length) '0') ++ s

/-- The call `s.substr(start, length)` for non-negative arguments. -/
def substr (s : String) (start length : Nat) : String :=
  String.mk ((s.data.drop start).take length)

/-- The upper-case mapping of one character: Basic Latin and Latin-1 Supplement
(`ß` gives `SS`, `µ` and `ÿ` leave Latin-1); a character outside these two
blocks is left as it is. -/
def upperChar (c : Char) : List Char :=
  if c.toNat = 223 then ['S', 'S']
  else if c.toNat = 181 then [Char.ofNat 924]
  else if c.toNat = 255 then [Char.ofNat 376]
  else if 224 ≤ c.toNat ∧ c.toNat ≤ 254 ∧ c.toNat ≠ 247 then [Char.ofNat (c.toNat - 32)]
  else [c.toUpper]

/-- The method `String.prototype.toUpperCase`, on strings of Basic Latin and
Latin-1 characters. -/
def toUpperCase (s : String) : String := String.mk (s.data.flatMap upperChar)

/-- The template string of the hook:
`NONO-` year month day `-` `Math.random().toString(36).substr(2, 9).toUpperCase()`. -/
def generateOrderNumber (clock : SaveClock) : String :=
  "NONO-" ++ toString clock.fullYear ++ padStart2 (toString (clock.month + 1))
    ++ padStart2 (toString clock.date) ++ "-" ++ toUpperCase (substr clock.randomString 2 9)

/-- The hook `orderSchema.pre('save')`; `isNew` is `this.isNew`. -/
def orderPreSave (isNew : Bool) (clock : SaveClock) (o : Order) : Order :=
  if isNew = true then { o with orderNumber := generateOrderNumber clock } else o

/-- The validation that `order.save()` runs before the hook, on the fields of the
embedding: `orderNumber` and `shippingMethod` are required, the quantity of
every line is at least 1. -/
def orderValid (o : Order) : Bool :=
  decide (o.orderNumber ≠ "") && decide (o.shippingMethod ≠ "")
    && o.items.all (fun line => decide (1 ≤ line.quantity))

/-- The call `order.save()` on a new document: validate, run the hook, insert.
The result is `none` when validation throws; nothing is stored then. -/
def saveNewOrder (orders : List Order) (clock : SaveClock) (o : Order) :
    Option (List Order × Order) :=
  if orderValid o = true then
    some (orders ++ [orderPreSave true clock o], orderPreSave true clock o)
  else none

/-! ## `orderController.js` -/

/-- Result of an own-or-inherited property read `baseCosts[method] || 3000`:
a number, or a member inherited from `Object.prototype`. -/
inductive ShippingCost where
  | number (n : ℚ)
  | inherited (key : String)
  deriving DecidableEq

/-- Property names every plain object inherits from `Object.prototype`. -/
def objectPrototypeKeys : List String :=
  ["constructor", "toString", "toLocaleString", "valueOf", "hasOwnProperty",
   "isPrototypeOf", "propertyIsEnumerable", "__proto__", "__defineGetter__",
   "__defineSetter__", "__lookupGetter__", "__lookupSetter__"]

/-- The helper `calculateShippingCost(method, address)`; the address is unused. -/
def calculateShippingCost (method : String) : ShippingCost :=
  if method = "express_24h" then ShippingCost.number 5000
  else if method = "standard_48h" then ShippingCost.number 3000
  else if method = "point_relais" then ShippingCost.number 2000
  else if method ∈ objectPrototypeKeys then ShippingCost.inherited method
  else ShippingCost.number 3000

/-- Lines 42-47: `product.stock -= item.quantity`, then the status is set to
`out_of_stock` when the new stock is not positive. -/
def decrementStock (product : Product) (quantity : ℤ) : Product :=
  let product1 : Product := { product with stock := product.stock - quantity }
  if product1.stock ≤ 0 then { product1 with status := ProductStatus.out_of_stock }
  else product1

/-- The first `for (const item of items)` loop (lines 24-51): check the stock,
decrement it and save the product.  Returns the products as they are in the
store when the loop ends, and the error response if the loop ended the call:
one of its two `return`s, or the `catch` block when `product.save()` threw. -/
def stockLoop (ps : List Product) : List Item → List Product × Option OrderError
  | [] => (ps, none)
  | item :: rest =>
    match findById Product.id ps item.product with
    | none => (ps, some (OrderError.productNotFound item.product))
    | some product =>
      if product.trackQuantity = true ∧ product.stock < item.quantity then
        (ps, some (OrderError.insufficientStock product.id product.stock))
      else if product.trackQuantity = true then
        match saveProduct ps (decrementStock product item.quantity) with
        | none => (ps, some OrderError.productSaveFailed)
        | some ps1 => stockLoop ps1 rest
      else stockLoop ps rest

/-- The expression `item.variant?.price || product.price`. -/
def itemPrice (item : Item) (product : Product) : ℚ :=
  match item.variantPrice with
  | some v => if v ≠ 0 then v else product.price
  | none => product.price

/-- The second `for (const item of items)` loop (lines 53-76), with its two
accumulators `subtotal` and `orderItems`. -/
def priceLoop (ps : List Product) :
    List Item → ℚ → List OrderLine → Except OrderError (ℚ × List OrderLine)
  | [], subtotal, orderItems => Except.ok (subtotal, orderItems)
  | item :: rest, subtotal, orderItems =>
    match findById Product.id ps item.product with
    | none => Except.error (OrderError.productNotFound item.product)
    | some product =>
      if product.trackQuantity = true ∧ product.stock < item.quantity then
        Except.error (OrderError.insufficientStock product.id product.stock)
      else
        let price := itemPrice item product
        let itemTotal := jsMul price (item.quantity : ℚ)
        priceLoop ps rest (jsAdd subtotal itemTotal)
          (orderItems ++ [{ product := item.product, variantPrice := item.variantPrice,
                            quantity := item.quantity, price := price }])

/-- The query `Coupon.findOne({ code, isActive: true, validFrom ≤ now,
validUntil ≥ now })`. -/
def findCoupon (cs : List Coupon) (code : String) (now : ℤ) : Option Coupon :=
  cs.find? (fun c => decide (c.code = toUpperCase code) && c.isActive
    && decide (c.validFrom ≤ now) && decide (now ≤ c.validUntil))

/-- The discount of lines 102-111 for a resolved coupon. -/
def couponDiscount (coupon : Coupon) (subtotal : ℚ) : ℚ :=
  match coupon.type with
  | CouponType.percentage =>
    let discount := jsDiv (jsMul subtotal coupon.value) 100
    match coupon.maximumDiscount with
    | some m => if m ≠ 0 ∧ discount > m then m else discount
    | none => discount
  | CouponType.fixed => coupon.value

/-- Step 2 (lines 79-119): resolve and apply the coupon.  Returns the discount,
the coupon reference and the coupon collection after `coupon.save()`. -/
def applyCoupon (cs : List Coupon) (couponCode : Option String) (now : ℤ) (subtotal : ℚ) :
    Except OrderError (ℚ × Option Nat × List Coupon) :=
  match couponCode with
  | none => Except.ok (0, none, cs)
  | some code =>
    if code = "" then Except.ok (0, none, cs)
    else
      match findCoupon cs code now with
      | none => Except.error OrderError.invalidCoupon
      | some coupon =>
        if coupon.usageLimit ≠ 0 ∧ coupon.usedCount ≥ coupon.usageLimit then
          Except.error OrderError.couponExhausted
        else if subtotal < coupon.minimumAmount then
          Except.error (OrderError.couponMinimumNotMet coupon.minimumAmount)
        else
          Except.ok (couponDiscount coupon subtotal, some coupon.id,
            updateById Coupon.id
              (fun _ => { coupon with usedCount := coupon.usedCount + 1 }) coupon.id cs)

/-- Step 5 (lines 160-165): `Product.findByIdAndUpdate(item.product,
{ $inc: { stock: -item.quantity } })` for every item; no hook runs. -/
def incStock (ps : List Product) : List Item → List Product
  | [] => ps
  | item :: rest =>
    incStock (updateById Product.id
      (fun p => { p with stock := p.stock + (-item.quantity) }) item.product ps) rest

/-- Lines 126-155: the tax, the total and the document `new Order({ .. })`.  No
`orderNumber` is passed to the constructor. -/
def buildOrder (orderItems : List OrderLine) (subtotal shipping discount : ℚ)
    (coupon : Option Nat) (shippingMethod : String) : Order :=
  let tax := jsMul (jsSub subtotal discount) (toDouble (8 / 100))
  let total := jsAdd (jsAdd (jsSub subtotal discount) shipping) tax
  { items := orderItems, subtotal := subtotal, shipping := shipping,
    tax := round2 tax, total := round2 total, discount := discount,
    coupon := coupon, shippingMethod := shippingMethod }

/-- The handler `createOrder`: the store after the call and the response. -/
def createOrder (st : Store) (now : ℤ) (clock : SaveClock) (req : Request) :
    Store × Response :=
  match stockLoop st.products req.items with
  | (ps1, some e) => ({ st with products := ps1 }, Response.error e)
  | (ps1, none) =>
    match priceLoop ps1 req.items 0 [] with
    | Except.error e => ({ st with products := ps1 }, Response.error e)
    | Except.ok (subtotal, orderItems) =>
      match applyCoupon st.coupons req.couponCode now subtotal with
      | Except.error e => ({ st with products := ps1 }, Response.error e)
      | Except.ok (discount, coupon, cs1) =>
        match calculateShippingCost req.shippingMethod with
        | ShippingCost.inherited _ =>
          ({ st with products := ps1, coupons := cs1 }, Response.error OrderError.saveFailed)
        | ShippingCost.number shipping =>
          match saveNewOrder st.orders clock
              (buildOrder orderItems subtotal shipping discount coupon req.shippingMethod) with
          | none =>
            ({ st with products := ps1, coupons := cs1 },
              Response.error OrderError.saveFailed)
          | some (orders1, createdOrder) =>
            ({ products := incStock ps1 req.items, coupons := cs1, orders := orders1 },
              Response.created createdOrder)

/-! ## Sample data -/

/-- A tracked, active product with identifier 1. -/
def sampleProduct (price : ℚ) (stock : ℤ) : Product :=
  { id := 1, price := price, stock := stock, trackQuantity := true,
    status := ProductStatus.active }

/-- A store holding one product and the given coupons. -/
def sampleStore (price : ℚ) (stock : ℤ) (coupons : List Coupon) : Store :=
  { products := [sampleProduct price stock], coupons := coupons, orders := [] }

/-- A request for one line of product 1, shipped with `standard_48h`. -/
def sampleRequest (variantPrice : Option ℚ) (quantity : ℤ) (couponCode : Option String) :
    Request :=
  { items := [{ product := 1, variantPrice := variantPrice, quantity := quantity }],
    shippingMethod := "standard_48h", couponCode := couponCode }

/-- A percentage coupon with identifier 7, valid from time 0 to time 100. -/
def sampleCoupon (code : String) (value : ℚ) (maximumDiscount : Option ℚ)
    (usageLimit usedCount : ℤ) : Coupon :=
  { id := 7, code := code, type := CouponType.percentage, value := value,
    minimumAmount := 0, maximumDiscount := maximumDiscount, usageLimit := usageLimit,
    usedCount := usedCount, validFrom := 0, validUntil := 100, isActive := true }

/-- The 10 % coupon `PROMO10` of the end-to-end example. -/
def promo10 : Coupon := sampleCoupon "PROMO10" 10 none 5 0

/-- The order document of the end-to-end example: subtotal 10000, 10 % coupon,
standard shipping. -/
def exampleOrder : Order :=
  { items := [{ product := 1, variantPrice := none, quantity := 1, price := 10000 }],
    subtotal := 10000, shipping := 3000, tax := 720, total := 12720, discount := 1000,
    coupon := some 7, shippingMethod := "standard_48h" }

/-- A 10 % coupon `CAP0` whose `maximumDiscount` is 0. -/
def zeroCapCoupon : Coupon := sampleCoupon "CAP0" 10 (some 0) 5 0

/-- An active coupon `FREE` whose `usageLimit` is 0, already used 3 times. -/
def unlimitedCoupon : Coupon := sampleCoupon "FREE" 10 none 0 3

/-- An active coupon `ONCE` with usageLimit 1 that has been used once. -/
def exhaustedCoupon : Coupon := sampleCoupon "ONCE" 10 none 1 1

/-- A 25 % coupon `QUART` without cap. -/
def quarterCoupon : Coupon := sampleCoupon "QUART" 25 none 5 0

/-! ## `Review.js` and `reviewController.js`

Reviews live in their own collection next to the products.  The `images` of a
review and the `populate` calls of the responses carry no logic and are left
out; the order collection is only read by `createReview` (to set `verified`)
and enters through the parameter `delivered`. -/

/-- Values of `Review.status`. -/
inductive ReviewStatus where
  | pending
  | approved
  | rejected
  deriving DecidableEq, Repr

/-- One entry of `review.reports`. -/
structure Report where
  user : Nat
  reason : String
  reportedAt : ℤ
  deriving DecidableEq

/-- A `Review` document.  `user` is absent for a guest review. -/
structure Review where
  id : Nat
  user : Option Nat
  product : Nat
  rating : ℚ
  title : String
  comment : String
  verified : Bool
  helpful : ℤ
  likes : ℤ
  status : ReviewStatus
  helpfulUsers : List Nat
  likedUsers : List Nat
  reports : List Report
  guestName : Option String
  guestEmail : Option String
  deriving DecidableEq

/-- The two collections the review controller writes. -/
structure ReviewStore where
  products : List Product
  reviews : List Review
  deriving DecidableEq

/-- The error responses of the review handlers. -/
inductive ReviewError where
  /-- Status 400 `Le produit, la note, le titre et le commentaire sont obligatoires`. -/
  | missingFields
  /-- Status 400 `La note doit être entre 1 et 5`. -/
  | ratingOutOfRange
  /-- Status 404 `Produit non trouvé`. -/
  | productNotFound
  /-- Status 400 `Vous avez déjà évalué ce produit`. -/
  | alreadyReviewed
  /-- Status 400 `Le nom est obligatoire pour les invités`. -/
  | guestNameRequired
  /-- Status 400 `Format d'email invalide`. -/
  | invalidEmail
  /-- Status 400 `Un avis avec cet email existe déjà pour ce produit`. -/
  | guestEmailUsed
  /-- Status 404 `Avis non trouvé`. -/
  | reviewNotFound
  /-- Status 403 `Non autorisé à …`. -/
  | notAuthorized
  /-- Status 400 `La raison du signalement est obligatoire`. -/
  | reasonRequired
  /-- Status 400 `Statut invalide`. -/
  | invalidStatus
  /-- Status 400 from a `catch` block: the handler threw. -/
  | thrown
  deriving DecidableEq

/-- The field `userAction` of a toggle response. -/
inductive UserAction where
  | added
  | removed
  deriving DecidableEq, Repr

/-- What a review handler sends back. -/
inductive ReviewResponse where
  /-- The review document (`createReview`, `updateReview`, `updateReviewStatus`). -/
  | review (r : Review)
  /-- The counter and the action of `markHelpful` and `markLike`. -/
  | toggled (count : ℤ) (userAction : UserAction)
  /-- The field `reportsCount` of `reportReview`. -/
  | reported (reportsCount : Nat)
  /-- The message `Avis supprimé avec succès` of `deleteReview`. -/
  | deleted
  | error (e : ReviewError)
  deriving DecidableEq

/-- The expression `Math.round(x * 10) / 10`. -/
def round1 (x : ℚ) : ℚ := (mathRound (x * 10) : ℚ) / 10

/-- The stage `$match: { product, status: 'approved' }` followed by the
projection of `$rating`: the ratings the `$group` stage sees. -/
def approvedRatings (rs : List Review) (productId : Nat) : List ℚ :=
  (rs.filter (fun r => decide (r.product = productId)
    && decide (r.status = ReviewStatus.approved))).map Review.rating

/-- The aggregation of `updateProductRating`: no group when nothing matches,
otherwise `$avg: '$rating'` and `$sum: 1` of the one group. -/
def ratingStats (rs : List Review) (productId : Nat) : Option (ℚ × ℤ) :=
  match approvedRatings rs productId with
  | [] => none
  | r :: rest => some ((r :: rest).sum / ((r :: rest).length : ℚ), ((r :: rest).length : ℤ))

/-- The helper `updateProductRating(productId)`. -/
def updateProductRating (st : ReviewStore) (productId : Nat) : ReviewStore :=
  match ratingStats st.reviews productId with
  | some (averageRating, reviewCount) =>
    let products := updateById Product.id
      (fun p => { p with rating := round1 averageRating, reviewCount := reviewCount })
      productId st.products
    { st with products := products }
  | none =>
    let products := updateById Product.id
      (fun p => { p with rating := 0, reviewCount := 0 }) productId st.products
    { st with products := products }

/-- Characters matched by `\s` in a JavaScript regular expression. -/
def isJsWhitespace (c : Char) : Bool :=
  c.toNat ∈ [0x09, 0x0A, 0x0B, 0x0C, 0x0D, 0x20, 0xA0, 0x1680, 0x2028, 0x2029, 0x202F,
    0x205F, 0x3000, 0xFEFF] || (decide (0x2000 ≤ c.toNat) && decide (c.toNat ≤ 0x200A))

/-- The test `/^[^\s@]+@[^\s@]+\.[^\s@]+$/.test(userEmail)`: no whitespace, exactly
one `@` with something before it, and after it a dot that is neither the first
nor the last character. -/
def emailRegexTest (userEmail : String) : Bool :=
  let chars := userEmail.data
  let domain := (chars.dropWhile (fun c => c != '@')).drop 1
  chars.all (fun c => !isJsWhitespace c)
    && chars.count '@' == 1
    && !(chars.takeWhile (fun c => c != '@')).isEmpty
    && ((domain.drop 1).dropLast).contains '.'

/-- The part of `req.body` read by `createReview`.  An absent string field is
the empty string, both are falsy. -/
structure CreateReviewBody where
  productId : Option Nat
  rating : Option ℚ
  title : String
  comment : String
  userName : String
  userEmail : String

/-- Lines 210-242 of `createReview`: build the review with status `approved`,
save it, recompute the product rating and answer 201 with the review. -/
def saveNewReview (st : ReviewStore) (newId : Nat) (user : Option Nat) (productId : Nat)
    (rating : ℚ) (body : CreateReviewBody) (verified : Bool) (guestName guestEmail : Option String) :
    ReviewStore × ReviewResponse :=
  let review : Review :=
    { id := newId, user := user, product := productId, rating := rating,
      title := body.title, comment := body.comment, verified := verified,
      helpful := 0, likes := 0, status := ReviewStatus.approved, helpfulUsers := [],
      likedUsers := [], reports := [], guestName := guestName, guestEmail := guestEmail }
  (updateProductRating { st with reviews := st.reviews ++ [review] } productId,
    ReviewResponse.review review)

/-- The handler `createReview`.  `user` is `req.user?._id`, `newId` the `_id`
given to the new document, `delivered u p` tells whether `Order.findOne` finds
a delivered order of user `u` containing product `p`. -/
def createReview (st : ReviewStore) (delivered : Nat → Nat → Bool) (newId : Nat)
    (user : Option Nat) (body : CreateReviewBody) : ReviewStore × ReviewResponse :=
  match body.productId, body.rating with
  | some productId, some rating =>
    if rating = 0 ∨ body.title = "" ∨ body.comment = "" then
      (st, ReviewResponse.error ReviewError.missingFields)
    else if rating < 1 ∨ rating > 5 then
      (st, ReviewResponse.error ReviewError.ratingOutOfRange)
    else
      match findById Product.id st.products productId with
      | none => (st, ReviewResponse.error ReviewError.productNotFound)
      | some _ =>
        match user with
        | some u =>
          match st.reviews.find? (fun r => decide (r.user = some u)
              && decide (r.product = productId)) with
          | some _ => (st, ReviewResponse.error ReviewError.alreadyReviewed)
          | none => saveNewReview st newId (some u) productId rating body
              (delivered u productId) none none
        | none =>
          if body.userName = "" then
            (st, ReviewResponse.error ReviewError.guestNameRequired)
          else if body.userEmail ≠ "" then
            if emailRegexTest body.userEmail = false then
              (st, ReviewResponse.error ReviewError.invalidEmail)
            else
              match st.reviews.find? (fun r => decide (r.product = productId)
                  && decide (r.guestEmail = some body.userEmail)) with
              | some _ => (st, ReviewResponse.error ReviewError.guestEmailUsed)
              | none => saveNewReview st newId none productId rating body false
                  (some body.userName) (some body.userEmail)
          else saveNewReview st newId none productId rating body false
              (some body.userName) none
  | _, _ => (st, ReviewResponse.error ReviewError.missingFields)

/-- The call `review.save()`: store the document under its identifier. -/
def saveReview (rs : List Review) (review : Review) : List Review :=
  updateById Review.id (fun _ => review) review.id rs

/-- The handler `markHelpful`; `userId` is `req.user._id`. -/
def markHelpful (st : ReviewStore) (id userId : Nat) : ReviewStore × ReviewResponse :=
  match findById Review.id st.reviews id with
  | none => (st, ReviewResponse.error ReviewError.reviewNotFound)
  | some review =>
    if userId ∈ review.helpfulUsers then
      let review1 : Review :=
        { review with helpfulUsers := review.helpfulUsers.filter (fun u => u != userId),
                      helpful := max 0 (review.helpful - 1) }
      ({ st with reviews := saveReview st.reviews review1 },
        ReviewResponse.toggled review1.helpful UserAction.removed)
    else
      let review1 : Review :=
        { review with helpfulUsers := review.helpfulUsers ++ [userId],
                      helpful := review.helpful + 1 }
      ({ st with reviews := saveReview st.reviews review1 },
        ReviewResponse.toggled review1.helpful UserAction.added)

/-- The handler `markLike`; `userId` is `req.user._id`. -/
def markLike (st : ReviewStore) (id userId : Nat) : ReviewStore × ReviewResponse :=
  match findById Review.id st.reviews id with
  | none => (st, ReviewResponse.error ReviewError.reviewNotFound)
  | some review =>
    if userId ∈ review.likedUsers then
      let review1 : Review :=
        { review with likedUsers := review.likedUsers.filter (fun u => u != userId),
                      likes := max 0 (review.likes - 1) }
      ({ st with reviews := saveReview st.reviews review1 },
        ReviewResponse.toggled review1.likes UserAction.removed)
    else
      let review1 : Review :=
        { review with likedUsers := review.likedUsers ++ [userId],
                      likes := review.likes + 1 }
      ({ st with reviews := saveReview st.reviews review1 },
        ReviewResponse.toggled review1.likes UserAction.added)

/-- The handler `reportReview`; `userId` is `req.user._id`, `reason` is
`req.body.reason` (absent = empty), `now` is `new Date()`. -/
def reportReview (st : ReviewStore) (id userId : Nat) (reason : String) (now : ℤ) :
    ReviewStore × ReviewResponse :=
  match findById Review.id st.reviews id with
  | none => (st, ReviewResponse.error ReviewError.reviewNotFound)
  | some review =>
    if reason = "" then (st, ReviewResponse.error ReviewError.reasonRequired)
    else
      let review1 : Review :=
        { review with reports := review.reports ++
            [{ user := userId, reason := reason, reportedAt := now }] }
      let review2 : Review :=
        if review1.reports.length ≥ 3 then { review1 with status := ReviewStatus.pending }
        else review1
      ({ st with reviews := saveReview st.reviews review2 },
        ReviewResponse.reported review2.reports.length)

/-- The part of `req.body` read by `updateReview`. -/
structure UpdateReviewBody where
  rating : Option ℚ
  title : String
  comment : String

/-- The handler `updateReview`; `userId` is `req.user._id`.  A guest review has
no `user`, so `review.user.toString()` throws. -/
def updateReview (st : ReviewStore) (id userId : Nat) (body : UpdateReviewBody) :
    ReviewStore × ReviewResponse :=
  match findById Review.id st.reviews id with
  | none => (st, ReviewResponse.error ReviewError.reviewNotFound)
  | some review =>
    match review.user with
    | none => (st, ReviewResponse.error ReviewError.thrown)
    | some owner =>
      if owner ≠ userId then (st, ReviewResponse.error ReviewError.notAuthorized)
      else
        let review1 : Review :=
          match body.rating with
          | some r => if r ≠ 0 then { review with rating := r } else review
          | none => review
        let review2 : Review :=
          if body.title ≠ "" then { review1 with title := body.title } else review1
        let review3 : Review :=
          if body.comment ≠ "" then { review2 with comment := body.comment } else review2
        let review4 : Review := { review3 with status := ReviewStatus.pending }
        (updateProductRating { st with reviews := saveReview st.reviews review4 }
          review4.product, ReviewResponse.review review4)

/-- The call `Review.deleteOne({ _id })`: drop the first document under `id`. -/
def deleteById (id : Nat) : List Review → List Review
  | [] => []
  | r :: rs => if r.id = id then rs else r :: deleteById id rs

/-- The handler `deleteReview`; `userId` is `req.user._id`, `isAdmin` is
`req.user.role === 'admin'`. -/
def deleteReview (st : ReviewStore) (id userId : Nat) (isAdmin : Bool) :
    ReviewStore × ReviewResponse :=
  match findById Review.id st.reviews id with
  | none => (st, ReviewResponse.error ReviewError.reviewNotFound)
  | some review =>
    if review.user ≠ some userId ∧ isAdmin = false then
      (st, ReviewResponse.error ReviewError.notAuthorized)
    else
      (updateProductRating { st with reviews := deleteById id st.reviews } review.product,
        ReviewResponse.deleted)

/-- The test `['pending', 'approved', 'rejected'].includes(status)` together
with the status it names. -/
def reviewStatusOfString (status : String) : Option ReviewStatus :=
  if status = "pending" then some ReviewStatus.pending
  else if status = "approved" then some ReviewStatus.approved
  else if status = "rejected" then some ReviewStatus.rejected
  else none

/-- The handler `updateReviewStatus`; `status` is `req.body.status`. -/
def updateReviewStatus (st : ReviewStore) (id : Nat) (status : String) :
    ReviewStore × ReviewResponse :=
  match findById Review.id st.reviews id with
  | none => (st, ReviewResponse.error ReviewError.reviewNotFound)
  | some review =>
    match reviewStatusOfString status with
    | none => (st, ReviewResponse.error ReviewError.invalidStatus)
    | some newStatus =>
      let review1 : Review := { review with status := newStatus }
      let st1 : ReviewStore := { st with reviews := saveReview st.reviews review1 }
      if newStatus = ReviewStatus.approved then
        (updateProductRating st1 review1.product, ReviewResponse.review review1)
      else (st1, ReviewResponse.review review1)

/-! ## Rating aggregate, as the specification words it -/

/-- Round-half-up to one decimal, as a relation: `r` is a whole number of
tenths, at most half a tenth away from `x`, ties resolved upwards. -/
def IsRoundHalfUp1 (x r : ℚ) : Prop :=
  ∃ n : ℤ, r = (n : ℚ) / 10 ∧ x * 10 - 1 / 2 < n ∧ (n : ℚ) ≤ x * 10 + 1 / 2

/-- The approved set of a product: its reviews with status `approved`. -/
def approvedReviewsOf (rs : List Review) (productId : Nat) : List Review :=
  rs.filter (fun r => decide (r.product = productId ∧ r.status = ReviewStatus.approved))

/-- Arithmetic mean of a list of numbers. -/
def arithmeticMean (xs : List ℚ) : ℚ := xs.sum / (xs.length : ℚ)

/-- The rating a product should carry: 0 without approved review, otherwise the
arithmetic mean of the approved ratings rounded to one decimal. -/
def expectedRating (rs : List Review) (productId : Nat) : ℚ :=
  if approvedReviewsOf rs productId = [] then 0
  else round1 (arithmeticMean ((approvedReviewsOf rs productId).map Review.rating))

/-- The review count a product should carry: the size of its approved set. -/
def expectedReviewCount (rs : List Review) (productId : Nat) : ℤ :=
  ((approvedReviewsOf rs productId).length : ℤ)

/-- The product stored under `productId`, if any, carries the rating and the
review count of its approved set. -/
def RatingInSync (st : ReviewStore) (productId : Nat) : Prop :=
  ∀ p, findById Product.id st.products productId = some p →
    p.rating = expectedRating st.reviews productId ∧
    p.reviewCount = expectedReviewCount st.reviews productId

/-- A review of product 1 written by the user whose identifier is the review's. -/
def sampleReview (id : Nat) (rating : ℚ) (status : ReviewStatus) : Review :=
  { id := id, user := some id, product := 1, rating := rating, title := "titre",
    comment := "commentaire", verified := false, helpful := 0, likes := 0, status := status,
    helpfulUsers := [], likedUsers := [], reports := [], guestName := none,
    guestEmail := none }

/-- Product 1 with three approved reviews rated 5, 5 and 4, one pending review
rated 1, and an approved review of product 2 rated 1. -/
def ratedStore : ReviewStore :=
  { products := [sampleProduct 50 10],
    reviews := [sampleReview 1 5 ReviewStatus.approved, sampleReview 2 5 ReviewStatus.approved,
      sampleReview 3 1 ReviewStatus.pending,
      { sampleReview 4 1 ReviewStatus.approved with product := 2 },
      sampleReview 5 4 ReviewStatus.approved] }

/-! ## Sequences of calls -/

/-- A call of one of the two toggle handlers on the review `id` by `userId`. -/
inductive ToggleCall where
  | helpful (id userId : Nat)
  | like (id userId : Nat)
  deriving DecidableEq

/-- The store after one toggle call. -/
def applyToggle (st : ReviewStore) : ToggleCall → ReviewStore
  | ToggleCall.helpful id userId => (markHelpful st id userId).1
  | ToggleCall.like id userId => (markLike st id userId).1

/-- The store after a sequence of toggle calls, first call first. -/
def runToggles (st : ReviewStore) (calls : List ToggleCall) : ReviewStore :=
  calls.foldl applyToggle st

/-- Every review of the store has non-negative `helpful` and `likes`. -/
def NonNegativeCounters (st : ReviewStore) : Prop :=
  ∀ r ∈ st.reviews, 0 ≤ r.helpful ∧ 0 ≤ r.likes

/-- The arguments of one `createReview` call. -/
structure CreateReviewCall where
  newId : Nat
  user : Option Nat
  body : CreateReviewBody

/-- The store after a sequence of `createReview` calls, first call first. -/
def runCreateReviews (delivered : Nat → Nat → Bool) (st : ReviewStore)
    (calls : List CreateReviewCall) : ReviewStore :=
  calls.foldl (fun s c => (createReview s delivered c.newId c.user c.body).1) st

/-- Two reviews share an identity: the same product and either the same user or
the same non-null guest email. -/
def SameIdentity (a b : Review) : Prop :=
  a.product = b.product ∧
    ((∃ u, a.user = some u ∧ b.user = some u) ∨
     (∃ e, a.guestEmail = some e ∧ b.guestEmail = some e))

/-- No two reviews of the collection share an identity. -/
def NoDuplicateReviews (rs : List Review) : Prop :=
  rs.Pairwise (fun a b => ¬ SameIdentity a b)

/-- A store with product 1 rated 5 from its only review, which is approved. -/
def singleReviewStore : ReviewStore :=
  { products := [{ sampleProduct 50 10 with rating := 5, reviewCount := 1 }],
    reviews := [sampleReview 1 5 ReviewStatus.approved] }

/-- Two earlier reports on a review, by users 8 and 9. -/
def twoReports : List Report :=
  [{ user := 8, reason := "spam", reportedAt := 10 },
   { user := 9, reason := "spam", reportedAt := 20 }]

/-- A store with product 1 rated 5 from its only review, which is approved and
has been reported twice. -/
def reportedTwiceStore : ReviewStore :=
  { products := [{ sampleProduct 50 10 with rating := 5, reviewCount := 1 }],
    reviews := [{ sampleReview 1 5 ReviewStatus.approved with reports := twoReports }] }

/-- The body of a guest review of product 1 with the given rating and email. -/
def guestBody (rating : ℚ) (userEmail : String) : CreateReviewBody :=
  { productId := some 1, rating := some rating, title := "Bien", comment := "Très bien",
    userName := "Awa", userEmail := userEmail }

/-- The review created from `guestBody` under the identifier 9. -/
def guestReview (rating : ℚ) (guestEmail : Option String) : Review :=
  { id := 9, user := none, product := 1, rating := rating, title := "Bien",
    comment := "Très bien", verified := false, helpful := 0, likes := 0,
    status := ReviewStatus.approved, helpfulUsers := [], likedUsers := [], reports := [],
    guestName := some "Awa", guestEmail := guestEmail }

/-- A store with product 1 and no review. -/
def emptyReviewStore : ReviewStore :=
  { products := [sampleProduct 50 10], reviews := [] }

/-! ## `productController.js`: `updateProduct` -/

/-- The fields of `req.body` that name a field of the embedded `Product`;
`none` means the body does not carry the field. -/
structure UpdateProductBody where
  price : Option ℚ
  stock : Option ℤ
  trackQuantity : Option Bool
  status : Option ProductStatus
  rating : Option ℚ
  reviewCount : Option ℤ

/-- The call `Object.assign(product, updateData)` with `updateData = { ...req.body }`:
every field the body carries overwrites the product's. -/
def assignProduct (product : Product) (body : UpdateProductBody) : Product :=
  { product with
    price := body.price.getD product.price
    stock := body.stock.getD product.stock
    trackQuantity := body.trackQuantity.getD product.trackQuantity
    status := body.status.getD product.status
    rating := body.rating.getD product.rating
    reviewCount := body.reviewCount.getD product.reviewCount }

/-- What `updateProduct` sends back. -/
inductive ProductResponse where
  | product (p : Product)
  /-- Status 404 `Produit non trouvé`. -/
  | notFound
  /-- Status 400 `Erreur de validation`: `product.save()` threw. -/
  | validationFailed
  deriving DecidableEq

/-- The handler `updateProduct` (the slug and the fields outside the embedded
`Product` are left out). -/
def updateProduct (ps : List Product) (id : Nat) (body : UpdateProductBody) :
    List Product × ProductResponse :=
  match findById Product.id ps id with
  | none => (ps, ProductResponse.notFound)
  | some product =>
    let product1 := assignProduct product body
    match saveProduct ps product1 with
    | none => (ps, ProductResponse.validationFailed)
    | some ps1 => (ps1, ProductResponse.product (productPreSave product1))

/-! ## `orderController.js`: `updateOrderStatus` -/

/-- The `enum` of `Order.status`, read from a request string. -/
def orderStatusOfString (status : String) : Option OrderStatus :=
  if status = "en_attente" then some OrderStatus.en_attente
  else if status = "confirme" then some OrderStatus.confirme
  else if status = "en_preparation" then some OrderStatus.en_preparation
  else if status = "expedie" then some OrderStatus.expedie
  else if status = "livre" then some OrderStatus.livre
  else if status = "retourne" then some OrderStatus.retourne
  else if status = "annule" then some OrderStatus.annule
  else none

/-- The `enum` of `Order.paymentStatus`, read from a request string. -/
def paymentStatusOfString (status : String) : Option PaymentStatus :=
  if status = "en_attente" then some PaymentStatus.en_attente
  else if status = "paye" then some PaymentStatus.paye
  else if status = "echec" then some PaymentStatus.echec
  else if status = "annule" then some PaymentStatus.annule
  else none

/-- The part of `req.body` read by `updateOrderStatus`; an absent field is the
empty string, both are falsy. -/
structure UpdateOrderStatusBody where
  status : String
  paymentStatus : String
  trackingNumber : String
  carrier : String

/-- What `updateOrderStatus` sends back. -/
inductive OrderStatusResponse where
  | order (o : Order)
  /-- Status 404 `Commande non trouvée`. -/
  | notFound
  /-- Status 400 from the `catch` block: a value outside the `enum` cannot be saved. -/
  | saveFailed
  deriving DecidableEq

/-- The handler `updateOrderStatus`.  The four `if (x) order.x = x` lines, then
`order.save()`, which runs the hook with `isNew = false`. -/
def updateOrderStatus (orders : List Order) (clock : SaveClock) (id : Nat)
    (body : UpdateOrderStatusBody) : List Order × OrderStatusResponse :=
  match findById Order.id orders id with
  | none => (orders, OrderStatusResponse.notFound)
  | some order =>
    let status? : Option OrderStatus :=
      if body.status ≠ "" then orderStatusOfString body.status else some order.status
    let paymentStatus? : Option PaymentStatus :=
      if body.paymentStatus ≠ "" then paymentStatusOfString body.paymentStatus
      else some order.paymentStatus
    match status?, paymentStatus? with
    | some status, some paymentStatus =>
      let order1 : Order :=
        { order with
          status := status
          paymentStatus := paymentStatus
          trackingNumber :=
            if body.trackingNumber ≠ "" then some body.trackingNumber else order.trackingNumber
          carrier := if body.carrier ≠ "" then some body.carrier else order.carrier }
      let saved := orderPreSave false clock order1
      (updateById Order.id (fun _ => saved) order.id orders, OrderStatusResponse.order saved)
    | _, _ => (orders, OrderStatusResponse.saveFailed)

/-- The order state machine of the specification: one step along
pending → confirmed → preparing → shipped → delivered. -/
def nextOrderStatus : OrderStatus → Option OrderStatus
  | OrderStatus.en_attente => some OrderStatus.confirme
  | OrderStatus.confirme => some OrderStatus.en_preparation
  | OrderStatus.en_preparation => some OrderStatus.expedie
  | OrderStatus.expedie => some OrderStatus.livre
  | _ => none

/-- The order state machine of the specification: a change from `s` to `t` is a
step of the chain, or leads to returned or cancelled from a status that is
neither. -/
def AllowedStatusChange (s t : OrderStatus) : Prop :=
  nextOrderStatus s = some t ∨
  ((t = OrderStatus.retourne ∨ t = OrderStatus.annule) ∧
    s ≠ OrderStatus.retourne ∧ s ≠ OrderStatus.annule)

/-! ## `reviewController.js`: `getProductReviews`, and `helpers.js` -/

/-- The object `sortOption` handed to `.sort(..)`: one field and a direction. -/
inductive SortOption where
  | createdAtDesc
  | createdAtAsc
  | ratingDesc
  | ratingAsc
  | helpfulDesc
  | likesDesc
  deriving DecidableEq, Repr

/-- The `switch (sort)` of lines 17-39; an absent `sort` is `newest`. -/
def sortOptionOf (sort : String) : SortOption :=
  if sort = "newest" then SortOption.createdAtDesc
  else if sort = "oldest" then SortOption.createdAtAsc
  else if sort = "highest" then SortOption.ratingDesc
  else if sort = "lowest" then SortOption.ratingAsc
  else if sort = "most_helpful" then SortOption.helpfulDesc
  else if sort = "most_liked" then SortOption.likesDesc
  else SortOption.createdAtDesc

/-- The order asked for by a `sortOption`: `a` may come before `b`.  The time
`createdAt` of a document is kept by the `timestamps` option of the schema and
enters as a function of the document identifier. -/
def sortedBefore (createdAt : Nat → ℤ) : SortOption → Review → Review → Prop
  | SortOption.createdAtDesc, a, b => createdAt b.id ≤ createdAt a.id
  | SortOption.createdAtAsc, a, b => createdAt a.id ≤ createdAt b.id
  | SortOption.ratingDesc, a, b => b.rating ≤ a.rating
  | SortOption.ratingAsc, a, b => a.rating ≤ b.rating
  | SortOption.helpfulDesc, a, b => b.helpful ≤ a.helpful
  | SortOption.likesDesc, a, b => b.likes ≤ a.likes

instance sortedBeforeDecidable (createdAt : Nat → ℤ) (o : SortOption) :
    DecidableRel (sortedBefore createdAt o) := fun a b => by
  cases o <;> unfold sortedBefore <;> infer_instance

/-- The cursor call `.sort(sortOption)`.  The store leaves the order of documents
that tie on the sort field open; the embedding keeps them in collection order
(a stable sort), which is one of the orders the store may return. -/
def sortReviews (createdAt : Nat → ℤ) (o : SortOption) (rs : List Review) : List Review :=
  rs.insertionSort (sortedBefore createdAt o)

/-- Add one to the entry at index `i`, if there is one. -/
def incrementAt : Nat → List Nat → List Nat
  | _, [] => []
  | 0, x :: xs => (x + 1) :: xs
  | i + 1, x :: xs => x :: incrementAt i xs

/-- The statement `distribution[index]++` on an array of counts: an index that
is not a whole number in range names no entry of the array (the statement then
only sets a stray property). -/
def bumpIndex (index : ℚ) (distribution : List Nat) : List Nat :=
  if index.den = 1 ∧ 0 ≤ index.num then incrementAt index.num.toNat distribution
  else distribution

/-- Lines 84-89: the `forEach` filling `distribution` from the pushed ratings. -/
def ratingDistribution (ratings : List ℚ) : List Nat :=
  ratings.foldl
    (fun distribution rating =>
      if 1 ≤ rating ∧ rating ≤ 5 then bumpIndex (5 - rating) distribution else distribution)
    [0, 0, 0, 0, 0]

/-- The field `statistics` of the listing response. -/
structure ReviewStatistics where
  averageRating : ℚ
  totalReviews : Nat
  distribution : List Nat
  deriving DecidableEq

/-- The listing response of `getProductReviews`. -/
structure ReviewListing where
  count : Nat
  total : Nat
  page : Nat
  limit : Nat
  pages : Nat
  statistics : ReviewStatistics
  data : List Review
  deriving DecidableEq

/-- The aggregation of `getProductReviews`: the group's `$avg`, `$sum: 1` and
pushed ratings, or the fallback object when nothing matches. -/
def listingStats (rs : List Review) (productId : Nat) : ℚ × Nat × List ℚ :=
  match approvedRatings rs productId with
  | [] => (0, 0, [])
  | r :: rest => ((r :: rest).sum / ((r :: rest).length : ℚ), (r :: rest).length, r :: rest)

/-- The handler `getProductReviews`.  `page` and `limit` are the parsed query
values, 0 standing for a missing or unparsable one; `sort` is `req.query.sort`
(`newest` when absent). -/
def getProductReviews (rs : List Review) (createdAt : Nat → ℤ) (productId : Nat)
    (page limit : Nat) (sort : String) : ReviewListing :=
  let page1 := if page = 0 then 1 else page
  let limit1 := if limit = 0 then 10 else limit
  let skip := (page1 - 1) * limit1
  let found := rs.filter (fun r => decide (r.product = productId)
    && decide (r.status = ReviewStatus.approved))
  let reviews := ((sortReviews createdAt (sortOptionOf sort) found).drop skip).take limit1
  let stats := listingStats rs productId
  let rounded := round1 stats.1
  { count := reviews.length
    total := stats.2.1
    page := page1
    limit := limit1
    pages := (stats.2.1 + limit1 - 1) / limit1
    statistics :=
      { averageRating := if rounded ≠ 0 then rounded else 0
        totalReviews := stats.2.1
        distribution := ratingDistribution stats.2.2 }
    data := reviews }

/-- The statement `distribution[review.rating]++` on the object with the keys 1
to 5, kept as the list of their counts in key order: a rating that is not one of
the keys names none of them. -/
def bumpKey (rating : ℚ) (distribution : List Nat) : List Nat :=
  if rating.den = 1 ∧ 1 ≤ rating.num then incrementAt (rating.num.toNat - 1) distribution
  else distribution

/-- What `calculateRatingStats` returns; `distribution` lists the counts of the
keys 1 to 5 in that order. -/
structure RatingStats where
  average : ℚ
  count : Nat
  distribution : List Nat
  deriving DecidableEq

/-- The helper `calculateRatingStats(reviews)` of `utils/helpers.js`. -/
def calculateRatingStats (reviews : List Review) : RatingStats :=
  if reviews.length = 0 then { average := 0, count := 0, distribution := [0, 0, 0, 0, 0] }
  else
    let total := reviews.foldl (fun sum review => sum + review.rating) 0
    let average := total / (reviews.length : ℚ)
    let distribution := reviews.foldl
      (fun distribution review =>
        if 1 ≤ review.rating ∧ review.rating ≤ 5 then bumpKey review.rating distribution
        else distribution)
      [0, 0, 0, 0, 0]
    { average := round1 average, count := reviews.length, distribution := distribution }

/-- The order the specification asks of a listing: by the sort field first and,
among reviews that tie on it, by `createdAt` descending. -/
def specifiedBefore (createdAt : Nat → ℤ) : SortOption → Review → Review → Prop
  | SortOption.createdAtDesc, a, b => createdAt b.id ≤ createdAt a.id
  | SortOption.createdAtAsc, a, b => createdAt a.id ≤ createdAt b.id
  | SortOption.ratingDesc, a, b =>
    b.rating < a.rating ∨ (b.rating = a.rating ∧ createdAt b.id ≤ createdAt a.id)
  | SortOption.ratingAsc, a, b =>
    a.rating < b.rating ∨ (a.rating = b.rating ∧ createdAt b.id ≤ createdAt a.id)
  | SortOption.helpfulDesc, a, b =>
    b.helpful < a.helpful ∨ (b.helpful = a.helpful ∧ createdAt b.id ≤ createdAt a.id)
  | SortOption.likesDesc, a, b =>
    b.likes < a.likes ∨ (b.likes = a.likes ∧ createdAt b.id ≤ createdAt a.id)

/-! ## Coupon step of `createOrder`, split at its two `await`s -/

/-- Lines 84-100 for a non-empty code: `await Coupon.findOne(..)` and the two
checks.  The result is the document the attempt holds in memory. -/
def couponRead (cs : List Coupon) (code : String) (now : ℤ) (subtotal : ℚ) :
    Except OrderError Coupon :=
  match findCoupon cs code now with
  | none => Except.error OrderError.invalidCoupon
  | some coupon =>
    if coupon.usageLimit ≠ 0 ∧ coupon.usedCount ≥ coupon.usageLimit then
      Except.error OrderError.couponExhausted
    else if subtotal < coupon.minimumAmount then
      Except.error (OrderError.couponMinimumNotMet coupon.minimumAmount)
    else Except.ok coupon

/-- Lines 114-115: `coupon.usedCount += 1; await coupon.save()` on the document
held in memory. -/
def couponWrite (cs : List Coupon) (coupon : Coupon) : List Coupon :=
  updateById Coupon.id (fun _ => { coupon with usedCount := coupon.usedCount + 1 }) coupon.id cs

/-- One scheduling step of concurrent attempts that use the same code: attempt
`i` runs up to its `findOne`, or runs from there through its `save`. -/
inductive CouponStep where
  | read (attempt : Nat)
  | save (attempt : Nat)
  deriving DecidableEq

/-- The coupons, the documents held by the attempts that have read, and the
attempts that have redeemed or failed so far. -/
structure CouponRace where
  coupons : List Coupon
  held : List (Nat × Coupon)
  redeemed : List Nat
  failed : List (Nat × OrderError)
  deriving DecidableEq

/-- One step of the interleaving. -/
def couponStep (code : String) (now : ℤ) (subtotal : ℚ) (st : CouponRace) :
    CouponStep → CouponRace
  | CouponStep.read i =>
    match couponRead st.coupons code now subtotal with
    | Except.ok coupon => { st with held := st.held ++ [(i, coupon)] }
    | Except.error e => { st with failed := st.failed ++ [(i, e)] }
  | CouponStep.save i =>
    match st.held.find? (fun h => h.1 == i) with
    | some (_, coupon) =>
      { st with coupons := couponWrite st.coupons coupon, redeemed := st.redeemed ++ [i] }
    | none => st

/-- Run a schedule from the given coupons, first step first. -/
def runCouponSteps (code : String) (now : ℤ) (subtotal : ℚ) (cs : List Coupon)
    (steps : List CouponStep) : CouponRace :=
  steps.foldl (couponStep code now subtotal)
    { coupons := cs, held := [], redeemed := [], failed := [] }

/-! ## More sample data -/

/-- A request with two lines of one unit each, both naming product 1. -/
def twoLineRequest : Request :=
  { items := [{ product := 1, variantPrice := none, quantity := 1 },
              { product := 1, variantPrice := none, quantity := 1 }],
    shippingMethod := "standard_48h", couponCode := none }

/-- A body that carries a rating and a review count and no other field of the
embedded product. -/
def ratingBody : UpdateProductBody :=
  { price := none, stock := none, trackQuantity := none, status := none,
    rating := some 5, reviewCount := some 100 }

/-- A fixed coupon `FIXE` of value 100000 without minimum amount. -/
def fixedCoupon : Coupon :=
  { sampleCoupon "FIXE" 100000 none 5 0 with type := CouponType.fixed }

/-- A coupon `ONCE` with usageLimit 1 that has not been used. -/
def freshCoupon : Coupon := sampleCoupon "ONCE" 10 none 1 0

/-- A cancelled order with identifier 3 and a number. -/
def cancelledOrder : Order :=
  { exampleOrder with id := 3, orderNumber := "NONO-20261105-4FZYO82MV",
                      status := OrderStatus.annule }

/-- The clock of a save on 5 November 2026 whose random draw is 0.5. -/
def shortDrawClock : SaveClock :=
  { fullYear := 2026, month := 10, date := 5, randomString := "0.i" }

/-- A body that sets the status only. -/
def statusBody (status : String) : UpdateOrderStatusBody :=
  { status := status, paymentStatus := "", trackingNumber := "", carrier := "" }

/-- Two approved reviews of product 1, both rated 5; review 1 comes first in the
collection and is the older one under `twoTiedTimes`. -/
def twoTiedReviews : List Review :=
  [sampleReview 1 5 ReviewStatus.approved, sampleReview 2 5 ReviewStatus.approved]

/-- Creation times: review 1 at time 10, every other review at time 20. -/
def twoTiedTimes (id : Nat) : ℤ := if id = 1 then 10 else 20

/-! ## Lookup and update -/

/-- A document found under `id` carries the key `id`. -/
theorem findById_key {α : Type} {key : α → Nat} {l : List α} {id : Nat} {x : α}
    (h : findById key l id = some x) : key x = id := by
  induction l with
  | nil => simp [findById] at h
  | cons y ys ih =>
    simp only [findById] at h
    split at h
    · cases h; assumption
    · exact ih h

/-- A document found under `id` is in the collection. -/
theorem findById_mem {α : Type} {key : α → Nat} {l : List α} {id : Nat} {x : α}
    (h : findById key l id = some x) : x ∈ l := by
  induction l with
  | nil => simp [findById] at h
  | cons y ys ih =>
    simp only [findById] at h
    split at h
    · cases h; exact List.mem_cons_self _ _
    · exact List.mem_cons_of_mem _ (ih h)

/-- With unique keys, every document is the one found under its key. -/
theorem findById_of_mem_nodup {α : Type} {key : α → Nat} {l : List α} {x : α}
    (hnd : (l.map key).Nodup) (hx : x ∈ l) : findById key l (key x) = some x := by
  induction l with
  | nil => simp at hx
  | cons y ys ih =>
    simp only [List.map_cons, List.nodup_cons] at hnd
    simp only [findById]
    rcases List.mem_cons.mp hx with rfl | hmem
    · simp
    · have hne : key y ≠ key x := fun heq =>
        hnd.1 (heq ▸ List.mem_map_of_mem key hmem)
      rw [if_neg hne]
      exact ih hnd.2 hmem

/-- Updating the document under `id` leaves every other lookup alone. -/
theorem findById_updateById_ne {α : Type} {key : α → Nat} {f : α → α} {id j : Nat}
    (hf : ∀ x, key x = id → key (f x) = id) (hj : j ≠ id) (l : List α) :
    findById key (updateById key f id l) j = findById key l j := by
  induction l with
  | nil => rfl
  | cons y ys ih =>
    simp only [updateById]
    split
    · rename_i hy
      have h1 : key (f y) ≠ j := fun h => hj (by rw [← h, hf y hy])
      have h2 : key y ≠ j := fun h => hj (by rw [← h, hy])
      simp [findById, h1, h2]
    · simp only [findById, ih]

/-- Updating the document under `id` applies `f` to what is found under `id`. -/
theorem findById_updateById_self {α : Type} {key : α → Nat} {f : α → α} {id : Nat}
    (hf : ∀ x, key x = id → key (f x) = id) (l : List α) :
    findById key (updateById key f id l) id = (findById key l id).map f := by
  induction l with
  | nil => rfl
  | cons y ys ih =>
    simp only [updateById]
    split
    · rename_i hy
      simp [findById, hy, hf y hy]
    · rename_i hy
      simp only [findById, if_neg hy, ih]

/-! ## Numbers -/

/-- The rounding reproduces binary64 on the usual examples: the literals 0.08 and
0.1, the sum 0.1 + 0.2, which is not the literal 0.3, whole numbers, and the
product 12.9375 × 0.08 × 100, which falls below 103.5. -/
theorem toDouble_examples :
    toDouble (8 / 100) = 5764607523034235 / 72057594037927936 ∧
    toDouble (1 / 10) = 3602879701896397 / 36028797018963968 ∧
    jsAdd (toDouble (1 / 10)) (toDouble (2 / 10)) = 1351079888211149 / 4503599627370496 ∧
    toDouble (3 / 10) = 5404319552844595 / 18014398509481984 ∧
    toDouble 12720 = 12720 ∧ toDouble (-104892) = -104892 ∧
    jsMul (jsMul (207 / 16) (toDouble (8 / 100))) 100 = 7283165022388223 / 70368744177664 ∧
    jsMul (jsMul (207 / 16) (toDouble (8 / 100))) 100 < 207 / 2 := by
  decide!

/-! ## Saving products -/

/-- The hook touches the status only. -/
theorem productPreSave_fields (p : Product) :
    (productPreSave p).id = p.id ∧ (productPreSave p).price = p.price ∧
    (productPreSave p).stock = p.stock ∧ (productPreSave p).trackQuantity = p.trackQuantity := by
  unfold productPreSave
  split
  · exact ⟨rfl, rfl, rfl, rfl⟩
  · split <;> exact ⟨rfl, rfl, rfl, rfl⟩

/-- The hook leaves rating and review count. -/
theorem productPreSave_rating (p : Product) :
    (productPreSave p).rating = p.rating ∧ (productPreSave p).reviewCount = p.reviewCount := by
  unfold productPreSave
  split
  · exact ⟨rfl, rfl⟩
  · split <;> exact ⟨rfl, rfl⟩

/-- Decrementing touches the stock and the status only. -/
theorem decrementStock_fields (p : Product) (q : ℤ) :
    (decrementStock p q).id = p.id ∧ (decrementStock p q).price = p.price ∧
    (decrementStock p q).stock = p.stock - q ∧
    (decrementStock p q).trackQuantity = p.trackQuantity := by
  unfold decrementStock
  dsimp only
  split <;> exact ⟨rfl, rfl, rfl, rfl⟩

/-- Decrementing the stock leaves rating and review count. -/
theorem decrementStock_rating (p : Product) (q : ℤ) :
    (decrementStock p q).rating = p.rating ∧
    (decrementStock p q).reviewCount = p.reviewCount := by
  unfold decrementStock
  dsimp only
  split <;> exact ⟨rfl, rfl⟩

/-- A decrement that leaves no stock sets a status outside the `enum` in force,
so the product cannot be saved. -/
theorem saveProduct_decrement_to_zero (ps : List Product) (p : Product) (q : ℤ)
    (h : p.stock - q ≤ 0) : saveProduct ps (decrementStock p q) = none := by
  have hs : (decrementStock p q).status = ProductStatus.out_of_stock := by
    unfold decrementStock
    dsimp only
    rw [if_pos h]
  unfold saveProduct productValid
  rw [hs]
  rfl

/-- A save that goes through stores the hooked document under its identifier. -/
theorem saveProduct_some {ps ps1 : List Product} {p : Product}
    (h : saveProduct ps p = some ps1) :
    ps1 = updateById Product.id (fun _ => productPreSave p) p.id ps := by
  unfold saveProduct at h
  split at h
  · exact (Option.some.inj h).symm
  · cases h

/-- A save that goes through was given a status of the `enum` in force. -/
theorem saveProduct_some_status {ps ps1 : List Product} {p : Product}
    (h : saveProduct ps p = some ps1) : statusAllowed p.status = true := by
  unfold saveProduct at h
  split at h
  · rename_i hv
    unfold productValid at hv
    simp only [Bool.and_eq_true] at hv
    exact hv.1.1.1.1
  · cases h

/-- A decrement saved by the first loop leaves a positive stock and does not
touch the status, and the hook leaves the status too. -/
theorem saveProduct_decrement_status {ps ps1 : List Product} {p : Product} {q : ℤ}
    (h : saveProduct ps (decrementStock p q) = some ps1) :
    0 < p.stock - q ∧ (productPreSave (decrementStock p q)).status = p.status := by
  have hallowed := saveProduct_some_status h
  have hpos : 0 < p.stock - q := by
    by_contra hle
    have hs : (decrementStock p q).status = ProductStatus.out_of_stock := by
      unfold decrementStock
      dsimp only
      rw [if_pos (not_lt.mp hle)]
    rw [hs] at hallowed
    cases hallowed
  have hd : decrementStock p q = { p with stock := p.stock - q } := by
    unfold decrementStock
    dsimp only
    rw [if_neg (not_le.mpr hpos)]
  refine ⟨hpos, ?_⟩
  rw [hd] at hallowed ⊢
  unfold productPreSave
  rw [if_neg (fun hh => absurd hh.2 (not_le.mpr hpos))]
  have hne : p.status ≠ ProductStatus.out_of_stock := by
    intro hs
    rw [show ({ p with stock := p.stock - q } : Product).status = p.status from rfl, hs]
      at hallowed
    cases hallowed
  rw [if_neg (fun hh => hne hh.1)]

/-- An element of an updated collection is an old element or the image of one. -/
theorem mem_updateById {α : Type} {key : α → Nat} {f : α → α} {id : Nat} {l : List α} {x : α}
    (h : x ∈ updateById key f id l) : x ∈ l ∨ ∃ y ∈ l, x = f y := by
  induction l with
  | nil => simp [updateById] at h
  | cons y ys ih =>
    simp only [updateById] at h
    split at h
    · rcases List.mem_cons.mp h with rfl | hmem
      · exact Or.inr ⟨y, List.mem_cons_self _ _, rfl⟩
      · exact Or.inl (List.mem_cons_of_mem _ hmem)
    · rcases List.mem_cons.mp h with rfl | hmem
      · exact Or.inl (List.mem_cons_self _ _)
      · rcases ih hmem with h1 | ⟨z, hz, hx⟩
        · exact Or.inl (List.mem_cons_of_mem _ h1)
        · exact Or.inr ⟨z, List.mem_cons_of_mem _ hz, hx⟩

/-! ## The first loop -/

/-- The first loop keeps every product under its identifier, with its price, its
tracking flag, its rating, its review count and its status; a stock that was not
negative is not negative afterwards, and a stock that has changed is positive. -/
theorem stockLoop_find {items : List Item} {ps ps' : List Product} {e : Option OrderError}
    (h : stockLoop ps items = (ps', e)) {id : Nat} {p : Product}
    (hp : findById Product.id ps id = some p) :
    ∃ p', findById Product.id ps' id = some p' ∧ p'.price = p.price ∧
      p'.trackQuantity = p.trackQuantity ∧ p'.rating = p.rating ∧
      p'.reviewCount = p.reviewCount ∧ (0 ≤ p.stock → 0 ≤ p'.stock) ∧
      p'.status = p.status ∧ (p'.stock = p.stock ∨ 0 < p'.stock) := by
  induction items generalizing ps p with
  | nil =>
    simp only [stockLoop, Prod.mk.injEq] at h
    obtain ⟨rfl, -⟩ := h
    exact ⟨p, hp, rfl, rfl, rfl, rfl, fun hs => hs, rfl, Or.inl rfl⟩
  | cons item rest ih =>
    simp only [stockLoop] at h
    split at h
    · simp only [Prod.mk.injEq] at h
      obtain ⟨rfl, -⟩ := h
      exact ⟨p, hp, rfl, rfl, rfl, rfl, fun hs => hs, rfl, Or.inl rfl⟩
    · rename_i product hprod
      split at h
      · simp only [Prod.mk.injEq] at h
        obtain ⟨rfl, -⟩ := h
        exact ⟨p, hp, rfl, rfl, rfl, rfl, fun hs => hs, rfl, Or.inl rfl⟩
      · rename_i hcheck
        split at h
        · rename_i htrack
          split at h
          · simp only [Prod.mk.injEq] at h
            obtain ⟨rfl, -⟩ := h
            exact ⟨p, hp, rfl, rfl, rfl, rfl, fun hs => hs, rfl, Or.inl rfl⟩
          · rename_i ps1 hsave
            have hps1 := saveProduct_some hsave
            subst hps1
            have hkey : product.id = item.product := findById_key hprod
            have hf := decrementStock_fields product item.quantity
            have hg := productPreSave_fields (decrementStock product item.quantity)
            have hfr := decrementStock_rating product item.quantity
            have hgr := productPreSave_rating (decrementStock product item.quantity)
            have hpres : ∀ x : Product, x.id = (decrementStock product item.quantity).id →
                ((fun _ => productPreSave (decrementStock product item.quantity)) x).id
                  = (decrementStock product item.quantity).id := fun x _ => hg.1
            by_cases hid : id = item.product
            · subst hid
              have hpp : p = product := by
                rw [hprod] at hp
                exact (Option.some.inj hp).symm
              subst hpp
              have hsaved : findById Product.id
                  (updateById Product.id
                    (fun _ => productPreSave (decrementStock p item.quantity))
                    (decrementStock p item.quantity).id ps) item.product
                  = some (productPreSave (decrementStock p item.quantity)) := by
                have := findById_updateById_self hpres ps
                rw [hf.1, hkey] at this
                rw [hf.1, hkey, this, hprod]
                rfl
              obtain ⟨hpos, hstatus⟩ := saveProduct_decrement_status hsave
              have hsavedStock : (productPreSave (decrementStock p item.quantity)).stock
                  = p.stock - item.quantity := by rw [hg.2.2.1, hf.2.2.1]
              obtain ⟨p', hp', hprice, htq, hr, hc, hstock, hst, hchg⟩ := ih h hsaved
              refine ⟨p', hp', ?_, ?_, ?_, ?_, fun _ => ?_, ?_, Or.inr ?_⟩
              · rw [hprice, hg.2.1, hf.2.1]
              · rw [htq, hg.2.2.2, hf.2.2.2]
              · rw [hr, hgr.1, hfr.1]
              · rw [hc, hgr.2, hfr.2]
              · apply hstock
                rw [hsavedStock]
                omega
              · rw [hst, hstatus]
              · rcases hchg with heq | hgt
                · rw [heq, hsavedStock]
                  exact hpos
                · exact hgt
            · have hsaved : findById Product.id
                  (updateById Product.id
                    (fun _ => productPreSave (decrementStock product item.quantity))
                    (decrementStock product item.quantity).id ps) id = some p := by
                rw [findById_updateById_ne hpres (by rw [hf.1, hkey]; exact hid), hp]
              exact ih h hsaved
        · exact ih h hp

/-- The first loop never stores a negative stock for a tracked product: when no
tracked product has a negative stock before the loop, none has one after it. -/
theorem stockLoop_stock_nonneg {items : List Item} {ps ps' : List Product}
    {e : Option OrderError} (h : stockLoop ps items = (ps', e))
    (hps : ∀ p ∈ ps, p.trackQuantity = true → 0 ≤ p.stock) :
    ∀ p ∈ ps', p.trackQuantity = true → 0 ≤ p.stock := by
  induction items generalizing ps with
  | nil =>
    simp only [stockLoop, Prod.mk.injEq] at h
    obtain ⟨rfl, -⟩ := h
    exact hps
  | cons item rest ih =>
    simp only [stockLoop] at h
    split at h
    · simp only [Prod.mk.injEq] at h
      obtain ⟨rfl, -⟩ := h
      exact hps
    · rename_i product hprod
      split at h
      · simp only [Prod.mk.injEq] at h
        obtain ⟨rfl, -⟩ := h
        exact hps
      · rename_i hcheck
        split at h
        · rename_i htrack
          split at h
          · simp only [Prod.mk.injEq] at h
            obtain ⟨rfl, -⟩ := h
            exact hps
          · rename_i ps1 hsave
            have hps1 := saveProduct_some hsave
            subst hps1
            apply ih h
            intro x hx _
            rcases mem_updateById hx with hold | ⟨y, -, hnew⟩
            · exact hps x hold (by assumption)
            · rw [hnew, (productPreSave_fields _).2.2.1, (decrementStock_fields _ _).2.2.1]
              have : ¬ product.stock < item.quantity := fun hlt => hcheck ⟨htrack, hlt⟩
              omega
        · exact ih h hps

/-! ## Coupon step -/

/-- Upper-casing on Basic Latin and Latin-1 codes, and the coupon `ÉTÉ20` of the
schema comment resolved from the code `été20`. -/
theorem toUpperCase_examples :
    toUpperCase "once" = "ONCE" ∧ toUpperCase "Promo10" = "PROMO10" ∧
    toUpperCase "été20" = "ÉTÉ20" ∧ toUpperCase "straße" = "STRASSE" ∧
    findCoupon [sampleCoupon "ÉTÉ20" 20 none 5 0] "été20" 50
      = some (sampleCoupon "ÉTÉ20" 20 none 5 0) := by
  decide!

/-- A coupon step that goes through for a non-empty code has resolved a coupon,
passed both checks and saved the incremented counter of that coupon. -/
theorem applyCoupon_ok_inv {cs cs1 : List Coupon} {code : String} {now : ℤ}
    {subtotal discount : ℚ} {ref : Option Nat} (hne : code ≠ "")
    (h : applyCoupon cs (some code) now subtotal = Except.ok (discount, ref, cs1)) :
    ∃ c, findCoupon cs code now = some c ∧
      ¬ (c.usageLimit ≠ 0 ∧ c.usedCount ≥ c.usageLimit) ∧
      ¬ subtotal < c.minimumAmount ∧
      discount = couponDiscount c subtotal ∧ ref = some c.id ∧
      cs1 = updateById Coupon.id (fun _ => { c with usedCount := c.usedCount + 1 }) c.id cs := by
  simp only [applyCoupon, if_neg hne] at h
  split at h
  · simp at h
  · rename_i c hc
    split at h
    · simp at h
    · rename_i hlim
      split at h
      · simp at h
      · rename_i hmin
        simp only [Except.ok.injEq, Prod.mk.injEq] at h
        exact ⟨c, hc, hlim, hmin, h.1.symm, h.2.1.symm, h.2.2.symm⟩

/-- Without a coupon code the coupon step changes nothing. -/
theorem applyCoupon_no_code {cs cs1 : List Coupon} {couponCode : Option String} {now : ℤ}
    {subtotal discount : ℚ} {ref : Option Nat}
    (hno : couponCode = none ∨ couponCode = some "")
    (h : applyCoupon cs couponCode now subtotal = Except.ok (discount, ref, cs1)) :
    discount = 0 ∧ ref = none ∧ cs1 = cs := by
  rcases hno with rfl | rfl <;>
    · simp only [applyCoupon, if_true, Except.ok.injEq, Prod.mk.injEq] at h
      exact ⟨h.1.symm, h.2.1.symm, h.2.2.symm⟩

/-- A coupon resolved by the query is in the collection. -/
theorem findCoupon_mem {cs : List Coupon} {code : String} {now : ℤ} {c : Coupon}
    (h : findCoupon cs code now = some c) : c ∈ cs :=
  List.mem_of_find?_eq_some h

/-- The discount of a fixed coupon is its value, whatever the subtotal. -/
theorem couponDiscount_fixed (c : Coupon) (subtotal : ℚ) (h : c.type = CouponType.fixed) :
    couponDiscount c subtotal = c.value := by
  simp only [couponDiscount, h]

/-- The unit price of a line: the variant price when the item gives one that is
not 0, the price of the product otherwise. -/
theorem itemPrice_cases (item : Item) (product : Product) :
    (∀ v, item.variantPrice = some v → v ≠ 0 → itemPrice item product = v) ∧
    (item.variantPrice = none ∨ item.variantPrice = some 0 →
      itemPrice item product = product.price) := by
  unfold itemPrice
  constructor
  · intro v hv hne
    rw [hv]
    exact if_pos hne
  · rintro (h | h) <;> rw [h]
    exact if_neg (fun hne => hne rfl)

/-! ## Structure of a call -/

/-- The document built by `createOrder` carries no `orderNumber`, so
`order.save()` throws on it. -/
theorem saveNewOrder_buildOrder (orders : List Order) (clock : SaveClock)
    (orderItems : List OrderLine) (subtotal shipping discount : ℚ) (coupon : Option Nat)
    (shippingMethod : String) :
    saveNewOrder orders clock
      (buildOrder orderItems subtotal shipping discount coupon shippingMethod) = none := by
  simp [saveNewOrder, orderValid, buildOrder]

/-- How a call ends: with the error of one of the two loops or of the coupon
step, the coupons untouched; or, once the coupon step has gone through, with the
error of the `catch` block, the coupons as the coupon step left them.  The
products are as the first loop left them, and the orders are untouched. -/
theorem createOrder_cases (st : Store) (now : ℤ) (clock : SaveClock) (req : Request) :
    (∃ e, createOrder st now clock req
        = ({ st with products := (stockLoop st.products req.items).1 }, Response.error e)) ∨
    (∃ subtotal discount coupon cs1,
      applyCoupon st.coupons req.couponCode now subtotal = Except.ok (discount, coupon, cs1) ∧
      createOrder st now clock req
        = ({ st with products := (stockLoop st.products req.items).1, coupons := cs1 },
            Response.error OrderError.saveFailed)) := by
  unfold createOrder
  split
  · rename_i ps1 e heq
    rw [heq]
    exact Or.inl ⟨e, rfl⟩
  · rename_i ps1 heq
    rw [heq]
    split
    · rename_i e _
      exact Or.inl ⟨e, rfl⟩
    · rename_i subtotal orderItems _
      split
      · rename_i e _
        exact Or.inl ⟨e, rfl⟩
      · rename_i discount coupon cs1 hcoupon
        split
        · exact Or.inr ⟨subtotal, discount, coupon, cs1, hcoupon, rfl⟩
        · rw [saveNewOrder_buildOrder]
          exact Or.inr ⟨subtotal, discount, coupon, cs1, hcoupon, rfl⟩

/-- No call of `createOrder` answers 201. -/
theorem createOrder_never_creates (st : Store) (now : ℤ) (clock : SaveClock) (req : Request)
    (o : Order) : (createOrder st now clock req).2 ≠ Response.created o := by
  rcases createOrder_cases st now clock req with ⟨e, h⟩ | ⟨_, _, _, _, -, h⟩ <;>
    · rw [h]
      simp

/-- No call of `createOrder` stores an order. -/
theorem createOrder_orders (st : Store) (now : ℤ) (clock : SaveClock) (req : Request) :
    (createOrder st now clock req).1.orders = st.orders := by
  rcases createOrder_cases st now clock req with ⟨e, h⟩ | ⟨_, _, _, _, -, h⟩ <;> rw [h]

/-- The products after a call are the products after its first loop. -/
theorem createOrder_products (st : Store) (now : ℤ) (clock : SaveClock) (req : Request) :
    (createOrder st now clock req).1.products = (stockLoop st.products req.items).1 := by
  rcases createOrder_cases st now clock req with ⟨e, h⟩ | ⟨_, _, _, _, -, h⟩ <;> rw [h]

/-- The only change a call can make to the coupons is the saved increment of
the coupon it resolved, and only if that coupon's limit check passed. -/
theorem createOrder_coupons (st : Store) (now : ℤ) (clock : SaveClock) (req : Request) :
    (createOrder st now clock req).1.coupons = st.coupons ∨
    ∃ code c, req.couponCode = some code ∧ code ≠ "" ∧
      findCoupon st.coupons code now = some c ∧
      ¬ (c.usageLimit ≠ 0 ∧ c.usedCount ≥ c.usageLimit) ∧
      (createOrder st now clock req).1.coupons =
        updateById Coupon.id (fun _ => { c with usedCount := c.usedCount + 1 }) c.id
          st.coupons := by
  rcases createOrder_cases st now clock req with ⟨e, h⟩ | ⟨subtotal, discount, ref, cs1, hc, h⟩
  · rw [h]
    exact Or.inl rfl
  · rw [h]
    cases hcode : req.couponCode with
    | none => exact Or.inl (applyCoupon_no_code (Or.inl hcode) hc).2.2
    | some code =>
      by_cases hne : code = ""
      · subst hne
        exact Or.inl (applyCoupon_no_code (Or.inr hcode) hc).2.2
      · rw [hcode] at hc
        obtain ⟨c, hfind, hlim, -, -, -, hcs⟩ := applyCoupon_ok_inv hne hc
        exact Or.inr ⟨code, c, rfl, hne, hfind, hlim, hcs⟩

/-- A call keeps every product under its identifier, with its price, its
tracking flag, its rating and its review count, whatever its outcome. -/
theorem createOrder_keeps_rating (st : Store) (now : ℤ) (clock : SaveClock) (req : Request)
    {id : Nat} {p : Product} (hp : findById Product.id st.products id = some p) :
    ∃ p', findById Product.id (createOrder st now clock req).1.products id = some p' ∧
      p'.price = p.price ∧ p'.trackQuantity = p.trackQuantity ∧ p'.rating = p.rating ∧
      p'.reviewCount = p.reviewCount := by
  rw [createOrder_products]
  obtain ⟨p', h1, h2, h3, h4, h5, -⟩ :=
    stockLoop_find (Prod.ext rfl rfl : stockLoop st.products req.items = (_, _)) hp
  exact ⟨p', h1, h2, h3, h4, h5⟩

/-- No call changes the status of a product, and a stock that a call has changed
is positive: the status `out_of_stock` is never reached through `createOrder`. -/
theorem createOrder_keeps_status (st : Store) (now : ℤ) (clock : SaveClock) (req : Request)
    {id : Nat} {p : Product} (hp : findById Product.id st.products id = some p) :
    ∃ p', findById Product.id (createOrder st now clock req).1.products id = some p' ∧
      p'.status = p.status ∧ (p'.stock = p.stock ∨ 0 < p'.stock) := by
  rw [createOrder_products]
  obtain ⟨p', h1, -, -, -, -, -, h7, h8⟩ :=
    stockLoop_find (Prod.ext rfl rfl : stockLoop st.products req.items = (_, _)) hp
  exact ⟨p', h1, h7, h8⟩

/-- A call that ends with one of the business errors (every error except a
failed `order.save()`) leaves the coupons and the orders as they were. -/
theorem createOrder_error_keeps_coupons_orders {st : Store} {now : ℤ} {clock : SaveClock}
    {req : Request} {e : OrderError}
    (h : (createOrder st now clock req).2 = Response.error e)
    (he : e ≠ OrderError.saveFailed) :
    (createOrder st now clock req).1.coupons = st.coupons ∧
    (createOrder st now clock req).1.orders = st.orders := by
  rcases createOrder_cases st now clock req with ⟨e', h'⟩ | ⟨_, _, _, _, -, h'⟩
  · rw [h']
    exact ⟨rfl, rfl⟩
  · rw [h'] at h
    simp only [Response.error.injEq] at h
    exact absurd h.symm he

/-- When the coupon code resolves to a coupon whose positive usageLimit is
reached, the call fails and leaves the coupons and the orders as they were. -/
theorem createOrder_coupon_exhausted (st : Store) (now : ℤ) (clock : SaveClock)
    (req : Request) {code : String} {c : Coupon} (hcode : req.couponCode = some code)
    (hfind : findCoupon st.coupons code now = some c)
    (hlim : 0 < c.usageLimit) (hused : c.usageLimit ≤ c.usedCount) :
    (createOrder st now clock req).1.coupons = st.coupons ∧
    (createOrder st now clock req).1.orders = st.orders := by
  refine ⟨?_, createOrder_orders st now clock req⟩
  rcases createOrder_coupons st now clock req with hsame | ⟨code', c', hcode', -, hfind', hcheck, -⟩
  · exact hsame
  · rw [hcode] at hcode'
    cases hcode'
    rw [hfind] at hfind'
    cases hfind'
    exact absurd ⟨ne_of_gt hlim, hused⟩ hcheck

/-- The handler run with a coupon of usageLimit 1 that has been used once: the
call is refused as exhausted after the first loop has saved the decrement. -/
theorem createOrder_exhausted_example :
    createOrder (sampleStore 100 10 [exhaustedCoupon]) 50 shortDrawClock
        (sampleRequest none 1 (some "once")) =
      ({ products := [sampleProduct 100 9], coupons := [exhaustedCoupon], orders := [] },
        Response.error OrderError.couponExhausted) := by
  decide!

/-- A single line for a tracked product that passes validation, without coupon:
the four ways the call ends.  With less stock than the quantity it is refused for
insufficient stock; with exactly the quantity, `product.save()` throws; with more
than the quantity but less than twice the quantity it is refused for insufficient
stock by the second loop, which reads the decremented stock; from twice the
quantity upwards `order.save()` throws. -/
theorem createOrder_single_line {st : Store} {now : ℤ} {clock : SaveClock} {req : Request}
    {item : Item} {p : Product} (hitems : req.items = [item]) (hcode : req.couponCode = none)
    (hp : findById Product.id st.products item.product = some p)
    (htrack : p.trackQuantity = true) (hvalid : productValid p = true) :
    (p.stock < item.quantity → (createOrder st now clock req).2
      = Response.error (OrderError.insufficientStock p.id p.stock)) ∧
    (p.stock = item.quantity → (createOrder st now clock req).2
      = Response.error OrderError.productSaveFailed) ∧
    (item.quantity < p.stock → p.stock < 2 * item.quantity →
      (createOrder st now clock req).2
        = Response.error (OrderError.insufficientStock p.id (p.stock - item.quantity))) ∧
    (item.quantity < p.stock → 2 * item.quantity ≤ p.stock →
      (createOrder st now clock req).2 = Response.error OrderError.saveFailed) := by
  have hkey : p.id = item.product := findById_key hp
  refine ⟨fun h1 => ?_, fun h2 => ?_, ?_, ?_⟩
  · simp [createOrder, hitems, stockLoop, hp, htrack, h1]
  · have hnone : saveProduct st.products (decrementStock p item.quantity) = none :=
      saveProduct_decrement_to_zero _ _ _ (by omega)
    have hlt : ¬ p.stock < item.quantity := by omega
    simp [createOrder, hitems, stockLoop, hp, htrack, hlt, hnone]
  all_goals
    intro hgt
    have hlt : ¬ p.stock < item.quantity := by omega
    have hd : decrementStock p item.quantity = { p with stock := p.stock - item.quantity } := by
      unfold decrementStock
      dsimp only
      rw [if_neg (by omega)]
    have hv : productValid ({ p with stock := p.stock - item.quantity } : Product) = true :=
      hvalid
    have hstatus : p.status ≠ ProductStatus.out_of_stock := by
      intro hs
      unfold productValid at hvalid
      rw [hs] at hvalid
      simp [statusAllowed] at hvalid
    have hhook : productPreSave ({ p with stock := p.stock - item.quantity } : Product)
        = { p with stock := p.stock - item.quantity } := by
      unfold productPreSave
      rw [if_neg (fun hh => absurd hh.2 (by show ¬ p.stock - item.quantity ≤ 0; omega)),
        if_neg (fun hh => hstatus hh.1)]
    have hsave : saveProduct st.products (decrementStock p item.quantity)
        = some (updateById Product.id (fun _ => { p with stock := p.stock - item.quantity })
            p.id st.products) := by
      rw [hd]
      unfold saveProduct
      rw [if_pos hv, hhook]
    have hfound : findById Product.id
        (updateById Product.id (fun _ => ({ p with stock := p.stock - item.quantity } : Product))
          p.id st.products) item.product
        = some { p with stock := p.stock - item.quantity } := by
      rw [← hkey, findById_updateById_self ?_ st.products, hkey, hp]
      · rfl
      · intro _ _
        rfl
    have hloop : stockLoop st.products req.items
        = (updateById Product.id (fun _ => { p with stock := p.stock - item.quantity })
            p.id st.products, none) := by
      simp [hitems, stockLoop, hp, htrack, hlt, hsave]
    intro hcmp
    unfold createOrder
    rw [hloop]
    simp only [hitems, priceLoop, hcode, applyCoupon]
    rw [hfound]
    dsimp only
  · rw [if_pos ⟨htrack, by omega⟩, hkey]
  · rw [if_neg (fun hh => absurd hh.2 (by omega))]
    dsimp only
    cases calculateShippingCost req.shippingMethod with
    | inherited k => rfl
    | number n =>
      dsimp only
      rw [saveNewOrder_buildOrder]

/-! ## Claims on the order pipeline -/

/-- C1 (code defect): a single line of quantity 2 for a tracked product with
stock 10 is refused.  The first loop saves the stock 8, then `order.save()`
throws, because the document built by the handler carries no `orderNumber` and
validation runs before the hook that would set it: the call answers 400 and no
order is stored.  No call of `createOrder` answers 201. -/
theorem createOrder_valid_order_refused :
    createOrder (sampleStore 50 10 []) 0 shortDrawClock (sampleRequest none 2 none) =
      ({ products := [sampleProduct 50 8], coupons := [], orders := [] },
        Response.error OrderError.saveFailed) ∧
    orderValid (buildOrder [{ product := 1, variantPrice := none, quantity := 2, price := 50 }]
      100 3000 0 none "standard_48h") = false ∧
    (∀ (st : Store) (now : ℤ) (clock : SaveClock) (req : Request) (o : Order),
      (createOrder st now clock req).2 ≠ Response.created o) :=
  ⟨by decide!, by decide!, createOrder_never_creates⟩

/-- C2 (code defect): an order for one unit of a tracked product with stock 5
and an unknown coupon code ends with the invalid-coupon error, no order and no
coupon change, yet the stock left in the store is 4: the first loop has already
saved the decrement before the coupon is looked up. -/
theorem createOrder_invalid_coupon_keeps_decrement :
    createOrder (sampleStore 50 5 []) 0 shortDrawClock (sampleRequest none 1 (some "NOPE")) =
      ({ products := [sampleProduct 50 4], coupons := [], orders := [] },
        Response.error OrderError.invalidCoupon) := by
  decide!

/-- C3 (code defect): a single line of quantity 2 for a tracked product with
stock 3 and no coupon is refused with the insufficient-stock error although
3 ≥ 2: the second loop compares the quantity with the stock the first loop has
already decremented to 1. -/
theorem createOrder_refuses_sufficient_stock :
    createOrder (sampleStore 50 3 []) 0 shortDrawClock (sampleRequest none 2 none) =
      ({ products := [sampleProduct 50 1], coupons := [], orders := [] },
        Response.error (OrderError.insufficientStock 1 1)) := by
  decide!

/-- C4 (code defect): the end-to-end example, one unit at price 10000 with the
10 % coupon and standard shipping, is not persisted.  The handler builds the
document with subtotal 10000, discount 1000, tax 720 and total 12720, redeems the
coupon, and answers 400 when `order.save()` throws: no order is stored. -/
theorem createOrder_example_not_persisted :
    createOrder (sampleStore 10000 10 [promo10]) 50 shortDrawClock
        (sampleRequest none 1 (some "promo10")) =
      ({ products := [sampleProduct 10000 9],
         coupons := [sampleCoupon "PROMO10" 10 none 5 1], orders := [] },
        Response.error OrderError.saveFailed) ∧
    buildOrder [{ product := 1, variantPrice := none, quantity := 1, price := 10000 }]
      10000 3000 1000 (some 7) "standard_48h" = exampleOrder ∧
    exampleOrder.total = 12720 := by
  decide!

/-- C5 (code defect): one unit at price 17.25 with a 25 % coupon is not
persisted: the call answers 400 when `order.save()` throws and no order is
stored.  The tax of the document the handler builds is 1.03, the binary64
product (17.25 - 4.3125) × 0.08 × 100 being below 103.5, whereas
(17.25 - 4.3125) × 0.08 = 1.035 rounded half-up to two decimals is 1.04. -/
theorem createOrder_tax_not_persisted :
    createOrder (sampleStore (69 / 4) 10 [quarterCoupon]) 50 shortDrawClock
        (sampleRequest none 1 (some "quart")) =
      ({ products := [sampleProduct (69 / 4) 9],
         coupons := [sampleCoupon "QUART" 25 none 5 1], orders := [] },
        Response.error OrderError.saveFailed) ∧
    couponDiscount quarterCoupon (69 / 4) = 69 / 16 ∧
    (buildOrder [{ product := 1, variantPrice := none, quantity := 1, price := 69 / 4 }]
      (69 / 4) 3000 (69 / 16) (some 7) "standard_48h").tax = toDouble (103 / 100) ∧
    (mathRound ((69 / 4 - 69 / 16) * (8 / 100) * 100) : ℚ) / 100 = 104 / 100 := by
  decide!

/-- C6 (code defect): a 10 % coupon whose `maximumDiscount` is 0, used on a
subtotal of 100, gives the discount 10, which is above the maximum; the coupon is
redeemed, and the call answers 400 when `order.save()` throws. -/
theorem couponDiscount_zero_cap_ignored :
    zeroCapCoupon.type = CouponType.percentage ∧
    zeroCapCoupon.maximumDiscount = some 0 ∧
    couponDiscount zeroCapCoupon 100 = 10 ∧
    createOrder (sampleStore 100 10 [zeroCapCoupon]) 50 shortDrawClock
        (sampleRequest none 1 (some "cap0")) =
      ({ products := [sampleProduct 100 9],
         coupons := [sampleCoupon "CAP0" 10 (some 0) 5 1], orders := [] },
        Response.error OrderError.saveFailed) := by
  decide!

/-- C7 (code defect): a line that specifies the variant price 0 for a product
priced 50 gets the unit price 50, not 0, and no line is frozen on an order: the
call answers 400 when `order.save()` throws and no order is stored. -/
theorem itemPrice_zero_variant_price_ignored :
    itemPrice { product := 1, variantPrice := some 0, quantity := 1 } (sampleProduct 50 10)
      = 50 ∧
    createOrder (sampleStore 50 10 []) 0 shortDrawClock (sampleRequest (some 0) 1 none) =
      ({ products := [sampleProduct 50 9], coupons := [], orders := [] },
        Response.error OrderError.saveFailed) := by
  decide!

/-- C8 (code defect): an active coupon inside its validity window with
usageLimit 0 and usedCount 3 is not refused as exhausted: it is redeemed and
stored with usedCount 4, and the call ends with the 400 of the `catch` block. -/
theorem createOrder_zero_usage_limit_redeems :
    unlimitedCoupon.usageLimit = 0 ∧ unlimitedCoupon.usedCount = 3 ∧
    createOrder (sampleStore 100 10 [unlimitedCoupon]) 50 shortDrawClock
        (sampleRequest none 1 (some "free")) =
      ({ products := [sampleProduct 100 9],
         coupons := [sampleCoupon "FREE" 10 none 0 4], orders := [] },
        Response.error OrderError.saveFailed) := by
  decide!

/-- C9: in a store whose coupons have distinct identifiers, take any call of
`createOrder`.  A coupon with usageLimit > 0 and usedCount ≤ usageLimit before
the call is still stored under its identifier with the same usageLimit and with
usedCount ≤ usageLimit after it.  The call either leaves the coupons as they
were, or it has redeemed one coupon of the store: the usedCount of that coupon
has grown by exactly 1, nothing else of it has changed, and every other coupon
is unchanged. -/
theorem createOrder_coupon_usage (st : Store) (now : ℤ) (clock : SaveClock) (req : Request)
    (hnd : (st.coupons.map Coupon.id).Nodup) :
    (∀ c ∈ st.coupons, 0 < c.usageLimit → c.usedCount ≤ c.usageLimit →
      ∃ c', findById Coupon.id (createOrder st now clock req).1.coupons c.id = some c' ∧
        c'.usageLimit = c.usageLimit ∧ c'.usedCount ≤ c'.usageLimit) ∧
    ((createOrder st now clock req).1.coupons = st.coupons ∨
      ∃ c ∈ st.coupons,
        findById Coupon.id (createOrder st now clock req).1.coupons c.id
          = some { c with usedCount := c.usedCount + 1 } ∧
        ∀ j, j ≠ c.id → findById Coupon.id (createOrder st now clock req).1.coupons j
          = findById Coupon.id st.coupons j) := by
  have hpres : ∀ (c0 : Coupon) (x : Coupon), x.id = c0.id →
      ((fun _ : Coupon => ({ c0 with usedCount := c0.usedCount + 1 } : Coupon)) x).id = c0.id :=
    fun _ _ _ => rfl
  constructor
  · intro c hc hlim hle
    rcases createOrder_coupons st now clock req with
      hsame | ⟨code, c0, -, -, hfind, hcheck, hupd⟩
    · rw [hsame]
      exact ⟨c, findById_of_mem_nodup hnd hc, rfl, hle⟩
    · rw [hupd]
      have hc0 : findById Coupon.id st.coupons c0.id = some c0 :=
        findById_of_mem_nodup hnd (findCoupon_mem hfind)
      by_cases hid : c.id = c0.id
      · have hcc : c = c0 := by
          have h1 := findById_of_mem_nodup hnd hc
          rw [hid, hc0] at h1
          exact (Option.some.inj h1).symm
        subst hcc
        refine ⟨{ c with usedCount := c.usedCount + 1 }, ?_, rfl, ?_⟩
        · rw [findById_updateById_self (hpres c), hc0]; rfl
        · show c.usedCount + 1 ≤ c.usageLimit
          have : ¬ c.usedCount ≥ c.usageLimit := fun hge => hcheck ⟨ne_of_gt hlim, hge⟩
          omega
      · refine ⟨c, ?_, rfl, hle⟩
        rw [findById_updateById_ne (hpres c0) hid]
        exact findById_of_mem_nodup hnd hc
  · rcases createOrder_coupons st now clock req with
      hsame | ⟨code, c0, -, -, hfind, -, hupd⟩
    · exact Or.inl hsame
    · have hc0 : findById Coupon.id st.coupons c0.id = some c0 :=
        findById_of_mem_nodup hnd (findCoupon_mem hfind)
      refine Or.inr ⟨c0, findCoupon_mem hfind, ?_, fun j hj => ?_⟩
      · rw [hupd, findById_updateById_self (hpres c0), hc0]
        rfl
      · rw [hupd, findById_updateById_ne (hpres c0) hj]

/-- C9 (witness): in the end-to-end example the store holds the coupon `PROMO10`
alone (usageLimit 5, usedCount 0); the call redeems it, and it is stored with
usedCount 1, still at most 5. -/
theorem createOrder_coupon_usage_witness :
    (∃ c', findById Coupon.id (createOrder (sampleStore 10000 10 [promo10]) 50 shortDrawClock
        (sampleRequest none 1 (some "promo10"))).1.coupons promo10.id = some c' ∧
      c'.usageLimit = promo10.usageLimit ∧ c'.usedCount ≤ c'.usageLimit) ∧
    (createOrder (sampleStore 10000 10 [promo10]) 50 shortDrawClock
        (sampleRequest none 1 (some "promo10"))).1.coupons
      = [{ promo10 with usedCount := promo10.usedCount + 1 }] :=
  ⟨(createOrder_coupon_usage (sampleStore 10000 10 [promo10]) 50 shortDrawClock
      (sampleRequest none 1 (some "promo10")) (by decide)).1 promo10
      (List.mem_singleton.mpr rfl) (by decide) (by decide),
   by decide!⟩

/-- C10 (code defect): one unit of a tracked, active product with stock 1 is
ordered.  The first loop brings the stock to 0 and sets the status
`out_of_stock`, which is outside the `enum` in force, so `product.save()` throws:
the call answers 400 and the product stays in the store with stock 1 and status
`active`.  No call of `createOrder` changes the status of a product, and a stock
that a call has changed is positive. -/
theorem createOrder_last_unit_refused :
    (decrementStock (sampleProduct 50 1) 1).stock = 0 ∧
    (decrementStock (sampleProduct 50 1) 1).status = ProductStatus.out_of_stock ∧
    statusAllowed ProductStatus.out_of_stock = false ∧
    saveProduct [sampleProduct 50 1] (decrementStock (sampleProduct 50 1) 1) = none ∧
    createOrder (sampleStore 50 1 []) 0 shortDrawClock (sampleRequest none 1 none) =
      ({ products := [sampleProduct 50 1], coupons := [], orders := [] },
        Response.error OrderError.productSaveFailed) ∧
    (∀ (st : Store) (now : ℤ) (clock : SaveClock) (req : Request) (id : Nat) (p : Product),
      findById Product.id st.products id = some p →
      ∃ p', findById Product.id (createOrder st now clock req).1.products id = some p' ∧
        p'.status = p.status ∧ (p'.stock = p.stock ∨ 0 < p'.stock)) :=
  ⟨by decide, by decide, by decide, by decide!, by decide!,
   fun st now clock req _ _ hp => createOrder_keeps_status st now clock req hp⟩

/-- C28: take any call of `createOrder`, whatever its line items and its
outcome.  If no tracked product of the store has a negative stock before the
call, none has one after it; and every product is still stored under its
identifier, tracked if and only if it was. -/
theorem createOrder_no_overselling (st : Store) (now : ℤ) (clock : SaveClock) (req : Request)
    (h : ∀ p ∈ st.products, p.trackQuantity = true → 0 ≤ p.stock) :
    (∀ p ∈ (createOrder st now clock req).1.products, p.trackQuantity = true → 0 ≤ p.stock) ∧
    (∀ id p, findById Product.id st.products id = some p →
      ∃ p', findById Product.id (createOrder st now clock req).1.products id = some p' ∧
        p'.trackQuantity = p.trackQuantity) := by
  constructor
  · rw [createOrder_products]
    exact stockLoop_stock_nonneg (Prod.ext rfl rfl) h
  · intro id p hp
    obtain ⟨p', h1, -, h3, -, -⟩ := createOrder_keeps_rating st now clock req hp
    exact ⟨p', h1, h3⟩

/-- C28 (witness): with stock 3, a request with two lines of one unit each for
the same product leaves the tracked product with stock 1. -/
theorem createOrder_no_overselling_witness :
    (createOrder (sampleStore 50 3 []) 0 shortDrawClock twoLineRequest).1.products
      = [sampleProduct 50 1] ∧
    ∀ p ∈ (createOrder (sampleStore 50 3 []) 0 shortDrawClock twoLineRequest).1.products,
      p.trackQuantity = true → 0 ≤ p.stock :=
  ⟨by decide!,
   (createOrder_no_overselling (sampleStore 50 3 []) 0 shortDrawClock twoLineRequest
     (by decide)).1⟩

/-- C29 (code defect): the discount of a fixed coupon is its value whatever the
subtotal, but the order of the example is not persisted.  For one unit at price
100 with a fixed coupon of value 100000 and standard shipping the handler builds
a document with tax -7992 and total -104892, redeems the coupon, and answers 400
when `order.save()` throws: no order is stored. -/
theorem createOrder_fixed_coupon_not_persisted :
    (∀ (c : Coupon) (subtotal : ℚ), c.type = CouponType.fixed →
      couponDiscount c subtotal = c.value) ∧
    createOrder (sampleStore 100 10 [fixedCoupon]) 50 shortDrawClock
        (sampleRequest none 1 (some "fixe")) =
      ({ products := [sampleProduct 100 9],
         coupons := [{ fixedCoupon with usedCount := 1 }], orders := [] },
        Response.error OrderError.saveFailed) ∧
    (buildOrder [{ product := 1, variantPrice := none, quantity := 1, price := 100 }]
      100 3000 100000 (some 7) "standard_48h").tax = -7992 ∧
    (buildOrder [{ product := 1, variantPrice := none, quantity := 1, price := 100 }]
      100 3000 100000 (some 7) "standard_48h").total = -104892 :=
  ⟨couponDiscount_fixed, by decide!, by decide!, by decide!⟩

/-! ## Product hook and rating aggregate -/

/-- The ratings seen by the aggregation are the ratings of the approved set. -/
theorem approvedRatings_eq (rs : List Review) (productId : Nat) :
    approvedRatings rs productId = (approvedReviewsOf rs productId).map Review.rating := by
  unfold approvedRatings approvedReviewsOf
  congr 1
  apply List.filter_congr
  intro r _
  simp [Bool.decide_and]

/-- The value `round1 x` is `x` rounded half-up to one decimal. -/
theorem round1_isRoundHalfUp1 (x : ℚ) : IsRoundHalfUp1 x (round1 x) := by
  refine ⟨mathRound (x * 10), rfl, ?_, ?_⟩
  · have h := Int.lt_floor_add_one (x * 10 + 1 / 2)
    unfold mathRound
    linarith
  · exact Int.floor_le (x * 10 + 1 / 2)

/-- The helper never touches the reviews. -/
theorem updateProductRating_reviews (st : ReviewStore) (productId : Nat) :
    (updateProductRating st productId).reviews = st.reviews := by
  unfold updateProductRating
  split <;> rfl

/-- The products after the helper: the one stored under `productId` gets the
expected rating and review count, the others are untouched. -/
theorem updateProductRating_products (st : ReviewStore) (productId : Nat) :
    (updateProductRating st productId).products = updateById Product.id
      (fun p => { p with rating := expectedRating st.reviews productId,
                         reviewCount := expectedReviewCount st.reviews productId })
      productId st.products := by
  unfold updateProductRating ratingStats expectedRating expectedReviewCount arithmeticMean
  rw [approvedRatings_eq]
  cases h : approvedReviewsOf st.reviews productId with
  | nil => simp
  | cons r rest => simp

/-- After the helper the product stored under `productId` is in sync. -/
theorem updateProductRating_inSync (st : ReviewStore) (productId : Nat) :
    RatingInSync (updateProductRating st productId) productId := by
  intro p hp
  rw [updateProductRating_reviews]
  rw [updateProductRating_products, @findById_updateById_self Product Product.id
    (fun p => { p with rating := expectedRating st.reviews productId,
                       reviewCount := expectedReviewCount st.reviews productId })
    productId (fun x hx => hx) st.products] at hp
  cases h : findById Product.id st.products productId with
  | none => rw [h] at hp; cases hp
  | some q =>
    rw [h] at hp
    simp only [Option.map_some', Option.some.injEq] at hp
    subst hp
    exact ⟨rfl, rfl⟩

/-- C11: the pre-save hook of `Product.js`.  After it, a tracked product with
stock ≤ 0 has status `out_of_stock`; a product that entered with status
`out_of_stock` and stock > 0 leaves with status `active`; in every other case
the status is the one it entered with; and no field other than the status is
changed. -/
theorem productPreSave_invariant (p : Product) :
    ((productPreSave p).trackQuantity = true → (productPreSave p).stock ≤ 0 →
      (productPreSave p).status = ProductStatus.out_of_stock) ∧
    (p.status = ProductStatus.out_of_stock → 0 < p.stock →
      (productPreSave p).status = ProductStatus.active) ∧
    (¬ (p.trackQuantity = true ∧ p.stock ≤ 0) →
      ¬ (p.status = ProductStatus.out_of_stock ∧ 0 < p.stock) →
      (productPreSave p).status = p.status) ∧
    productPreSave p = { p with status := (productPreSave p).status } := by
  unfold productPreSave
  by_cases h1 : p.trackQuantity = true ∧ p.stock ≤ 0
  · rw [if_pos h1]
    refine ⟨fun _ _ => rfl, fun _ hpos => absurd h1.2 (not_le.mpr hpos), fun h => absurd h1 h,
      rfl⟩
  · rw [if_neg h1]
    by_cases h2 : p.status = ProductStatus.out_of_stock ∧ p.stock > 0
    · rw [if_pos h2]
      exact ⟨fun ht hs => absurd ⟨ht, hs⟩ h1, fun _ _ => rfl, fun _ h => absurd h2 h, rfl⟩
    · rw [if_neg h2]
      exact ⟨fun ht hs => absurd ⟨ht, hs⟩ h1, fun hs hpos => absurd ⟨hs, hpos⟩ h2,
        fun _ _ => rfl, rfl⟩

/-- C11 (witness): a tracked, active product with stock 0 is saved as
`out_of_stock`, and nothing else of it changes. -/
theorem productPreSave_invariant_witness :
    (productPreSave (sampleProduct 50 0)).status = ProductStatus.out_of_stock ∧
    productPreSave (sampleProduct 50 0)
      = { sampleProduct 50 0 with status := ProductStatus.out_of_stock } :=
  ⟨(productPreSave_invariant (sampleProduct 50 0)).1 (by decide) (by decide), by decide⟩

/-- A review outside the approved set of `productId` does not change that set. -/
theorem approvedReviewsOf_insert (rs1 rs2 : List Review) (x : Review) (productId : Nat)
    (hx : ¬ (x.product = productId ∧ x.status = ReviewStatus.approved)) :
    approvedReviewsOf (rs1 ++ x :: rs2) productId = approvedReviewsOf (rs1 ++ rs2) productId := by
  unfold approvedReviewsOf
  rw [List.filter_append, List.filter_append, List.filter_cons_of_neg (by simpa using hx)]

/-- The expected rating and count depend on the approved set only. -/
theorem expected_congr {rs rs' : List Review} {productId : Nat}
    (h : approvedReviewsOf rs productId = approvedReviewsOf rs' productId) :
    expectedRating rs productId = expectedRating rs' productId ∧
    expectedReviewCount rs productId = expectedReviewCount rs' productId := by
  unfold expectedRating expectedReviewCount
  rw [h]
  exact ⟨rfl, rfl⟩

/-- C12: `updateProductRating` leaves the reviews alone and rewrites the product
stored under `productId` so that nothing but `rating` and `reviewCount` changes,
`reviewCount` is the number of approved reviews of that product, `rating` is 0
when there is none and otherwise the arithmetic mean of their ratings rounded
half-up to one decimal.  Other products are untouched, and a review of another
product or with another status, wherever it sits in the collection, does not
influence what is written. -/
theorem updateProductRating_spec (st : ReviewStore) (productId : Nat) {p : Product}
    (hp : findById Product.id st.products productId = some p) :
    (updateProductRating st productId).reviews = st.reviews ∧
    (∃ p', findById Product.id (updateProductRating st productId).products productId = some p' ∧
      p' = { p with rating := p'.rating, reviewCount := p'.reviewCount } ∧
      p'.reviewCount = ((approvedReviewsOf st.reviews productId).length : ℤ) ∧
      (approvedReviewsOf st.reviews productId = [] → p'.rating = 0 ∧ p'.reviewCount = 0) ∧
      (approvedReviewsOf st.reviews productId ≠ [] →
        p'.rating = round1 (arithmeticMean
          ((approvedReviewsOf st.reviews productId).map Review.rating)) ∧
        IsRoundHalfUp1 (arithmeticMean
          ((approvedReviewsOf st.reviews productId).map Review.rating)) p'.rating)) ∧
    (∀ j, j ≠ productId →
      findById Product.id (updateProductRating st productId).products j
        = findById Product.id st.products j) ∧
    (∀ rs1 rs2 x, st.reviews = rs1 ++ rs2 →
      ¬ (x.product = productId ∧ x.status = ReviewStatus.approved) →
      (updateProductRating { st with reviews := rs1 ++ x :: rs2 } productId).products
        = (updateProductRating st productId).products) := by
  refine ⟨updateProductRating_reviews st productId, ?_, ?_, ?_⟩
  · refine ⟨{ p with rating := expectedRating st.reviews productId,
                     reviewCount := expectedReviewCount st.reviews productId }, ?_, rfl, rfl,
      ?_, ?_⟩
    · rw [updateProductRating_products, @findById_updateById_self Product Product.id
        (fun p => { p with rating := expectedRating st.reviews productId,
                           reviewCount := expectedReviewCount st.reviews productId })
        productId (fun x hx => hx) st.products, hp]
      rfl
    · intro hnil
      simp [expectedRating, expectedReviewCount, hnil]
    · intro hne
      have hr : expectedRating st.reviews productId = round1 (arithmeticMean
          ((approvedReviewsOf st.reviews productId).map Review.rating)) := by
        unfold expectedRating
        rw [if_neg hne]
      show expectedRating st.reviews productId = _ ∧ IsRoundHalfUp1 _ (expectedRating _ _)
      rw [hr]
      exact ⟨rfl, round1_isRoundHalfUp1 _⟩
  · intro j hj
    rw [updateProductRating_products]
    exact @findById_updateById_ne Product Product.id
      (fun p => { p with rating := expectedRating st.reviews productId,
                         reviewCount := expectedReviewCount st.reviews productId })
      productId j (fun x hx => hx) hj st.products
  · intro rs1 rs2 x hrs hx
    rw [updateProductRating_products, updateProductRating_products]
    have h := expected_congr (approvedReviewsOf_insert rs1 rs2 x productId hx)
    show updateById Product.id (fun p => { p with
        rating := expectedRating (rs1 ++ x :: rs2) productId,
        reviewCount := expectedReviewCount (rs1 ++ x :: rs2) productId }) productId st.products
      = _
    rw [h.1, h.2, hrs]

/-- C12 (witness): approved ratings 5, 5 and 4, next to a pending review and a
review of another product, give rating 4.7 and reviewCount 3. -/
theorem updateProductRating_spec_witness :
    ((approvedReviewsOf ratedStore.reviews 1).map Review.rating = [5, 5, 4]) ∧
    (updateProductRating ratedStore 1).products
      = [{ sampleProduct 50 10 with rating := 47 / 10, reviewCount := 3 }] ∧
    ∃ p', findById Product.id (updateProductRating ratedStore 1).products 1 = some p' ∧
      p'.reviewCount = ((approvedReviewsOf ratedStore.reviews 1).length : ℤ) :=
  ⟨by decide, by decide!,
    match (updateProductRating_spec ratedStore 1
      (show findById Product.id ratedStore.products 1 = some (sampleProduct 50 10) by
        decide)).2.1 with
    | ⟨p', h1, _, h3, _, _⟩ => ⟨p', h1, h3⟩⟩

/-! ## Review handlers -/

/-- The review built by `saveNewReview` and the store it leaves. -/
theorem saveNewReview_eq (st : ReviewStore) (newId : Nat) (user : Option Nat) (productId : Nat)
    (rating : ℚ) (body : CreateReviewBody) (verified : Bool)
    (guestName guestEmail : Option String) {st' : ReviewStore} {r : Review}
    (h : saveNewReview st newId user productId rating body verified guestName guestEmail
      = (st', ReviewResponse.review r)) :
    r.id = newId ∧ r.user = user ∧ r.product = productId ∧ r.rating = rating ∧
    r.status = ReviewStatus.approved ∧ r.guestName = guestName ∧ r.guestEmail = guestEmail ∧
    r.helpful = 0 ∧ r.likes = 0 ∧
    st' = updateProductRating { st with reviews := st.reviews ++ [r] } productId := by
  unfold saveNewReview at h
  simp only [Prod.mk.injEq, ReviewResponse.review.injEq] at h
  obtain ⟨hst, hr⟩ := h
  subst hr
  exact ⟨rfl, rfl, rfl, rfl, rfl, rfl, rfl, rfl, rfl, hst.symm⟩

/-- A call of `createReview` either answers an error and leaves the store as it
was, or has passed every check and ends in `saveNewReview`. -/
theorem createReview_cases (st : ReviewStore) (delivered : Nat → Nat → Bool) (newId : Nat)
    (user : Option Nat) (body : CreateReviewBody) :
    (∃ e, createReview st delivered newId user body = (st, ReviewResponse.error e)) ∨
    ∃ productId rating verified guestName guestEmail,
      body.productId = some productId ∧ body.rating = some rating ∧
      1 ≤ rating ∧ rating ≤ 5 ∧
      (∃ p, findById Product.id st.products productId = some p) ∧
      (∀ u, user = some u → guestEmail = none ∧
        ∀ x ∈ st.reviews, ¬ (x.user = some u ∧ x.product = productId)) ∧
      (user = none → body.userName ≠ "" ∧ guestName = some body.userName ∧
        (body.userEmail = "" → guestEmail = none) ∧
        (body.userEmail ≠ "" → guestEmail = some body.userEmail ∧
          emailRegexTest body.userEmail = true ∧
          ∀ x ∈ st.reviews, ¬ (x.product = productId ∧ x.guestEmail = some body.userEmail))) ∧
      createReview st delivered newId user body
        = saveNewReview st newId user productId rating body verified guestName guestEmail := by
  unfold createReview
  split
  · rename_i productId rating hpid hrating
    split
    · exact Or.inl ⟨_, rfl⟩
    · rename_i hfields
      split
      · exact Or.inl ⟨_, rfl⟩
      · rename_i hrange
        have h1 : 1 ≤ rating := not_lt.mp (fun h => hrange (Or.inl h))
        have h5 : rating ≤ 5 := not_lt.mp (fun h => hrange (Or.inr h))
        split
        · exact Or.inl ⟨_, rfl⟩
        · rename_i p hp
          split
          · rename_i u
            split
            · exact Or.inl ⟨_, rfl⟩
            · rename_i hfind
              refine Or.inr ⟨productId, rating, delivered u productId, none, none, hpid, hrating,
                h1, h5, ⟨p, hp⟩, ?_, fun h => (by cases h), rfl⟩
              intro u' hu'
              cases hu'
              refine ⟨rfl, fun x hx hdup => ?_⟩
              have := List.find?_eq_none.mp hfind x hx
              simp [hdup.1, hdup.2] at this
          · split
            · exact Or.inl ⟨_, rfl⟩
            · rename_i hname
              split
              · rename_i hemail
                split
                · exact Or.inl ⟨_, rfl⟩
                · rename_i hregex
                  split
                  · exact Or.inl ⟨_, rfl⟩
                  · rename_i hfind
                    refine Or.inr ⟨productId, rating, false, some body.userName,
                      some body.userEmail, hpid, hrating, h1, h5, ⟨p, hp⟩,
                      fun u hu => (by cases hu), fun _ => ⟨hname, rfl, fun h => absurd h hemail,
                        fun _ => ⟨rfl, by simpa using hregex, fun x hx hdup => ?_⟩⟩, rfl⟩
                    have := List.find?_eq_none.mp hfind x hx
                    simp [hdup.1, hdup.2] at this
              · rename_i hemail
                refine Or.inr ⟨productId, rating, false, some body.userName, none, hpid, hrating,
                  h1, h5, ⟨p, hp⟩, fun u hu => (by cases hu),
                  fun _ => ⟨hname, rfl, fun _ => rfl, fun h => absurd h hemail⟩, rfl⟩
  · exact Or.inl ⟨_, rfl⟩

/-- An error answer of `createReview` leaves the store as it was. -/
theorem createReview_error_store {st st' : ReviewStore} {delivered : Nat → Nat → Bool}
    {newId : Nat} {user : Option Nat} {body : CreateReviewBody} {e : ReviewError}
    (h : createReview st delivered newId user body = (st', ReviewResponse.error e)) :
    st' = st := by
  rcases createReview_cases st delivered newId user body with ⟨e', he⟩ | ⟨_, _, _, _, _, -, -, -,
    -, -, -, -, hsave⟩
  · rw [he] at h
    exact (Prod.mk.inj h).1.symm
  · rw [hsave] at h
    simp [saveNewReview] at h

/-- A successful `updateReview` has found the caller's own review, turned it to
`pending`, saved it and recomputed the rating of its product. -/
theorem updateReview_ok_inv {st st' : ReviewStore} {id userId : Nat} {body : UpdateReviewBody}
    {r : Review} (h : updateReview st id userId body = (st', ReviewResponse.review r)) :
    ∃ r0, findById Review.id st.reviews id = some r0 ∧ r0.user = some userId ∧
      r.id = r0.id ∧ r.product = r0.product ∧ r.status = ReviewStatus.pending ∧
      st' = updateProductRating { st with reviews := saveReview st.reviews r } r.product := by
  unfold updateReview at h
  split at h
  · simp at h
  · rename_i r0 hr0
    split at h
    · simp at h
    · rename_i owner howner
      split at h
      · simp at h
      · rename_i hown
        simp only [Prod.mk.injEq, ReviewResponse.review.injEq] at h
        obtain ⟨hst, hr⟩ := h
        refine ⟨r0, hr0, ?_, ?_, ?_, ?_, ?_⟩
        · rw [howner]; simpa using hown
        · rw [← hr]; dsimp only; split <;> split <;> split <;> (try split) <;> rfl
        · rw [← hr]; dsimp only; split <;> split <;> split <;> (try split) <;> rfl
        · rw [← hr]
        · rw [← hst, ← hr]

/-- A successful `deleteReview` has found the review, dropped it and recomputed
the rating of its product. -/
theorem deleteReview_ok_inv {st st' : ReviewStore} {id userId : Nat} {isAdmin : Bool}
    (h : deleteReview st id userId isAdmin = (st', ReviewResponse.deleted)) :
    ∃ r0, findById Review.id st.reviews id = some r0 ∧
      (r0.user = some userId ∨ isAdmin = true) ∧
      st' = updateProductRating { st with reviews := deleteById id st.reviews } r0.product := by
  unfold deleteReview at h
  split at h
  · simp at h
  · rename_i r0 hr0
    split at h
    · simp at h
    · rename_i hauth
      simp only [Prod.mk.injEq, and_true] at h
      refine ⟨r0, hr0, ?_, h.symm⟩
      by_cases hu : r0.user = some userId
      · exact Or.inl hu
      · right
        cases isAdmin with
        | true => rfl
        | false => exact absurd ⟨hu, rfl⟩ hauth

/-- Saving a review that is not approved leaves the approved sets as if the
document under its identifier had been deleted. -/
theorem approvedReviewsOf_save_not_approved (rs : List Review) (r : Review) (id productId : Nat)
    (hr : r.status ≠ ReviewStatus.approved) :
    approvedReviewsOf (updateById Review.id (fun _ => r) id rs) productId
      = approvedReviewsOf (deleteById id rs) productId := by
  induction rs with
  | nil => rfl
  | cons x xs ih =>
    simp only [updateById, deleteById]
    split
    · unfold approvedReviewsOf
      rw [List.filter_cons_of_neg (by simp [hr])]
    · unfold approvedReviewsOf at ih ⊢
      simp only [List.filter_cons]
      split
      · rw [ih]
      · exact ih

/-- Saving an existing document makes it the one found under its identifier. -/
theorem findById_saveReview {rs : List Review} {r r0 : Review}
    (h0 : findById Review.id rs r.id = some r0) :
    findById Review.id (saveReview rs r) r.id = some r := by
  unfold saveReview
  rw [@findById_updateById_self Review Review.id (fun _ => r) r.id (fun _ _ => rfl) rs, h0]
  rfl

/-- C13: after a successful `createReview`, `updateReview` or `deleteReview` the
product of the review carries the rounded mean and the count of its approved
reviews in the resulting store.  The created review is appended with status
`approved`, so it is counted; the updated review is stored with status `pending`
and the approved sets are those of the store without it; the deleted review is
gone from the store. -/
theorem review_mutations_keep_rating_inSync :
    (∀ st delivered newId user body st' r,
      createReview st delivered newId user body = (st', ReviewResponse.review r) →
      RatingInSync st' r.product ∧ st'.reviews = st.reviews ++ [r] ∧
      r ∈ approvedReviewsOf st'.reviews r.product) ∧
    (∀ st id userId body st' r,
      updateReview st id userId body = (st', ReviewResponse.review r) →
      RatingInSync st' r.product ∧
      (∃ r0, findById Review.id st.reviews id = some r0 ∧ r.product = r0.product) ∧
      findById Review.id st'.reviews id = some r ∧ r.status = ReviewStatus.pending ∧
      ∀ k, approvedReviewsOf st'.reviews k = approvedReviewsOf (deleteById id st.reviews) k) ∧
    (∀ st id userId isAdmin st',
      deleteReview st id userId isAdmin = (st', ReviewResponse.deleted) →
      ∃ r0, findById Review.id st.reviews id = some r0 ∧ RatingInSync st' r0.product ∧
        st'.reviews = deleteById id st.reviews) := by
  refine ⟨?_, ?_, ?_⟩
  · intro st delivered newId user body st' r h
    rcases createReview_cases st delivered newId user body with ⟨e, he⟩ | ⟨pid, rating, v, gn, ge,
      -, -, -, -, -, -, -, hsave⟩
    · rw [he] at h
      simp at h
    · rw [hsave] at h
      obtain ⟨-, -, hprod, -, hstatus, -, -, -, -, hst⟩ := saveNewReview_eq _ _ _ _ _ _ _ _ _ h
      have hrev : st'.reviews = st.reviews ++ [r] := by
        rw [hst, updateProductRating_reviews]
      refine ⟨?_, hrev, ?_⟩
      · rw [hst, hprod]
        exact updateProductRating_inSync _ _
      · rw [hrev]
        unfold approvedReviewsOf
        simp [hstatus]
  · intro st id userId body st' r h
    obtain ⟨r0, hr0, -, hid, hprod, hstatus, hst⟩ := updateReview_ok_inv h
    have hkey : r0.id = id := findById_key hr0
    have hrev : st'.reviews = saveReview st.reviews r := by
      rw [hst, updateProductRating_reviews]
    refine ⟨?_, ⟨r0, hr0, hprod⟩, ?_, hstatus, ?_⟩
    · rw [hst]
      exact updateProductRating_inSync _ _
    · rw [hrev]
      have hrid : r.id = id := by rw [hid, hkey]
      rw [← hrid]
      exact findById_saveReview (by rw [hrid]; exact hr0)
    · intro k
      rw [hrev]
      unfold saveReview
      rw [hid, hkey]
      exact approvedReviewsOf_save_not_approved _ _ _ _ (by rw [hstatus]; decide)
  · intro st id userId isAdmin st' h
    obtain ⟨r0, hr0, -, hst⟩ := deleteReview_ok_inv h
    refine ⟨r0, hr0, ?_, ?_⟩
    · rw [hst]
      exact updateProductRating_inSync _ _
    · rw [hst, updateProductRating_reviews]

/-- C13 (witness): a guest review rated 4 created in a store without review
leaves product 1 with rating 4 and reviewCount 1, in sync with its approved set. -/
theorem review_mutations_keep_rating_inSync_witness :
    (createReview emptyReviewStore (fun _ _ => false) 9 none (guestBody 4 "")).1.products
      = [{ sampleProduct 50 10 with rating := 4, reviewCount := 1 }] ∧
    RatingInSync (createReview emptyReviewStore (fun _ _ => false) 9 none (guestBody 4 "")).1
      (guestReview 4 none).product :=
  ⟨by decide!,
   (review_mutations_keep_rating_inSync.1 emptyReviewStore (fun _ _ => false) 9 none
      (guestBody 4 "") _ (guestReview 4 none) (Prod.ext rfl (by decide!))).1⟩

/-- C14 (code defect): product 1 carries rating 5 and reviewCount 1 from its only
review, which is approved.  When `updateReviewStatus` turns that review to
`rejected`, the call succeeds and the approved set of the product becomes empty,
but the product keeps rating 5 and reviewCount 1: the rating is recomputed only
when the new status is `approved`. -/
theorem updateReviewStatus_reject_keeps_rating :
    updateReviewStatus singleReviewStore 1 "rejected" =
      ({ products := [{ sampleProduct 50 10 with rating := 5, reviewCount := 1 }],
         reviews := [sampleReview 1 5 ReviewStatus.rejected] },
       ReviewResponse.review (sampleReview 1 5 ReviewStatus.rejected)) ∧
    approvedReviewsOf (updateReviewStatus singleReviewStore 1 "rejected").1.reviews 1 = [] ∧
    expectedRating (updateReviewStatus singleReviewStore 1 "rejected").1.reviews 1 = 0 ∧
    expectedReviewCount (updateReviewStatus singleReviewStore 1 "rejected").1.reviews 1 = 0 := by
  decide!

/-- C15 (code defect): product 1 carries rating 5 and reviewCount 1 from its only
review, which is approved and has two reports.  The third report turns the
review to `pending`, so the approved set of the product becomes empty, but the
product keeps rating 5 and reviewCount 1: `reportReview` never recomputes the
rating. -/
theorem reportReview_third_report_keeps_rating :
    reportReview reportedTwiceStore 1 7 "faux" 30 =
      ({ products := [{ sampleProduct 50 10 with rating := 5, reviewCount := 1 }],
         reviews := [{ sampleReview 1 5 ReviewStatus.pending with
           reports := twoReports ++ [{ user := 7, reason := "faux", reportedAt := 30 }] }] },
       ReviewResponse.reported 3) ∧
    approvedReviewsOf (reportReview reportedTwiceStore 1 7 "faux" 30).1.reviews 1 = [] ∧
    expectedRating (reportReview reportedTwiceStore 1 7 "faux" 30).1.reviews 1 = 0 ∧
    expectedReviewCount (reportReview reportedTwiceStore 1 7 "faux" 30).1.reviews 1 = 0 := by
  decide!

/-- The handler `reportReview` never writes a product. -/
theorem reportReview_products (st : ReviewStore) (id userId : Nat) (reason : String) (now : ℤ) :
    (reportReview st id userId reason now).1.products = st.products := by
  unfold reportReview
  split
  · rfl
  · split <;> rfl

/-- The handler `updateReviewStatus` writes a product only when the new status
is `approved`. -/
theorem updateReviewStatus_products (st : ReviewStore) (id : Nat) (status : String)
    (h : status ≠ "approved") : (updateReviewStatus st id status).1.products = st.products := by
  unfold updateReviewStatus
  split
  · rfl
  · split
    · rfl
    · rename_i newStatus hparse
      have hne : newStatus ≠ ReviewStatus.approved := by
        intro heq
        subst heq
        unfold reviewStatusOfString at hparse
        by_cases hp : status = "pending"
        · rw [if_pos hp] at hparse
          cases hparse
        · rw [if_neg hp, if_neg h] at hparse
          split at hparse <;> cases hparse
      rw [if_neg hne]

/-- When `updateReviewStatus` approves a review, the product of that review is
in sync afterwards. -/
theorem updateReviewStatus_approved_inSync {st st' : ReviewStore} {id : Nat} {r : Review}
    (h : updateReviewStatus st id "approved" = (st', ReviewResponse.review r)) :
    RatingInSync st' r.product := by
  unfold updateReviewStatus at h
  split at h
  · simp at h
  · rename_i r0 hr0
    have hparse : reviewStatusOfString "approved" = some ReviewStatus.approved := by decide
    rw [hparse] at h
    simp only [if_true, Prod.mk.injEq, ReviewResponse.review.injEq] at h
    obtain ⟨hst, hr⟩ := h
    rw [← hst, ← hr]
    exact updateProductRating_inSync _ _

/-- One accepted report: the answer counts one more report and the review found
under `id` afterwards is the old one with the report appended and, from the
third report on, the status `pending`. -/
theorem reportReview_ok (st : ReviewStore) (id userId : Nat) (reason : String) (now : ℤ)
    {r : Review} (hr : findById Review.id st.reviews id = some r) (hreason : reason ≠ "") :
    (reportReview st id userId reason now).2 = ReviewResponse.reported (r.reports.length + 1) ∧
    findById Review.id (reportReview st id userId reason now).1.reviews id =
      some { r with
        reports := r.reports ++ [{ user := userId, reason := reason, reportedAt := now }],
        status := if 3 ≤ r.reports.length + 1 then ReviewStatus.pending else r.status } := by
  have hkey : r.id = id := findById_key hr
  unfold reportReview
  rw [hr]
  simp only [if_neg hreason]
  by_cases h3 : 3 ≤ r.reports.length + 1
  · have hlen : (r.reports ++ [({ user := userId, reason := reason, reportedAt := now }
        : Report)]).length ≥ 3 := by simpa using h3
    simp only [if_pos hlen, if_pos h3]
    refine ⟨by simp, ?_⟩
    have := @findById_saveReview st.reviews
      { r with reports := r.reports ++ [{ user := userId, reason := reason, reportedAt := now }],
               status := ReviewStatus.pending } r (by rw [← hkey] at hr; exact hr)
    rw [← hkey]
    exact this
  · have hlen : ¬ (r.reports ++ [({ user := userId, reason := reason, reportedAt := now }
        : Report)]).length ≥ 3 := by simpa using h3
    simp only [if_neg hlen, if_neg h3]
    refine ⟨by simp, ?_⟩
    have := @findById_saveReview st.reviews
      { r with reports := r.reports ++ [{ user := userId, reason := reason,
                                          reportedAt := now }] } r
      (by rw [← hkey] at hr; exact hr)
    rw [← hkey]
    exact this

/-- C16: for an existing review, `reportReview` with a non-empty reason answers
reportsCount = previous count + 1 and stores the review with exactly that report
appended; its status is `pending` when the new count is at least 3 and unchanged
when it is below 3, and nothing else of the review changes.  Three reports in a
row by the same user leave the review `pending` with three more reports.  With an
empty reason the call is rejected and the store is unchanged. -/
theorem reportReview_spec (st : ReviewStore) (id userId : Nat) (reason : String) (now : ℤ)
    {r : Review} (hr : findById Review.id st.reviews id = some r) :
    (reason ≠ "" →
      (reportReview st id userId reason now).2
        = ReviewResponse.reported (r.reports.length + 1) ∧
      ∃ r', findById Review.id (reportReview st id userId reason now).1.reviews id = some r' ∧
        r'.reports = r.reports ++ [{ user := userId, reason := reason, reportedAt := now }] ∧
        (3 ≤ r.reports.length + 1 → r'.status = ReviewStatus.pending) ∧
        (r.reports.length + 1 < 3 → r'.status = r.status) ∧
        r' = { r with reports := r'.reports, status := r'.status }) ∧
    (reason ≠ "" →
      ∃ r', findById Review.id
          (reportReview (reportReview (reportReview st id userId reason now).1
            id userId reason now).1 id userId reason now).1.reviews id = some r' ∧
        r'.status = ReviewStatus.pending ∧ r'.reports.length = r.reports.length + 3 ∧
        ∀ x ∈ r'.reports.drop r.reports.length, x.user = userId) ∧
    (reason = "" →
      reportReview st id userId reason now
        = (st, ReviewResponse.error ReviewError.reasonRequired)) := by
  refine ⟨fun hreason => ?_, fun hreason => ?_, fun hreason => ?_⟩
  · obtain ⟨hresp, hfind⟩ := reportReview_ok st id userId reason now hr hreason
    refine ⟨hresp, _, hfind, rfl, fun h3 => ?_, fun h3 => ?_, rfl⟩
    · simp [h3]
    · have : ¬ 3 ≤ r.reports.length + 1 := by omega
      simp [this]
  · obtain ⟨-, h1⟩ := reportReview_ok st id userId reason now hr hreason
    obtain ⟨-, h2⟩ := reportReview_ok _ id userId reason now h1 hreason
    obtain ⟨-, h3⟩ := reportReview_ok _ id userId reason now h2 hreason
    refine ⟨_, h3, ?_, ?_, ?_⟩
    · simp
    · simp
    · intro x hx
      simp at hx
      rw [hx]
  · simp [reportReview, hr, hreason]

/-- C16 (witness): the third report on a review reported twice answers
reportsCount 3 and leaves it `pending`. -/
theorem reportReview_spec_witness :
    (reportReview reportedTwiceStore 1 7 "faux" 30).2 = ReviewResponse.reported (2 + 1) ∧
    ∃ r', findById Review.id (reportReview reportedTwiceStore 1 7 "faux" 30).1.reviews 1
        = some r' ∧ r'.status = ReviewStatus.pending :=
  have h := (reportReview_spec reportedTwiceStore 1 7 "faux" 30
    (show findById Review.id reportedTwiceStore.reviews 1
      = some { sampleReview 1 5 ReviewStatus.approved with reports := twoReports } by
        decide!)).1 (by decide)
  ⟨h.1, match h.2 with
    | ⟨r', h1, _, h3, _, _⟩ => ⟨r', h1, h3 (by decide)⟩⟩

/-! ## Toggles -/

/-- A document of a collection after `save` is an old one or the saved one. -/
theorem mem_saveReview {rs : List Review} {r x : Review} (hx : x ∈ saveReview rs r) :
    x ∈ rs ∨ x = r := by
  unfold saveReview at hx
  induction rs with
  | nil => simp [updateById] at hx
  | cons y ys ih =>
    simp only [updateById] at hx
    split at hx
    · rcases List.mem_cons.mp hx with h | h
      · exact Or.inr h
      · exact Or.inl (List.mem_cons_of_mem _ h)
    · rcases List.mem_cons.mp hx with h | h
      · exact Or.inl (h ▸ List.mem_cons_self _ _)
      · rcases ih h with h' | h'
        · exact Or.inl (List.mem_cons_of_mem _ h')
        · exact Or.inr h'

/-- One call of `markHelpful` on an existing review: what is stored and what is
answered, in each of the two branches. -/
theorem markHelpful_ok (st : ReviewStore) (id userId : Nat) {r : Review}
    (hr : findById Review.id st.reviews id = some r) :
    (userId ∈ r.helpfulUsers →
      (markHelpful st id userId).1.reviews = saveReview st.reviews
        { r with helpfulUsers := r.helpfulUsers.filter (fun u => u != userId),
                 helpful := max 0 (r.helpful - 1) } ∧
      (markHelpful st id userId).2
        = ReviewResponse.toggled (max 0 (r.helpful - 1)) UserAction.removed) ∧
    (userId ∉ r.helpfulUsers →
      (markHelpful st id userId).1.reviews = saveReview st.reviews
        { r with helpfulUsers := r.helpfulUsers ++ [userId], helpful := r.helpful + 1 } ∧
      (markHelpful st id userId).2
        = ReviewResponse.toggled (r.helpful + 1) UserAction.added) := by
  constructor <;> intro hmem <;> simp [markHelpful, hr, hmem]

/-- One call of `markLike` on an existing review: what is stored and what is
answered, in each of the two branches. -/
theorem markLike_ok (st : ReviewStore) (id userId : Nat) {r : Review}
    (hr : findById Review.id st.reviews id = some r) :
    (userId ∈ r.likedUsers →
      (markLike st id userId).1.reviews = saveReview st.reviews
        { r with likedUsers := r.likedUsers.filter (fun u => u != userId),
                 likes := max 0 (r.likes - 1) } ∧
      (markLike st id userId).2
        = ReviewResponse.toggled (max 0 (r.likes - 1)) UserAction.removed) ∧
    (userId ∉ r.likedUsers →
      (markLike st id userId).1.reviews = saveReview st.reviews
        { r with likedUsers := r.likedUsers ++ [userId], likes := r.likes + 1 } ∧
      (markLike st id userId).2
        = ReviewResponse.toggled (r.likes + 1) UserAction.added) := by
  constructor <;> intro hmem <;> simp [markLike, hr, hmem]

/-- The toggle handlers never write a product. -/
theorem toggle_products (st : ReviewStore) (id userId : Nat) :
    (markHelpful st id userId).1.products = st.products ∧
    (markLike st id userId).1.products = st.products := by
  constructor
  · unfold markHelpful
    split
    · rfl
    · split <;> rfl
  · unfold markLike
    split
    · rfl
    · split <;> rfl

/-- Removing a user from a list that does not contain it changes nothing. -/
theorem filter_ne_of_not_mem {l : List Nat} {u : Nat} (h : u ∉ l) :
    l.filter (fun x => x != u) = l := by
  apply List.filter_eq_self.mpr
  intro x hx
  simp only [bne_iff_ne, ne_eq]
  intro heq
  exact h (heq ▸ hx)

/-- C17: for an existing review and a user who is not in `helpfulUsers`, with a
non-negative `helpful` counter, two consecutive `markHelpful` calls by that user
answer `added` with the counter plus one, then `removed` with the original
counter, and the review stored afterwards is the original one (same counter, same
`helpfulUsers`); likewise for `markLike` with `likes` and `likedUsers`. -/
theorem toggle_twice (st : ReviewStore) (id userId : Nat) {r : Review}
    (hr : findById Review.id st.reviews id = some r) :
    (userId ∉ r.helpfulUsers → 0 ≤ r.helpful →
      (markHelpful st id userId).2 = ReviewResponse.toggled (r.helpful + 1) UserAction.added ∧
      (markHelpful (markHelpful st id userId).1 id userId).2
        = ReviewResponse.toggled r.helpful UserAction.removed ∧
      findById Review.id (markHelpful (markHelpful st id userId).1 id userId).1.reviews id
        = some r) ∧
    (userId ∉ r.likedUsers → 0 ≤ r.likes →
      (markLike st id userId).2 = ReviewResponse.toggled (r.likes + 1) UserAction.added ∧
      (markLike (markLike st id userId).1 id userId).2
        = ReviewResponse.toggled r.likes UserAction.removed ∧
      findById Review.id (markLike (markLike st id userId).1 id userId).1.reviews id
        = some r) := by
  have hkey : r.id = id := findById_key hr
  constructor
  · intro hmem hpos
    have h1 := (markHelpful_ok st id userId hr).2 hmem
    have hr1 : findById Review.id (markHelpful st id userId).1.reviews id
        = some { r with helpfulUsers := r.helpfulUsers ++ [userId],
                        helpful := r.helpful + 1 } := by
      rw [h1.1, ← hkey]
      exact @findById_saveReview st.reviews
        { r with helpfulUsers := r.helpfulUsers ++ [userId], helpful := r.helpful + 1 } r
        (by rw [← hkey] at hr; exact hr)
    have h2 := (markHelpful_ok (markHelpful st id userId).1 id userId hr1).1 (by simp)
    have hfilter : (r.helpfulUsers ++ [userId]).filter (fun u => u != userId)
        = r.helpfulUsers := by
      rw [List.filter_append, filter_ne_of_not_mem hmem]
      simp
    have hmax : max 0 (r.helpful + 1 - 1) = r.helpful := by
      rw [add_sub_cancel_right]
      exact max_eq_right hpos
    refine ⟨h1.2, ?_, ?_⟩
    · rw [h2.2]
      show ReviewResponse.toggled (max 0 (r.helpful + 1 - 1)) UserAction.removed = _
      rw [hmax]
    · rw [h2.1]
      show findById Review.id (saveReview (markHelpful st id userId).1.reviews
        { r with helpfulUsers := (r.helpfulUsers ++ [userId]).filter (fun u => u != userId),
                 helpful := max 0 (r.helpful + 1 - 1) }) id = some r
      rw [hfilter, hmax]
      have := @findById_saveReview (markHelpful st id userId).1.reviews r _
        (by rw [hkey]; exact hr1)
      rw [hkey] at this
      exact this
  · intro hmem hpos
    have h1 := (markLike_ok st id userId hr).2 hmem
    have hr1 : findById Review.id (markLike st id userId).1.reviews id
        = some { r with likedUsers := r.likedUsers ++ [userId], likes := r.likes + 1 } := by
      rw [h1.1, ← hkey]
      exact @findById_saveReview st.reviews
        { r with likedUsers := r.likedUsers ++ [userId], likes := r.likes + 1 } r
        (by rw [← hkey] at hr; exact hr)
    have h2 := (markLike_ok (markLike st id userId).1 id userId hr1).1 (by simp)
    have hfilter : (r.likedUsers ++ [userId]).filter (fun u => u != userId)
        = r.likedUsers := by
      rw [List.filter_append, filter_ne_of_not_mem hmem]
      simp
    have hmax : max 0 (r.likes + 1 - 1) = r.likes := by
      rw [add_sub_cancel_right]
      exact max_eq_right hpos
    refine ⟨h1.2, ?_, ?_⟩
    · rw [h2.2]
      show ReviewResponse.toggled (max 0 (r.likes + 1 - 1)) UserAction.removed = _
      rw [hmax]
    · rw [h2.1]
      show findById Review.id (saveReview (markLike st id userId).1.reviews
        { r with likedUsers := (r.likedUsers ++ [userId]).filter (fun u => u != userId),
                 likes := max 0 (r.likes + 1 - 1) }) id = some r
      rw [hfilter, hmax]
      have := @findById_saveReview (markLike st id userId).1.reviews r _
        (by rw [hkey]; exact hr1)
      rw [hkey] at this
      exact this

/-- C17 (witness): user 7 toggles `helpful` twice on the review of
`singleReviewStore`: `added` with counter 1, `removed` with counter 0, and the
review is back to what it was. -/
theorem toggle_twice_witness :
    (markHelpful singleReviewStore 1 7).2 = ReviewResponse.toggled (0 + 1) UserAction.added ∧
    (markHelpful (markHelpful singleReviewStore 1 7).1 1 7).2
      = ReviewResponse.toggled 0 UserAction.removed ∧
    findById Review.id (markHelpful (markHelpful singleReviewStore 1 7).1 1 7).1.reviews 1
      = some (sampleReview 1 5 ReviewStatus.approved) :=
  (toggle_twice singleReviewStore 1 7
    (show findById Review.id singleReviewStore.reviews 1
      = some (sampleReview 1 5 ReviewStatus.approved) by decide!)).1 (by decide) (by decide)

/-- One `markHelpful` call keeps the counters non-negative. -/
theorem markHelpful_nonNegative {st : ReviewStore} (h : NonNegativeCounters st)
    (id userId : Nat) : NonNegativeCounters (markHelpful st id userId).1 := by
  cases hr : findById Review.id st.reviews id with
  | none =>
    have : markHelpful st id userId = (st, ReviewResponse.error ReviewError.reviewNotFound) := by
      simp [markHelpful, hr]
    rw [this]
    exact h
  | some r =>
    have hpos := h r (findById_mem hr)
    intro x hx
    by_cases hmem : userId ∈ r.helpfulUsers
    · rw [((markHelpful_ok st id userId hr).1 hmem).1] at hx
      rcases mem_saveReview hx with hx | hx
      · exact h x hx
      · rw [hx]
        exact ⟨le_max_left _ _, hpos.2⟩
    · rw [((markHelpful_ok st id userId hr).2 hmem).1] at hx
      rcases mem_saveReview hx with hx | hx
      · exact h x hx
      · rw [hx]
        exact ⟨by show 0 ≤ r.helpful + 1; linarith [hpos.1], hpos.2⟩

/-- One `markLike` call keeps the counters non-negative. -/
theorem markLike_nonNegative {st : ReviewStore} (h : NonNegativeCounters st)
    (id userId : Nat) : NonNegativeCounters (markLike st id userId).1 := by
  cases hr : findById Review.id st.reviews id with
  | none =>
    have : markLike st id userId = (st, ReviewResponse.error ReviewError.reviewNotFound) := by
      simp [markLike, hr]
    rw [this]
    exact h
  | some r =>
    have hpos := h r (findById_mem hr)
    intro x hx
    by_cases hmem : userId ∈ r.likedUsers
    · rw [((markLike_ok st id userId hr).1 hmem).1] at hx
      rcases mem_saveReview hx with hx | hx
      · exact h x hx
      · rw [hx]
        exact ⟨hpos.1, le_max_left _ _⟩
    · rw [((markLike_ok st id userId hr).2 hmem).1] at hx
      rcases mem_saveReview hx with hx | hx
      · exact h x hx
      · rw [hx]
        exact ⟨hpos.1, by show 0 ≤ r.likes + 1; linarith [hpos.2]⟩

/-- Any sequence of toggle calls keeps the counters non-negative. -/
theorem runToggles_nonNegative (calls : List ToggleCall) {st : ReviewStore}
    (h : NonNegativeCounters st) : NonNegativeCounters (runToggles st calls) := by
  induction calls generalizing st with
  | nil => exact h
  | cons c cs ih =>
    unfold runToggles
    rw [List.foldl_cons]
    apply ih
    cases c with
    | helpful id userId => exact markHelpful_nonNegative h id userId
    | like id userId => exact markLike_nonNegative h id userId

/-- C18: in a store whose reviews have non-negative `helpful` and `likes`, the
counters of every review are still non-negative after any sequence of
`markHelpful` and `markLike` calls by any users (hence after each call of the
sequence), and one call moves the counter it is about by at most 1 and leaves
the other counter of the review alone. -/
theorem counters_never_negative (st : ReviewStore) (h : NonNegativeCounters st) :
    (∀ calls : List ToggleCall, NonNegativeCounters (runToggles st calls)) ∧
    (∀ (calls : List ToggleCall) (k : Nat),
      NonNegativeCounters (runToggles st (calls.take k))) ∧
    (∀ id userId r, findById Review.id st.reviews id = some r →
      ∃ r', findById Review.id (markHelpful st id userId).1.reviews id = some r' ∧
        |r'.helpful - r.helpful| ≤ 1 ∧ 0 ≤ r'.helpful ∧ r'.likes = r.likes) ∧
    (∀ id userId r, findById Review.id st.reviews id = some r →
      ∃ r', findById Review.id (markLike st id userId).1.reviews id = some r' ∧
        |r'.likes - r.likes| ≤ 1 ∧ 0 ≤ r'.likes ∧ r'.helpful = r.helpful) := by
  refine ⟨fun calls => runToggles_nonNegative calls h,
    fun calls k => runToggles_nonNegative _ h, ?_, ?_⟩
  · intro id userId r hr
    have hkey : r.id = id := findById_key hr
    have hpos := (h r (findById_mem hr)).1
    by_cases hmem : userId ∈ r.helpfulUsers
    · refine ⟨{ r with helpfulUsers := r.helpfulUsers.filter (fun u => u != userId),
                       helpful := max 0 (r.helpful - 1) }, ?_, ?_, le_max_left _ _, rfl⟩
      · rw [((markHelpful_ok st id userId hr).1 hmem).1, ← hkey]
        exact @findById_saveReview st.reviews
          { r with helpfulUsers := r.helpfulUsers.filter (fun u => u != userId),
                   helpful := max 0 (r.helpful - 1) } r (by rw [← hkey] at hr; exact hr)
      · show |max 0 (r.helpful - 1) - r.helpful| ≤ 1
        rw [abs_le]
        rcases max_cases 0 (r.helpful - 1) with ⟨h1, _⟩ | ⟨h1, _⟩ <;> rw [h1] <;>
          constructor <;> omega
    · refine ⟨{ r with helpfulUsers := r.helpfulUsers ++ [userId], helpful := r.helpful + 1 },
        ?_, ?_, by show 0 ≤ r.helpful + 1; omega, rfl⟩
      · rw [((markHelpful_ok st id userId hr).2 hmem).1, ← hkey]
        exact @findById_saveReview st.reviews
          { r with helpfulUsers := r.helpfulUsers ++ [userId], helpful := r.helpful + 1 } r
          (by rw [← hkey] at hr; exact hr)
      · show |r.helpful + 1 - r.helpful| ≤ 1
        rw [add_sub_cancel_left]
        simp
  · intro id userId r hr
    have hkey : r.id = id := findById_key hr
    have hpos := (h r (findById_mem hr)).2
    by_cases hmem : userId ∈ r.likedUsers
    · refine ⟨{ r with likedUsers := r.likedUsers.filter (fun u => u != userId),
                       likes := max 0 (r.likes - 1) }, ?_, ?_, le_max_left _ _, rfl⟩
      · rw [((markLike_ok st id userId hr).1 hmem).1, ← hkey]
        exact @findById_saveReview st.reviews
          { r with likedUsers := r.likedUsers.filter (fun u => u != userId),
                   likes := max 0 (r.likes - 1) } r (by rw [← hkey] at hr; exact hr)
      · show |max 0 (r.likes - 1) - r.likes| ≤ 1
        rw [abs_le]
        rcases max_cases 0 (r.likes - 1) with ⟨h1, _⟩ | ⟨h1, _⟩ <;> rw [h1] <;>
          constructor <;> omega
    · refine ⟨{ r with likedUsers := r.likedUsers ++ [userId], likes := r.likes + 1 },
        ?_, ?_, by show 0 ≤ r.likes + 1; omega, rfl⟩
      · rw [((markLike_ok st id userId hr).2 hmem).1, ← hkey]
        exact @findById_saveReview st.reviews
          { r with likedUsers := r.likedUsers ++ [userId], likes := r.likes + 1 } r
          (by rw [← hkey] at hr; exact hr)
      · show |r.likes + 1 - r.likes| ≤ 1
        rw [add_sub_cancel_left]
        simp

/-- C18 (witness): starting from `singleReviewStore`, user 7 marks review 1
helpful twice and likes it once; the counters are non-negative at the end. -/
theorem counters_never_negative_witness :
    NonNegativeCounters (runToggles singleReviewStore
      [ToggleCall.helpful 1 7, ToggleCall.helpful 1 7, ToggleCall.like 1 7]) :=
  (counters_never_negative singleReviewStore (by
    intro r hr
    have : r = sampleReview 1 5 ReviewStatus.approved := by
      simpa [singleReviewStore] using hr
    rw [this]
    decide)).1 _

/-! ## Creation checks -/

/-- The reviews after `saveNewReview`: the old ones followed by the new one. -/
theorem saveNewReview_reviews (st : ReviewStore) (newId : Nat) (user : Option Nat)
    (productId : Nat) (rating : ℚ) (body : CreateReviewBody) (verified : Bool)
    (guestName guestEmail : Option String) :
    ∃ r, (saveNewReview st newId user productId rating body verified guestName guestEmail).2
        = ReviewResponse.review r ∧
      (saveNewReview st newId user productId rating body verified guestName guestEmail).1.reviews
        = st.reviews ++ [r] ∧
      r.user = user ∧ r.product = productId ∧ r.guestEmail = guestEmail ∧ r.rating = rating := by
  refine ⟨_, rfl, ?_, rfl, rfl, rfl, rfl⟩
  unfold saveNewReview
  dsimp only
  rw [updateProductRating_reviews]

/-- With valid fields and an existing product, `createReview` is decided by the
identity branch alone. -/
theorem createReview_valid_fields (st : ReviewStore) (delivered : Nat → Nat → Bool)
    (newId : Nat) (user : Option Nat) (body : CreateReviewBody) {productId : Nat} {rating : ℚ}
    {p : Product} (hpid : body.productId = some productId) (hrating : body.rating = some rating)
    (h1 : 1 ≤ rating) (h5 : rating ≤ 5) (htitle : body.title ≠ "") (hcomment : body.comment ≠ "")
    (hp : findById Product.id st.products productId = some p) :
    createReview st delivered newId user body =
      match user with
      | some u =>
        match st.reviews.find? (fun r => decide (r.user = some u)
            && decide (r.product = productId)) with
        | some _ => (st, ReviewResponse.error ReviewError.alreadyReviewed)
        | none => saveNewReview st newId (some u) productId rating body
            (delivered u productId) none none
      | none =>
        if body.userName = "" then
          (st, ReviewResponse.error ReviewError.guestNameRequired)
        else if body.userEmail ≠ "" then
          if emailRegexTest body.userEmail = false then
            (st, ReviewResponse.error ReviewError.invalidEmail)
          else
            match st.reviews.find? (fun r => decide (r.product = productId)
                && decide (r.guestEmail = some body.userEmail)) with
            | some _ => (st, ReviewResponse.error ReviewError.guestEmailUsed)
            | none => saveNewReview st newId none productId rating body false
                (some body.userName) (some body.userEmail)
        else saveNewReview st newId none productId rating body false
            (some body.userName) none := by
  have h0 : rating ≠ 0 := by
    intro h
    rw [h] at h1
    norm_num at h1
  have hfields : ¬ (rating = 0 ∨ body.title = "" ∨ body.comment = "") := by
    rintro (h | h | h)
    · exact h0 h
    · exact htitle h
    · exact hcomment h
  have hrange : ¬ (rating < 1 ∨ rating > 5) := by
    rintro (h | h)
    · exact absurd h1 (not_le.mpr h)
    · exact absurd h5 (not_le.mpr h)
  unfold createReview
  rw [hpid, hrating]
  simp only [if_neg hfields, if_neg hrange, hp]

/-- One `createReview` call keeps the collection free of duplicate identities. -/
theorem createReview_noDuplicate (st : ReviewStore) (delivered : Nat → Nat → Bool) (newId : Nat)
    (user : Option Nat) (body : CreateReviewBody) (h : NoDuplicateReviews st.reviews) :
    NoDuplicateReviews (createReview st delivered newId user body).1.reviews := by
  rcases createReview_cases st delivered newId user body with ⟨e, he⟩ | ⟨pid, rating, v, gn, ge,
    -, -, -, -, -, huser, hguest, hsave⟩
  · rw [he]
    exact h
  · rw [hsave]
    obtain ⟨r, -, hrev, hru, hrp, hre, -⟩ := saveNewReview_reviews st newId user pid rating body
      v gn ge
    rw [hrev]
    unfold NoDuplicateReviews at h ⊢
    rw [List.pairwise_append]
    refine ⟨h, List.pairwise_singleton _ _, ?_⟩
    intro a ha b hb
    rw [List.mem_singleton] at hb
    subst hb
    rintro ⟨hprod, hid⟩
    rw [hrp] at hprod
    cases huser' : user with
    | some u =>
      obtain ⟨hge, hnone⟩ := huser u huser'
      rcases hid with ⟨u', hau, hbu⟩ | ⟨e, -, hbe⟩
      · rw [hru, huser'] at hbu
        cases hbu
        exact hnone a ha ⟨hau, hprod⟩
      · rw [hre, hge] at hbe
        cases hbe
    | none =>
      obtain ⟨-, -, hnoemail, hemail⟩ := hguest huser'
      rcases hid with ⟨u', -, hbu⟩ | ⟨e, hae, hbe⟩
      · rw [hru, huser'] at hbu
        cases hbu
      · by_cases hmail : body.userEmail = ""
        · rw [hre, hnoemail hmail] at hbe
          cases hbe
        · obtain ⟨hge, -, hnone⟩ := hemail hmail
          rw [hre, hge] at hbe
          cases hbe
          exact hnone a ha ⟨hprod, hae⟩

/-- Any sequence of `createReview` calls keeps the collection free of duplicate
identities. -/
theorem runCreateReviews_noDuplicate (delivered : Nat → Nat → Bool)
    (calls : List CreateReviewCall) {st : ReviewStore} (h : NoDuplicateReviews st.reviews) :
    NoDuplicateReviews (runCreateReviews delivered st calls).reviews := by
  induction calls generalizing st with
  | nil => exact h
  | cons c cs ih =>
    unfold runCreateReviews
    rw [List.foldl_cons]
    exact ih (createReview_noDuplicate st delivered c.newId c.user c.body h)

/-- C19: take a `createReview` call with valid fields (product identifier,
rating between 1 and 5, non-empty title and comment) for an existing product.
An authenticated caller `u` is answered `Vous avez déjà évalué ce produit`
exactly when a review with the same product and user `u` exists, and the review
is created otherwise.  A guest with a name and a well-formed email is answered
`Un avis avec cet email existe déjà pour ce produit` exactly when a review with
the same product and guest email exists, and the review is created otherwise.
A guest with a name and no email always gets the review created.  Hence any
sequence of `createReview` calls keeps a collection free of two reviews with the
same product and the same user or the same non-null guest email. -/
theorem createReview_duplicates (st : ReviewStore) (delivered : Nat → Nat → Bool)
    (newId : Nat) (body : CreateReviewBody) {productId : Nat} {rating : ℚ} {p : Product}
    (hpid : body.productId = some productId) (hrating : body.rating = some rating)
    (h1 : 1 ≤ rating) (h5 : rating ≤ 5) (htitle : body.title ≠ "") (hcomment : body.comment ≠ "")
    (hp : findById Product.id st.products productId = some p) :
    (∀ u,
      ((createReview st delivered newId (some u) body).2
          = ReviewResponse.error ReviewError.alreadyReviewed ↔
        ∃ x ∈ st.reviews, x.user = some u ∧ x.product = productId) ∧
      ((¬ ∃ x ∈ st.reviews, x.user = some u ∧ x.product = productId) →
        ∃ r, (createReview st delivered newId (some u) body).2 = ReviewResponse.review r)) ∧
    (body.userName ≠ "" → body.userEmail ≠ "" → emailRegexTest body.userEmail = true →
      ((createReview st delivered newId none body).2
          = ReviewResponse.error ReviewError.guestEmailUsed ↔
        ∃ x ∈ st.reviews, x.product = productId ∧ x.guestEmail = some body.userEmail) ∧
      ((¬ ∃ x ∈ st.reviews, x.product = productId ∧ x.guestEmail = some body.userEmail) →
        ∃ r, (createReview st delivered newId none body).2 = ReviewResponse.review r)) ∧
    (body.userName ≠ "" → body.userEmail = "" →
      ∃ r, (createReview st delivered newId none body).2 = ReviewResponse.review r) ∧
    (∀ (calls : List CreateReviewCall), NoDuplicateReviews st.reviews →
      NoDuplicateReviews (runCreateReviews delivered st calls).reviews) := by
  refine ⟨fun u => ?_, fun hname hmail hregex => ?_, fun hname hmail => ?_,
    fun calls h => runCreateReviews_noDuplicate delivered calls h⟩
  · rw [createReview_valid_fields st delivered newId (some u) body hpid hrating h1 h5 htitle
      hcomment hp]
    dsimp only
    cases hf : st.reviews.find? (fun r => decide (r.user = some u)
        && decide (r.product = productId)) with
    | some x =>
      have hx := List.find?_some hf
      have hmem := List.mem_of_find?_eq_some hf
      simp only [Bool.and_eq_true, decide_eq_true_eq] at hx
      exact ⟨⟨fun _ => ⟨x, hmem, hx⟩, fun _ => rfl⟩, fun hno => absurd ⟨x, hmem, hx⟩ hno⟩
    | none =>
      have hnone := List.find?_eq_none.mp hf
      obtain ⟨r, hr, -⟩ := saveNewReview_reviews st newId (some u) productId rating body
        (delivered u productId) none none
      refine ⟨⟨fun h => ?_, fun ⟨x, hmem, hx⟩ => ?_⟩, fun _ => ⟨r, hr⟩⟩
      · rw [hr] at h
        cases h
      · have := hnone x hmem
        simp [hx.1, hx.2] at this
  · rw [createReview_valid_fields st delivered newId none body hpid hrating h1 h5 htitle
      hcomment hp]
    simp only [if_neg hname, if_pos hmail, hregex, Bool.true_eq_false, if_false]
    cases hf : st.reviews.find? (fun r => decide (r.product = productId)
        && decide (r.guestEmail = some body.userEmail)) with
    | some x =>
      have hx := List.find?_some hf
      have hmem := List.mem_of_find?_eq_some hf
      simp only [Bool.and_eq_true, decide_eq_true_eq] at hx
      exact ⟨⟨fun _ => ⟨x, hmem, hx⟩, fun _ => rfl⟩, fun hno => absurd ⟨x, hmem, hx⟩ hno⟩
    | none =>
      have hnone := List.find?_eq_none.mp hf
      obtain ⟨r, hr, -⟩ := saveNewReview_reviews st newId none productId rating body
        false (some body.userName) (some body.userEmail)
      refine ⟨⟨fun h => ?_, fun ⟨x, hmem, hx⟩ => ?_⟩, fun _ => ⟨r, hr⟩⟩
      · rw [hr] at h
        cases h
      · have := hnone x hmem
        simp [hx.1, hx.2] at this
  · rw [createReview_valid_fields st delivered newId none body hpid hrating h1 h5 htitle
      hcomment hp]
    simp only [if_neg hname, hmail, ne_eq, not_true_eq_false, if_false]
    obtain ⟨r, hr, -⟩ := saveNewReview_reviews st newId none productId rating body
      false (some body.userName) none
    exact ⟨r, hr⟩

/-- C19 (witness): in `singleReviewStore` user 1 has reviewed product 1, so a
second review by user 1 is refused as duplicate while one by user 2 is created;
and a guest without email is accepted. -/
theorem createReview_duplicates_witness :
    (createReview singleReviewStore (fun _ _ => false) 9 (some 1) (guestBody 4 "")).2
      = ReviewResponse.error ReviewError.alreadyReviewed ∧
    (∃ r, (createReview singleReviewStore (fun _ _ => false) 9 (some 2) (guestBody 4 "")).2
      = ReviewResponse.review r) ∧
    (∃ r, (createReview singleReviewStore (fun _ _ => false) 9 none (guestBody 4 "")).2
      = ReviewResponse.review r) :=
  have h := @createReview_duplicates singleReviewStore (fun _ _ => false) 9 (guestBody 4 "")
    1 4 { sampleProduct 50 10 with rating := 5, reviewCount := 1 }
    rfl rfl (by norm_num) (by norm_num) (by decide) (by decide) (by decide!)
  ⟨((h.1 1).1).2 ⟨sampleReview 1 5 ReviewStatus.approved, by simp [singleReviewStore], rfl, rfl⟩,
   (h.1 2).2 (by
     rintro ⟨x, hx, hu, -⟩
     have : x = sampleReview 1 5 ReviewStatus.approved := by simpa [singleReviewStore] using hx
     rw [this] at hu
     revert hu
     decide),
   h.2.2.1 (by decide) rfl⟩

/-- C20 (counterexample): a guest review with rating 4.5, which is none of 1, 2,
3, 4, 5, is accepted: it is stored as approved and product 1 gets rating 4.5 and
reviewCount 1. -/
theorem createReview_accepts_fractional_rating :
    createReview emptyReviewStore (fun _ _ => false) 9 none (guestBody (9 / 2) "") =
      ({ products := [{ sampleProduct 50 10 with rating := 9 / 2, reviewCount := 1 }],
         reviews := [guestReview (9 / 2) none] },
       ReviewResponse.review (guestReview (9 / 2) none)) ∧
    (guestReview (9 / 2) none).rating ∉ [(1 : ℚ), 2, 3, 4, 5] := by
  decide!

/-- C20 (amended): every review accepted by `createReview` has the rating of the
request, a number between 1 and 5 inclusive (not necessarily whole).  For every
rating below 1 or above 5 the call fails with one of the two validation errors
(the required-fields one for 0, the range one otherwise) and the store is
unchanged; a missing rating fails with the required-fields error. -/
theorem createReview_rating_range (st : ReviewStore) (delivered : Nat → Nat → Bool)
    (newId : Nat) (user : Option Nat) (body : CreateReviewBody) :
    (∀ st' r, createReview st delivered newId user body = (st', ReviewResponse.review r) →
      body.rating = some r.rating ∧ 1 ≤ r.rating ∧ r.rating ≤ 5 ∧ r ∈ st'.reviews) ∧
    (∀ rating, body.rating = some rating → rating < 1 ∨ 5 < rating →
      (createReview st delivered newId user body
          = (st, ReviewResponse.error ReviewError.missingFields) ∨
        createReview st delivered newId user body
          = (st, ReviewResponse.error ReviewError.ratingOutOfRange)) ∧
      (rating ≠ 0 → body.productId ≠ none → body.title ≠ "" → body.comment ≠ "" →
        createReview st delivered newId user body
          = (st, ReviewResponse.error ReviewError.ratingOutOfRange))) ∧
    (body.rating = none →
      createReview st delivered newId user body
        = (st, ReviewResponse.error ReviewError.missingFields)) := by
  refine ⟨?_, ?_, ?_⟩
  · intro st' r h
    rcases createReview_cases st delivered newId user body with ⟨e, he⟩ | ⟨pid, rating, v, gn, ge,
      -, hrating, h1, h5, -, -, -, hsave⟩
    · rw [he] at h
      simp at h
    · rw [hsave] at h
      obtain ⟨-, -, -, hr, -, -, -, -, -, hst⟩ := saveNewReview_eq _ _ _ _ _ _ _ _ _ h
      refine ⟨by rw [hr, hrating], by rw [hr]; exact h1, by rw [hr]; exact h5, ?_⟩
      rw [hst, updateProductRating_reviews]
      simp
  · intro rating hrating hout
    have hrange : rating < 1 ∨ rating > 5 := hout
    unfold createReview
    rw [hrating]
    cases hpid : body.productId with
    | none => exact ⟨Or.inl rfl, fun _ h => absurd rfl h⟩
    | some productId =>
      dsimp only
      by_cases hfields : rating = 0 ∨ body.title = "" ∨ body.comment = ""
      · rw [if_pos hfields]
        refine ⟨Or.inl rfl, fun h0 _ ht hc => ?_⟩
        rcases hfields with h | h | h
        · exact absurd h h0
        · exact absurd h ht
        · exact absurd h hc
      · rw [if_neg hfields, if_pos hrange]
        exact ⟨Or.inr rfl, fun _ _ _ _ => rfl⟩
  · intro hnone
    unfold createReview
    rw [hnone]
    cases body.productId <;> rfl

/-- C20 (witness): the ratings 0, 6 and -1 are refused and leave the store as it
was, while the accepted review of rating 4 lies between 1 and 5. -/
theorem createReview_rating_range_witness :
    createReview emptyReviewStore (fun _ _ => false) 9 none (guestBody 0 "")
      = (emptyReviewStore, ReviewResponse.error ReviewError.missingFields) ∧
    createReview emptyReviewStore (fun _ _ => false) 9 none (guestBody 6 "")
      = (emptyReviewStore, ReviewResponse.error ReviewError.ratingOutOfRange) ∧
    createReview emptyReviewStore (fun _ _ => false) 9 none (guestBody (-1) "")
      = (emptyReviewStore, ReviewResponse.error ReviewError.ratingOutOfRange) ∧
    1 ≤ (guestReview 4 none).rating ∧ (guestReview 4 none).rating ≤ 5 :=
  have h6 := ((createReview_rating_range emptyReviewStore (fun _ _ => false) 9 none
    (guestBody 6 "")).2.1 6 rfl (Or.inr (by norm_num))).2 (by norm_num) (by decide)
      (by decide) (by decide)
  have hm := ((createReview_rating_range emptyReviewStore (fun _ _ => false) 9 none
    (guestBody (-1) "")).2.1 (-1) rfl (Or.inl (by norm_num))).2 (by norm_num) (by decide)
      (by decide) (by decide)
  have h4 := (createReview_rating_range emptyReviewStore (fun _ _ => false) 9 none
    (guestBody 4 "")).1 _ (guestReview 4 none) (Prod.ext rfl (by decide!))
  ⟨by decide!, h6, hm, h4.2.1, h4.2.2.1⟩

/-! ## Order status, order number, shipping cost -/

/-- C24 (counterexample): a cancelled order, which the state machine treats as
terminal, is set back to `en_attente` by `updateOrderStatus`; the change is not
one the state machine allows. -/
theorem updateOrderStatus_reopens_cancelled :
    cancelledOrder.status = OrderStatus.annule ∧
    updateOrderStatus [cancelledOrder] shortDrawClock 3 (statusBody "en_attente") =
      ([{ cancelledOrder with status := OrderStatus.en_attente }],
       OrderStatusResponse.order { cancelledOrder with status := OrderStatus.en_attente }) ∧
    ¬ AllowedStatusChange OrderStatus.annule OrderStatus.en_attente := by
  refine ⟨rfl, by decide!, ?_⟩
  unfold AllowedStatusChange nextOrderStatus
  simp

/-- C24 (amended): for an existing order, a successful `updateOrderStatus` stores
and returns the order with only `status`, `paymentStatus`, `trackingNumber` and
`carrier` possibly changed; each of the four is unchanged when the request does
not supply it and is the supplied value otherwise; the order number is unchanged.
No transition is refused: whatever the current status, every value of the
`enum` supplied as `status` becomes the new status. -/
theorem updateOrderStatus_spec (orders : List Order) (clock : SaveClock) (id : Nat)
    (body : UpdateOrderStatusBody) {o : Order} (ho : findById Order.id orders id = some o) :
    (∀ o', (updateOrderStatus orders clock id body).2 = OrderStatusResponse.order o' →
      findById Order.id (updateOrderStatus orders clock id body).1 id = some o' ∧
      o' = { o with status := o'.status, paymentStatus := o'.paymentStatus,
                    trackingNumber := o'.trackingNumber, carrier := o'.carrier } ∧
      o'.orderNumber = o.orderNumber ∧
      (body.status = "" → o'.status = o.status) ∧
      (body.status ≠ "" → orderStatusOfString body.status = some o'.status) ∧
      (body.paymentStatus = "" → o'.paymentStatus = o.paymentStatus) ∧
      (body.paymentStatus ≠ "" → paymentStatusOfString body.paymentStatus
        = some o'.paymentStatus) ∧
      (body.trackingNumber = "" → o'.trackingNumber = o.trackingNumber) ∧
      (body.trackingNumber ≠ "" → o'.trackingNumber = some body.trackingNumber) ∧
      (body.carrier = "" → o'.carrier = o.carrier) ∧
      (body.carrier ≠ "" → o'.carrier = some body.carrier)) ∧
    (∀ t, orderStatusOfString body.status = some t → body.paymentStatus = "" →
      ∃ o', (updateOrderStatus orders clock id body).2 = OrderStatusResponse.order o' ∧
        o'.status = t) := by
  have hkey : o.id = id := findById_key ho
  subst hkey
  constructor
  · intro o' h
    cases hs : (if body.status ≠ "" then orderStatusOfString body.status else some o.status) with
    | none =>
      have heq : updateOrderStatus orders clock o.id body
          = (orders, OrderStatusResponse.saveFailed) := by
        simp only [updateOrderStatus, ho, hs]
      rw [heq] at h
      cases h
    | some st =>
      cases hp : (if body.paymentStatus ≠ "" then paymentStatusOfString body.paymentStatus
          else some o.paymentStatus) with
      | none =>
        have heq : updateOrderStatus orders clock o.id body
            = (orders, OrderStatusResponse.saveFailed) := by
          simp only [updateOrderStatus, ho, hs, hp]
        rw [heq] at h
        cases h
      | some pst =>
        have heq : updateOrderStatus orders clock o.id body
            = (updateById Order.id (fun _ =>
                { o with status := st, paymentStatus := pst,
                         trackingNumber := if body.trackingNumber ≠ "" then
                           some body.trackingNumber else o.trackingNumber,
                         carrier := if body.carrier ≠ "" then some body.carrier
                           else o.carrier }) o.id orders,
               OrderStatusResponse.order
                { o with status := st, paymentStatus := pst,
                         trackingNumber := if body.trackingNumber ≠ "" then
                           some body.trackingNumber else o.trackingNumber,
                         carrier := if body.carrier ≠ "" then some body.carrier
                           else o.carrier }) := by
          simp only [updateOrderStatus, ho, hs, hp, orderPreSave, Bool.false_eq_true, if_false]
        rw [heq] at h ⊢
        simp only [OrderStatusResponse.order.injEq] at h
        subst h
        refine ⟨?_, rfl, rfl, ?_, ?_, ?_, ?_, ?_, ?_, ?_, ?_⟩
        · show findById Order.id (updateById Order.id _ o.id orders) o.id = _
          rw [findById_updateById_self ?_ orders, ho]
          · rfl
          · intro _ _
            rfl
        · intro hb
          rw [if_neg (not_not.mpr hb)] at hs
          exact (Option.some.inj hs).symm
        · intro hb
          rw [if_pos hb] at hs
          exact hs
        · intro hb
          rw [if_neg (not_not.mpr hb)] at hp
          exact (Option.some.inj hp).symm
        · intro hb
          rw [if_pos hb] at hp
          exact hp
        · intro hb
          simp [hb]
        · intro hb
          simp [hb]
        · intro hb
          simp [hb]
        · intro hb
          simp [hb]
  · intro t ht hpay
    have hne : body.status ≠ "" := by
      intro hempty
      have hnone : orderStatusOfString "" = none := by decide
      rw [hempty, hnone] at ht
      cases ht
    unfold updateOrderStatus
    rw [ho]
    simp only [hne, ne_eq, not_false_eq_true, if_true, ht, hpay, not_true_eq_false, if_false]
    exact ⟨_, rfl, rfl⟩

/-- C24 (witness): an order `en_attente` is confirmed by a body that supplies
the status only; the other fields and the order number stay as they were. -/
theorem updateOrderStatus_spec_witness :
    ∃ o', (updateOrderStatus [{ cancelledOrder with status := OrderStatus.en_attente }]
        shortDrawClock 3 (statusBody "confirme")).2 = OrderStatusResponse.order o' ∧
      o'.status = OrderStatus.confirme :=
  (updateOrderStatus_spec [{ cancelledOrder with status := OrderStatus.en_attente }]
    shortDrawClock 3 (statusBody "confirme")
    (show findById Order.id [{ cancelledOrder with status := OrderStatus.en_attente }] 3
      = some { cancelledOrder with status := OrderStatus.en_attente } by decide!)).2
    OrderStatus.confirme (by decide) rfl

/-- A save of an order that is not new leaves the order as it is, whatever the
date and the draw. -/
theorem orderPreSave_not_new (clock : SaveClock) (o : Order) :
    orderPreSave false clock o = o := by
  simp [orderPreSave]

/-- The suffix has as many characters as the expansion of the draw has after
its first two, at most 9. -/
theorem substr_two_nine_length (s : String) :
    (substr s 2 9).length = min 9 (s.length - 2) := by
  show ((s.data.drop 2).take 9).length = min 9 (s.data.length - 2)
  rw [List.length_take, List.length_drop]

/-- C25 (code defect): saved as new on 5 November 2026
with the draw 0.5, whose base-36 expansion is `0.i`, an order gets the number
`NONO-20261105-I`; the suffix after the date has one character, not nine. -/
theorem orderPreSave_short_suffix :
    (orderPreSave true shortDrawClock exampleOrder).orderNumber = "NONO-20261105-I" ∧
    (toUpperCase (substr shortDrawClock.randomString 2 9)).length = 1 := by
  decide

/-- The three methods of the rate table get their rate, and every other method
that is not a member name of `Object.prototype` gets 3000. -/
theorem calculateShippingCost_table (method : String) :
    calculateShippingCost "express_24h" = ShippingCost.number 5000 ∧
    calculateShippingCost "standard_48h" = ShippingCost.number 3000 ∧
    calculateShippingCost "point_relais" = ShippingCost.number 2000 ∧
    calculateShippingCost "" = ShippingCost.number 3000 ∧
    (method ≠ "express_24h" → method ≠ "point_relais" → method ∉ objectPrototypeKeys →
      calculateShippingCost method = ShippingCost.number 3000) := by
  refine ⟨by decide, by decide, by decide, by decide, fun h1 h2 h3 => ?_⟩
  unfold calculateShippingCost
  rw [if_neg h1, if_neg h2, if_neg h3]
  split <;> rfl

/-- C26 (code defect): for the method strings
`constructor` and `toString` the helper returns the member inherited from
`Object.prototype`, not the default rate 3000, and an order placed with such a
method is not created. -/
theorem calculateShippingCost_inherited_member :
    calculateShippingCost "constructor" = ShippingCost.inherited "constructor" ∧
    calculateShippingCost "toString" = ShippingCost.inherited "toString" ∧
    calculateShippingCost "toString" ≠ ShippingCost.number 3000 ∧
    (createOrder (sampleStore 50 10 []) 0 shortDrawClock
      { sampleRequest none 1 none with shippingMethod := "toString" }).2
      = Response.error OrderError.saveFailed := by
  decide!

/-! ## Concurrent redemptions -/

/-- The coupon step of the handler is the read followed by the write on the
document that was read. -/
theorem applyCoupon_read_write (cs : List Coupon) {code : String} (now : ℤ) (subtotal : ℚ)
    (hne : code ≠ "") :
    applyCoupon cs (some code) now subtotal =
      match couponRead cs code now subtotal with
      | Except.ok coupon =>
        Except.ok (couponDiscount coupon subtotal, some coupon.id, couponWrite cs coupon)
      | Except.error e => Except.error e := by
  unfold applyCoupon couponRead couponWrite
  simp only [hne, if_false]
  cases findCoupon cs code now with
  | none => rfl
  | some coupon =>
    dsimp only
    by_cases h1 : coupon.usageLimit ≠ 0 ∧ coupon.usedCount ≥ coupon.usageLimit
    · rw [if_pos h1, if_pos h1]
    · rw [if_neg h1, if_neg h1]
      by_cases h2 : subtotal < coupon.minimumAmount
      · rw [if_pos h2, if_pos h2]
      · rw [if_neg h2, if_neg h2]

/-- C27 (code defect): two attempts use the coupon
`ONCE`, whose usageLimit is 1 and usedCount 0.  When both read the coupon before
either saves it, both pass the usage check and both redeem, none fails, and the
stored usedCount ends at 1; run one after the other, the second attempt is
refused as exhausted. -/
theorem coupon_race_redeems_twice :
    freshCoupon.usageLimit = 1 ∧ freshCoupon.usedCount = 0 ∧
    runCouponSteps "once" 50 100 [freshCoupon]
        [CouponStep.read 0, CouponStep.read 1, CouponStep.save 0, CouponStep.save 1] =
      { coupons := [sampleCoupon "ONCE" 10 none 1 1],
        held := [(0, freshCoupon), (1, freshCoupon)], redeemed := [0, 1], failed := [] } ∧
    runCouponSteps "once" 50 100 [freshCoupon]
        [CouponStep.read 0, CouponStep.save 0, CouponStep.read 1, CouponStep.save 1] =
      { coupons := [sampleCoupon "ONCE" 10 none 1 1],
        held := [(0, freshCoupon)], redeemed := [0],
        failed := [(1, OrderError.couponExhausted)] } := by
  decide!

/-! ## Rating distribution -/

/-- Incrementing an entry keeps the number of entries. -/
theorem incrementAt_length (i : Nat) (d : List Nat) : (incrementAt i d).length = d.length := by
  induction d generalizing i with
  | nil => cases i <;> rfl
  | cons x xs ih =>
    cases i with
    | zero => rfl
    | succ i => simp [incrementAt, ih]

/-- Incrementing at `i` adds one to the entry read at `i`, when there is one,
and leaves the other entries. -/
theorem incrementAt_getD (i j : Nat) (d : List Nat) :
    (incrementAt i d).getD j 0 = d.getD j 0 + if i = j ∧ i < d.length then 1 else 0 := by
  induction d generalizing i j with
  | nil => cases i <;> simp [incrementAt]
  | cons x xs ih =>
    cases i with
    | zero =>
      cases j with
      | zero => simp [incrementAt]
      | succ j => simp [incrementAt]
    | succ i =>
      cases j with
      | zero => simp [incrementAt]
      | succ j =>
        rw [incrementAt, List.getD_cons_succ, List.getD_cons_succ, ih]
        simp

/-- Incrementing at an index in range adds one to the sum of the entries. -/
theorem incrementAt_sum (i : Nat) (d : List Nat) :
    (incrementAt i d).sum = d.sum + if i < d.length then 1 else 0 := by
  induction d generalizing i with
  | nil => cases i <;> simp [incrementAt]
  | cons x xs ih =>
    cases i with
    | zero => simp [incrementAt]; omega
    | succ i =>
      simp only [incrementAt, List.sum_cons, ih, List.length_cons, Nat.succ_lt_succ_iff]
      omega

/-- A rating is a whole number exactly when 5 minus the rating is. -/
theorem five_sub_whole (r : ℚ) : (5 - r).den = 1 ↔ r.den = 1 := by
  constructor
  · intro h
    have h1 : ((5 - r).num : ℚ) = 5 - r := (Rat.den_eq_one_iff _).mp h
    have h2 : r = ((5 - (5 - r).num : ℤ) : ℚ) := by
      push_cast
      rw [h1]
      ring
    rw [h2]
    exact Rat.intCast_den _
  · intro h
    have h1 : (r.num : ℚ) = r := (Rat.den_eq_one_iff _).mp h
    have h2 : 5 - r = ((5 - r.num : ℤ) : ℚ) := by
      push_cast
      rw [h1]
    rw [h2]
    exact Rat.intCast_den _

/-- For a whole rating, the numerator of 5 minus the rating. -/
theorem five_sub_num {r : ℚ} (h : r.den = 1) : (5 - r).num = 5 - r.num := by
  have h1 : (r.num : ℚ) = r := (Rat.den_eq_one_iff _).mp h
  have h2 : 5 - r = ((5 - r.num : ℤ) : ℚ) := by
    push_cast
    rw [h1]
  rw [h2]
  exact Rat.intCast_num _

/-- The range check on a whole rating is the range check on its numerator. -/
theorem whole_bounds {r : ℚ} (h : r.den = 1) : (1 ≤ r ↔ 1 ≤ r.num) ∧ (r ≤ 5 ↔ r.num ≤ 5) := by
  have h1 : (r.num : ℚ) = r := (Rat.den_eq_one_iff _).mp h
  constructor
  · conv_lhs => rw [← h1]
    exact_mod_cast Iff.rfl
  · conv_lhs => rw [← h1]
    exact_mod_cast Iff.rfl

/-- A rating equals the star `k` exactly when it is whole with numerator `k`. -/
theorem whole_eq_nat {r : ℚ} (k : ℕ) : r = (k : ℚ) ↔ r.den = 1 ∧ r.num = (k : ℤ) := by
  constructor
  · intro h
    subst h
    exact ⟨Rat.den_natCast k, Rat.num_natCast k⟩
  · rintro ⟨h, hk⟩
    have h1 : (r.num : ℚ) = r := (Rat.den_eq_one_iff _).mp h
    rw [← h1, hk]
    norm_cast

/-- One round of the `forEach` of `getProductReviews` on an array of five counts:
the entry at index 5 - k grows by one exactly when the rating is the star `k`,
and the sum grows by one exactly when the rating is a whole star between 1 and 5. -/
theorem bumpIndex_step {d : List Nat} (hd : d.length = 5) (r : ℚ) :
    (if 1 ≤ r ∧ r ≤ 5 then bumpIndex (5 - r) d else d).length = 5 ∧
    (∀ k : ℕ, 1 ≤ k → k ≤ 5 →
      (if 1 ≤ r ∧ r ≤ 5 then bumpIndex (5 - r) d else d).getD (5 - k) 0
        = d.getD (5 - k) 0 + if r = (k : ℚ) then 1 else 0) ∧
    (if 1 ≤ r ∧ r ≤ 5 then bumpIndex (5 - r) d else d).sum
      = d.sum + if r.den = 1 ∧ 1 ≤ r ∧ r ≤ 5 then 1 else 0 := by
  by_cases hw : r.den = 1
  · have hb := whole_bounds hw
    by_cases hr : 1 ≤ r ∧ r ≤ 5
    · have hn1 : 1 ≤ r.num := hb.1.mp hr.1
      have hn5 : r.num ≤ 5 := hb.2.mp hr.2
      have hbump : bumpIndex (5 - r) d = incrementAt (5 - r.num).toNat d := by
        unfold bumpIndex
        rw [if_pos ⟨(five_sub_whole r).mpr hw, by rw [five_sub_num hw]; omega⟩, five_sub_num hw]
      rw [if_pos hr, hbump]
      refine ⟨by rw [incrementAt_length, hd], fun k hk1 hk5 => ?_, ?_⟩
      · rw [incrementAt_getD, hd]
        congr 1
        by_cases hk : r = (k : ℚ)
        · have := ((whole_eq_nat k).mp hk).2
          rw [if_pos hk, if_pos]
          omega
        · have hne : r.num ≠ (k : ℤ) := fun h => hk ((whole_eq_nat k).mpr ⟨hw, h⟩)
          rw [if_neg hk, if_neg]
          omega
      · rw [incrementAt_sum, hd, if_pos (show (5 - r.num).toNat < 5 by omega),
          if_pos (⟨hw, hr⟩ : r.den = 1 ∧ 1 ≤ r ∧ r ≤ 5)]
    · rw [if_neg hr]
      refine ⟨hd, fun k hk1 hk5 => ?_, ?_⟩
      · rw [if_neg, Nat.add_zero]
        intro hk
        apply hr
        rw [hk]
        constructor
        · exact_mod_cast hk1
        · exact_mod_cast hk5
      · rw [if_neg (fun h => hr h.2), Nat.add_zero]
  · have hbump : bumpIndex (5 - r) d = d := by
      unfold bumpIndex
      rw [if_neg (fun h => hw ((five_sub_whole r).mp h.1))]
    have hsame : (if 1 ≤ r ∧ r ≤ 5 then bumpIndex (5 - r) d else d) = d := by
      rw [hbump, ite_self]
    rw [hsame]
    refine ⟨hd, fun k _ _ => ?_, ?_⟩
    · rw [if_neg (fun hk => hw ((whole_eq_nat k).mp hk).1), Nat.add_zero]
    · rw [if_neg (fun h => hw h.1), Nat.add_zero]

/-- One round of the loop of `calculateRatingStats` on the five counts: the count
of key `k` grows by one exactly when the rating is the star `k`. -/
theorem bumpKey_step {d : List Nat} (hd : d.length = 5) (r : ℚ) :
    (if 1 ≤ r ∧ r ≤ 5 then bumpKey r d else d).length = 5 ∧
    (∀ k : ℕ, 1 ≤ k → k ≤ 5 →
      (if 1 ≤ r ∧ r ≤ 5 then bumpKey r d else d).getD (k - 1) 0
        = d.getD (k - 1) 0 + if r = (k : ℚ) then 1 else 0) := by
  by_cases hw : r.den = 1
  · have hb := whole_bounds hw
    by_cases hr : 1 ≤ r ∧ r ≤ 5
    · have hn1 : 1 ≤ r.num := hb.1.mp hr.1
      have hn5 : r.num ≤ 5 := hb.2.mp hr.2
      have hbump : bumpKey r d = incrementAt (r.num.toNat - 1) d := by
        unfold bumpKey
        rw [if_pos ⟨hw, hn1⟩]
      rw [if_pos hr, hbump]
      refine ⟨by rw [incrementAt_length, hd], fun k hk1 hk5 => ?_⟩
      rw [incrementAt_getD, hd]
      congr 1
      by_cases hk : r = (k : ℚ)
      · have := ((whole_eq_nat k).mp hk).2
        rw [if_pos hk, if_pos]
        omega
      · have hne : r.num ≠ (k : ℤ) := fun h => hk ((whole_eq_nat k).mpr ⟨hw, h⟩)
        rw [if_neg hk, if_neg]
        omega
    · rw [if_neg hr]
      refine ⟨hd, fun k hk1 hk5 => ?_⟩
      rw [if_neg, Nat.add_zero]
      intro hk
      apply hr
      rw [hk]
      constructor
      · exact_mod_cast hk1
      · exact_mod_cast hk5
  · have hbump : bumpKey r d = d := by
      unfold bumpKey
      rw [if_neg (fun h => hw h.1)]
    have hsame : (if 1 ≤ r ∧ r ≤ 5 then bumpKey r d else d) = d := by
      rw [hbump, ite_self]
    rw [hsame]
    refine ⟨hd, fun k _ _ => ?_⟩
    rw [if_neg (fun hk => hw ((whole_eq_nat k).mp hk).1), Nat.add_zero]

/-- A rating is one of the five stars exactly when it is a whole number between
1 and 5. -/
theorem whole_star_iff (r : ℚ) :
    r ∈ [(1 : ℚ), 2, 3, 4, 5] ↔ r.den = 1 ∧ 1 ≤ r ∧ r ≤ 5 := by
  constructor
  · intro h
    simp only [List.mem_cons, List.mem_singleton, List.not_mem_nil, or_false] at h
    rcases h with h | h | h | h | h <;> subst h <;> decide!
  · rintro ⟨hw, h1, h5⟩
    have hb := whole_bounds hw
    have hn1 : 1 ≤ r.num := hb.1.mp h1
    have hn5 : r.num ≤ 5 := hb.2.mp h5
    have hr : (r.num : ℚ) = r := (Rat.den_eq_one_iff _).mp hw
    rw [← hr]
    generalize r.num = n at hn1 hn5
    interval_cases n <;> simp

/-- The `forEach` of `getProductReviews` from any array of five counts: what the
entries and their sum have grown by at the end. -/
theorem ratingFold_spec (ratings : List ℚ) {d : List Nat} (hd : d.length = 5) :
    (ratings.foldl (fun distribution rating =>
      if 1 ≤ rating ∧ rating ≤ 5 then bumpIndex (5 - rating) distribution
      else distribution) d).length = 5 ∧
    (∀ k : ℕ, 1 ≤ k → k ≤ 5 →
      (ratings.foldl (fun distribution rating =>
        if 1 ≤ rating ∧ rating ≤ 5 then bumpIndex (5 - rating) distribution
        else distribution) d).getD (5 - k) 0
        = d.getD (5 - k) 0 + ratings.countP (fun r => decide (r = (k : ℚ)))) ∧
    (ratings.foldl (fun distribution rating =>
      if 1 ≤ rating ∧ rating ≤ 5 then bumpIndex (5 - rating) distribution
      else distribution) d).sum
      = d.sum + ratings.countP (fun r => decide (r.den = 1 ∧ 1 ≤ r ∧ r ≤ 5)) := by
  induction ratings generalizing d with
  | nil => exact ⟨hd, fun k _ _ => by simp, by simp⟩
  | cons r rest ih =>
    obtain ⟨hlen, hget, hsum⟩ := bumpIndex_step hd r
    obtain ⟨ilen, iget, isum⟩ := ih hlen
    simp only [List.foldl_cons]
    refine ⟨ilen, fun k hk1 hk5 => ?_, ?_⟩
    · rw [iget k hk1 hk5, hget k hk1 hk5, List.countP_cons]
      simp only [decide_eq_true_eq]
      omega
    · rw [isum, hsum, List.countP_cons]
      simp only [decide_eq_true_eq]
      omega

/-- The loop of `calculateRatingStats` from any five counts: what the count of
each key has grown by at the end. -/
theorem keyFold_spec (reviews : List Review) {d : List Nat} (hd : d.length = 5) :
    (reviews.foldl (fun distribution review =>
      if 1 ≤ review.rating ∧ review.rating ≤ 5 then bumpKey review.rating distribution
      else distribution) d).length = 5 ∧
    (∀ k : ℕ, 1 ≤ k → k ≤ 5 →
      (reviews.foldl (fun distribution review =>
        if 1 ≤ review.rating ∧ review.rating ≤ 5 then bumpKey review.rating distribution
        else distribution) d).getD (k - 1) 0
        = d.getD (k - 1) 0 + reviews.countP (fun r => decide (r.rating = (k : ℚ)))) := by
  induction reviews generalizing d with
  | nil => exact ⟨hd, fun k _ _ => by simp⟩
  | cons r rest ih =>
    obtain ⟨hlen, hget⟩ := bumpKey_step hd r.rating
    obtain ⟨ilen, iget⟩ := ih hlen
    simp only [List.foldl_cons]
    refine ⟨ilen, fun k hk1 hk5 => ?_⟩
    rw [iget k hk1 hk5, hget k hk1 hk5, List.countP_cons]
    simp only [decide_eq_true_eq]
    omega

/-- The sum accumulated by the `reduce` of `calculateRatingStats`. -/
theorem foldl_rating_sum (reviews : List Review) (a : ℚ) :
    reviews.foldl (fun sum review => sum + review.rating) a
      = a + (reviews.map Review.rating).sum := by
  induction reviews generalizing a with
  | nil => simp
  | cons r rest ih =>
    simp only [List.foldl_cons, ih, List.map_cons, List.sum_cons]
    ring

/-- The statistics of a listing, in terms of the approved set of the product:
they do not depend on the page, the limit, the sort key or the creation times. -/
theorem getProductReviews_statistics (rs : List Review) (createdAt : Nat → ℤ)
    (productId page limit : Nat) (sort : String) :
    (getProductReviews rs createdAt productId page limit sort).statistics =
      { averageRating := expectedRating rs productId
        totalReviews := (approvedReviewsOf rs productId).length
        distribution := ratingDistribution ((approvedReviewsOf rs productId).map Review.rating) } := by
  have hzero : ∀ x : ℚ, (if x ≠ 0 then x else 0) = x := by
    intro x
    by_cases hx : x = 0
    · simp [hx]
    · simp [hx]
  unfold getProductReviews listingStats expectedRating arithmeticMean
  rw [approvedRatings_eq]
  cases h : approvedReviewsOf rs productId with
  | nil =>
    have h0 : round1 0 = 0 := by decide!
    simp [h0]
  | cons r rest =>
    simp only [List.map_cons, hzero, List.length_cons, List.length_map]
    simp

/-- C22 (counterexample): after a guest review rated 4.5 has been accepted, the
listing of product 1 reports totalReviews 1 and a distribution whose five entries
are all 0, so the entries do not sum to totalReviews. -/
theorem getProductReviews_distribution_skips_half_star :
    (createReview emptyReviewStore (fun _ _ => false) 9 none (guestBody (9 / 2) "")).1.reviews
      = [guestReview (9 / 2) none] ∧
    (getProductReviews [guestReview (9 / 2) none] twoTiedTimes 1 0 0 "newest").statistics
      = { averageRating := 9 / 2, totalReviews := 1, distribution := [0, 0, 0, 0, 0] } ∧
    ([0, 0, 0, 0, 0] : List Nat).sum ≠ 1 := by
  decide!

/-- C22 (amended): in the listing of a product the distribution has five
entries; for each star k from 1 to 5 the entry at index 5 - k is the number of
approved reviews of the product rated k; totalReviews is the number of approved
reviews of the product; the five entries sum to the number of approved reviews
of the product whose rating is one of 1, 2, 3, 4, 5, which is totalReviews when
every approved review of the product has such a rating.  Reviews that are not
approved and reviews of other products are not counted. -/
theorem getProductReviews_distribution (rs : List Review) (createdAt : Nat → ℤ)
    (productId page limit : Nat) (sort : String) :
    (getProductReviews rs createdAt productId page limit sort).statistics.distribution.length = 5 ∧
    (∀ k : ℕ, 1 ≤ k → k ≤ 5 →
      (getProductReviews rs createdAt productId page limit sort).statistics.distribution.getD (5 - k) 0
        = (approvedReviewsOf rs productId).countP (fun r => decide (r.rating = (k : ℚ)))) ∧
    (getProductReviews rs createdAt productId page limit sort).statistics.totalReviews = (approvedReviewsOf rs productId).length ∧
    (getProductReviews rs createdAt productId page limit sort).statistics.distribution.sum
      = (approvedReviewsOf rs productId).countP
          (fun r => decide (r.rating ∈ [(1 : ℚ), 2, 3, 4, 5])) ∧
    ((∀ r ∈ approvedReviewsOf rs productId, r.rating ∈ [(1 : ℚ), 2, 3, 4, 5]) →
      (getProductReviews rs createdAt productId page limit sort).statistics.distribution.sum = (getProductReviews rs createdAt productId page limit sort).statistics.totalReviews) := by
  rw [getProductReviews_statistics]
  dsimp only
  obtain ⟨hlen, hget, hsum⟩ := ratingFold_spec
    ((approvedReviewsOf rs productId).map Review.rating)
    (show ([0, 0, 0, 0, 0] : List Nat).length = 5 from rfl)
  have hcount : (ratingDistribution ((approvedReviewsOf rs productId).map Review.rating)).sum
      = (approvedReviewsOf rs productId).countP
          (fun r => decide (r.rating ∈ [(1 : ℚ), 2, 3, 4, 5])) := by
    unfold ratingDistribution
    rw [hsum, List.countP_map]
    simp only [List.sum_cons, List.sum_nil, Nat.zero_add]
    apply List.countP_congr
    intro r _
    simp only [Function.comp_apply, decide_eq_true_eq]
    exact (whole_star_iff r.rating).symm
  refine ⟨hlen, fun k hk1 hk5 => ?_, rfl, hcount, fun hall => ?_⟩
  · unfold ratingDistribution
    rw [hget k hk1 hk5, List.countP_map]
    have hz : ([0, 0, 0, 0, 0] : List Nat).getD (5 - k) 0 = 0 := by
      have h5 : 5 - k = 0 ∨ 5 - k = 1 ∨ 5 - k = 2 ∨ 5 - k = 3 ∨ 5 - k = 4 := by omega
      rcases h5 with h | h | h | h | h <;> rw [h] <;> rfl
    rw [hz, Nat.zero_add]
    rfl
  · rw [hcount, List.countP_eq_length.mpr]
    intro r hr
    simp only [decide_eq_true_eq]
    exact hall r hr

/-- C22 (witness): product 1 of the sample store has three approved reviews,
rated 5, 5 and 4; the distribution is 2, 1, 0, 0, 0 and sums to totalReviews. -/
theorem getProductReviews_distribution_witness :
    (getProductReviews ratedStore.reviews twoTiedTimes 1 0 0 "lowest").statistics.distribution
      = [2, 1, 0, 0, 0] ∧
    (getProductReviews ratedStore.reviews twoTiedTimes 1 0 0 "lowest").statistics.distribution.sum
      = (getProductReviews ratedStore.reviews twoTiedTimes 1 0 0 "lowest").statistics.totalReviews :=
  ⟨by decide!,
   (getProductReviews_distribution ratedStore.reviews twoTiedTimes 1 0 0 "lowest").2.2.2.2
     (by decide!)⟩

/-- C30: for the approved reviews of a product that is in the store, the
averageRating and totalReviews of the listing, the rating and reviewCount
written by `updateProductRating`, and the average and count returned by
`calculateRatingStats` on the approved reviews are equal, and they are 0 and 0
when there is no approved review; for each star k from 1 to 5 the count the
helper keeps under the key k is the listing's distribution entry at index 5 - k. -/
theorem rating_computations_agree (st : ReviewStore) (createdAt : Nat → ℤ)
    (productId page limit : Nat) (sort : String) {p : Product}
    (hp : findById Product.id st.products productId = some p) :
    (∃ p', findById Product.id (updateProductRating st productId).products productId = some p' ∧
      p'.rating = (getProductReviews st.reviews createdAt productId page limit sort).statistics.averageRating ∧ p'.reviewCount = ((getProductReviews st.reviews createdAt productId page limit sort).statistics.totalReviews : ℤ)) ∧
    (calculateRatingStats (approvedReviewsOf st.reviews productId)).average
      = (getProductReviews st.reviews createdAt productId page limit sort).statistics.averageRating ∧
    (calculateRatingStats (approvedReviewsOf st.reviews productId)).count
      = (getProductReviews st.reviews createdAt productId page limit sort).statistics.totalReviews ∧
    (approvedReviewsOf st.reviews productId = [] →
      (getProductReviews st.reviews createdAt productId page limit sort).statistics.averageRating = 0 ∧ (getProductReviews st.reviews createdAt productId page limit sort).statistics.totalReviews = 0) ∧
    (∀ k : ℕ, 1 ≤ k → k ≤ 5 →
      (calculateRatingStats (approvedReviewsOf st.reviews productId)).distribution.getD (k - 1) 0
        = (getProductReviews st.reviews createdAt productId page limit sort).statistics.distribution.getD (5 - k) 0) := by
  rw [getProductReviews_statistics]
  dsimp only
  refine ⟨?_, ?_, ?_, ?_, ?_⟩
  · rw [updateProductRating_products, findById_updateById_self ?_ st.products, hp]
    · exact ⟨_, rfl, rfl, rfl⟩
    · intro x hx
      exact hx
  · unfold calculateRatingStats expectedRating arithmeticMean
    cases h : approvedReviewsOf st.reviews productId with
    | nil => simp
    | cons r rest =>
      rw [if_neg (by simp), if_neg (by simp), foldl_rating_sum, zero_add]
      simp
  · unfold calculateRatingStats
    cases h : approvedReviewsOf st.reviews productId with
    | nil => simp
    | cons r rest => rw [if_neg (by simp)]
  · intro h
    rw [h]
    simp [expectedRating, h]
  · intro k hk1 hk5
    obtain ⟨-, hkey⟩ := keyFold_spec (approvedReviewsOf st.reviews productId)
      (show ([0, 0, 0, 0, 0] : List Nat).length = 5 from rfl)
    obtain ⟨-, hget, -⟩ := ratingFold_spec
      ((approvedReviewsOf st.reviews productId).map Review.rating)
      (show ([0, 0, 0, 0, 0] : List Nat).length = 5 from rfl)
    have hz : ∀ i, ([0, 0, 0, 0, 0] : List Nat).getD i 0 = 0 := by
      intro i
      rcases i with _ | _ | _ | _ | _ | i <;> rfl
    have hhelper : (calculateRatingStats
        (approvedReviewsOf st.reviews productId)).distribution.getD (k - 1) 0
        = (approvedReviewsOf st.reviews productId).countP
            (fun r => decide (r.rating = (k : ℚ))) := by
      unfold calculateRatingStats
      cases h : approvedReviewsOf st.reviews productId with
      | nil =>
        rw [if_pos List.length_nil]
        exact hz (k - 1)
      | cons r rest =>
        rw [if_neg (by simp)]
        dsimp only
        rw [← h, hkey k hk1 hk5, hz, Nat.zero_add]
    unfold ratingDistribution
    rw [hhelper, hget k hk1 hk5, hz, Nat.zero_add, List.countP_map]
    rfl

/-- C30 (witness): for product 1 of the sample store, with approved ratings 5, 5
and 4, the three computations give 4.7 and 3, and the helper's counts under the
keys 1 to 5 are the listing's distribution read backwards. -/
theorem rating_computations_agree_witness :
    (calculateRatingStats (approvedReviewsOf ratedStore.reviews 1)).average
      = (getProductReviews ratedStore.reviews twoTiedTimes 1 0 0 "lowest").statistics.averageRating ∧
    calculateRatingStats (approvedReviewsOf ratedStore.reviews 1)
      = { average := 47 / 10, count := 3, distribution := [0, 0, 0, 1, 2] } ∧
    (getProductReviews ratedStore.reviews twoTiedTimes 1 0 0 "lowest").statistics
      = { averageRating := 47 / 10, totalReviews := 3, distribution := [2, 1, 0, 0, 0] } ∧
    (updateProductRating ratedStore 1).products
      = [{ sampleProduct 50 10 with rating := 47 / 10, reviewCount := 3 }] :=
  ⟨(rating_computations_agree ratedStore twoTiedTimes 1 0 0 "lowest"
      (show findById Product.id ratedStore.products 1 = some (sampleProduct 50 10) by
        decide)).2.1,
   by decide!, by decide!, by decide!⟩

/-! ## Order of a listing -/

/-- Any two reviews are comparable under the order of a `sortOption`. -/
theorem sortedBefore_total (createdAt : Nat → ℤ) (o : SortOption) :
    IsTotal Review (sortedBefore createdAt o) :=
  ⟨fun a b => by cases o <;> simp only [sortedBefore] <;> exact le_total _ _⟩

/-- The order of a `sortOption` is transitive. -/
theorem sortedBefore_trans (createdAt : Nat → ℤ) (o : SortOption) :
    IsTrans Review (sortedBefore createdAt o) :=
  ⟨fun a b c hab hbc => by
    cases o <;> simp only [sortedBefore] at hab hbc ⊢
    · exact le_trans hbc hab
    · exact le_trans hab hbc
    · exact le_trans hbc hab
    · exact le_trans hab hbc
    · exact le_trans hbc hab
    · exact le_trans hbc hab⟩

/-- The page of a listing: the approved reviews of the product, sorted, without
the skipped ones, cut at the limit. -/
theorem getProductReviews_data (rs : List Review) (createdAt : Nat → ℤ)
    (productId page limit : Nat) (sort : String) :
    (getProductReviews rs createdAt productId page limit sort).data =
      ((sortReviews createdAt (sortOptionOf sort) (approvedReviewsOf rs productId)).drop
        (((if page = 0 then 1 else page) - 1) * (if limit = 0 then 10 else limit))).take
        (if limit = 0 then 10 else limit) := by
  have hfilter : rs.filter (fun r => decide (r.product = productId)
      && decide (r.status = ReviewStatus.approved)) = approvedReviewsOf rs productId := by
    unfold approvedReviewsOf
    apply List.filter_congr
    intro r _
    simp [Bool.decide_and]
  unfold getProductReviews
  dsimp only
  rw [hfilter]

/-- C23 (counterexample): two approved reviews of product 1 are both rated 5 and
review 1 is the older one.  Listed under `highest`, review 1 comes first: the
page is ordered by rating descending, as the sort option asks, but not by
`createdAt` descending among the two reviews that tie. -/
theorem getProductReviews_ties_not_by_createdAt :
    (getProductReviews twoTiedReviews twoTiedTimes 1 0 0 "highest").data
      = [sampleReview 1 5 ReviewStatus.approved, sampleReview 2 5 ReviewStatus.approved] ∧
    (sampleReview 1 5 ReviewStatus.approved).rating
      = (sampleReview 2 5 ReviewStatus.approved).rating ∧
    twoTiedTimes (sampleReview 1 5 ReviewStatus.approved).id
      < twoTiedTimes (sampleReview 2 5 ReviewStatus.approved).id ∧
    sortedBefore twoTiedTimes (sortOptionOf "highest")
      (sampleReview 1 5 ReviewStatus.approved) (sampleReview 2 5 ReviewStatus.approved) ∧
    ¬ specifiedBefore twoTiedTimes (sortOptionOf "highest")
      (sampleReview 1 5 ReviewStatus.approved) (sampleReview 2 5 ReviewStatus.approved) := by
  have hkey : sortOptionOf "highest" = SortOption.ratingDesc := by decide
  rw [hkey]
  refine ⟨by decide!, rfl, by decide, ?_, ?_⟩
  · show (sampleReview 2 5 ReviewStatus.approved).rating
      ≤ (sampleReview 1 5 ReviewStatus.approved).rating
    exact le_refl _
  · show ¬ ((sampleReview 2 5 ReviewStatus.approved).rating
        < (sampleReview 1 5 ReviewStatus.approved).rating ∨
      ((sampleReview 2 5 ReviewStatus.approved).rating
        = (sampleReview 1 5 ReviewStatus.approved).rating ∧
       twoTiedTimes (sampleReview 2 5 ReviewStatus.approved).id
        ≤ twoTiedTimes (sampleReview 1 5 ReviewStatus.approved).id))
    decide!

/-- C23 (amended): the page returned by `getProductReviews` is cut out of a
rearrangement of the approved reviews of the product that is ordered by the sort
key alone: `createdAt` descending for newest, ascending for oldest, rating
descending for highest, ascending for lowest, helpful descending for
most_helpful, likes descending for most_liked.  Any two reviews are comparable
under that order, which says nothing about `createdAt` for reviews that tie on
the key, and a sort key that is none of the six gives the listing of newest. -/
theorem getProductReviews_order (rs : List Review) (createdAt : Nat → ℤ)
    (productId page limit : Nat) (sort : String) :
    (∃ all : List Review, all.Perm (approvedReviewsOf rs productId) ∧
      all.Sorted (sortedBefore createdAt (sortOptionOf sort)) ∧
      (getProductReviews rs createdAt productId page limit sort).data =
        (all.drop (((if page = 0 then 1 else page) - 1) * (if limit = 0 then 10 else limit))).take
          (if limit = 0 then 10 else limit)) ∧
    (getProductReviews rs createdAt productId page limit sort).data.Sorted (sortedBefore createdAt (sortOptionOf sort)) ∧
    (∀ a b, sortedBefore createdAt (sortOptionOf sort) a b ∨
      sortedBefore createdAt (sortOptionOf sort) b a) ∧
    (sortOptionOf "newest" = SortOption.createdAtDesc ∧
      sortOptionOf "oldest" = SortOption.createdAtAsc ∧
      sortOptionOf "highest" = SortOption.ratingDesc ∧
      sortOptionOf "lowest" = SortOption.ratingAsc ∧
      sortOptionOf "most_helpful" = SortOption.helpfulDesc ∧
      sortOptionOf "most_liked" = SortOption.likesDesc) ∧
    (sort ∉ ["newest", "oldest", "highest", "lowest", "most_helpful", "most_liked"] →
      getProductReviews rs createdAt productId page limit sort
        = getProductReviews rs createdAt productId page limit "newest") := by
  haveI := sortedBefore_total createdAt (sortOptionOf sort)
  haveI := sortedBefore_trans createdAt (sortOptionOf sort)
  have hsorted : (sortReviews createdAt (sortOptionOf sort)
      (approvedReviewsOf rs productId)).Sorted (sortedBefore createdAt (sortOptionOf sort)) :=
    List.sorted_insertionSort _ _
  refine ⟨⟨_, List.perm_insertionSort _ _, hsorted, getProductReviews_data _ _ _ _ _ _⟩,
    ?_, fun a b => (sortedBefore_total createdAt (sortOptionOf sort)).total a b,
    by decide, fun hsort => ?_⟩
  · rw [getProductReviews_data]
    exact List.Pairwise.take (List.Pairwise.drop hsorted)
  · have hopt : sortOptionOf sort = sortOptionOf "newest" := by
      simp only [List.mem_cons, List.mem_singleton, List.not_mem_nil, or_false, not_or] at hsort
      obtain ⟨h1, h2, h3, h4, h5, h6⟩ := hsort
      unfold sortOptionOf
      rw [if_neg h1, if_neg h2, if_neg h3, if_neg h4, if_neg h5, if_neg h6]
      rfl
    unfold getProductReviews
    rw [hopt]

/-! ## Rating and review count outside the review engine -/

/-- A body that carries neither `rating` nor `reviewCount` leaves both as they
were on the product it names, whether the save goes through or not. -/
theorem updateProduct_keeps_rating (ps : List Product) (id : Nat) (body : UpdateProductBody)
    {p : Product} (hp : findById Product.id ps id = some p)
    (hrating : body.rating = none) (hcount : body.reviewCount = none) :
    ∃ p', findById Product.id (updateProduct ps id body).1 id = some p' ∧
      p'.rating = p.rating ∧ p'.reviewCount = p.reviewCount := by
  have hkey : p.id = id := findById_key hp
  have hg := productPreSave_fields (assignProduct p body)
  have hgr := productPreSave_rating (assignProduct p body)
  have hid : (assignProduct p body).id = id := hkey
  unfold updateProduct
  rw [hp]
  dsimp only
  cases hsave : saveProduct ps (assignProduct p body) with
  | none => exact ⟨p, hp, rfl, rfl⟩
  | some ps1 =>
    have hps1 := saveProduct_some hsave
    subst hps1
    dsimp only
    rw [hid, findById_updateById_self ?_ ps, hp]
    · refine ⟨_, rfl, ?_, ?_⟩
      · rw [hgr.1]
        simp [assignProduct, hrating]
      · rw [hgr.2]
        simp [assignProduct, hcount]
    · intro x _
      rw [hg.1]
      exact hid

/-- A product whose status is `out_of_stock` cannot be restocked through
`updateProduct` unless the body also sets a status of the `enum` in force: the
save is refused and the product is left as it was. -/
theorem updateProduct_restock_refused :
    updateProduct [{ sampleProduct 50 0 with status := ProductStatus.out_of_stock }] 1
        { price := none, stock := some 5, trackQuantity := none, status := none,
          rating := none, reviewCount := none } =
      ([{ sampleProduct 50 0 with status := ProductStatus.out_of_stock }],
        ProductResponse.validationFailed) := by
  decide!

/-- C21 (code defect): product 1 has no review, rating 0
and reviewCount 0; `updateProduct` with a body that carries rating 5 and
reviewCount 100 stores and returns the product with rating 5 and reviewCount 100. -/
theorem updateProduct_overwrites_rating :
    approvedReviewsOf emptyReviewStore.reviews 1 = [] ∧
    emptyReviewStore.products.map Product.rating = [0] ∧
    emptyReviewStore.products.map Product.reviewCount = [0] ∧
    updateProduct emptyReviewStore.products 1 ratingBody =
      ([{ sampleProduct 50 10 with rating := 5, reviewCount := 100 }],
       ProductResponse.product { sampleProduct 50 10 with rating := 5, reviewCount := 100 }) := by
  decide!

end Zamaci
